import Mathlib

/-!
# BetterMonitor semantic clustering engine — shallow embedding

This file embeds the clustering / vector-store core of the BetterMonitor
repository (`electron/openrouter.ts`, `electron/clustering.ts` section,
`electron/vector-store.ts` section, `electron/database.ts` embedding cache)
into Lean 4 and proves / refutes the frozen specification claims.

Modelling conventions:
* JavaScript numbers are modelled as `ℚ` (the clustering code performs only
  field arithmetic and comparisons on them).
* `Math.sqrt` appears only inside `cosineSimilarity`.  The exact real value
  `num / Real.sqrt den2` is kept as the pair `Sim` of its numerator and the
  product of squared magnitudes; the boolean comparisons `Sim.gtS` / `Sim.geQ`
  are proved equivalent (`Sim.gtS_iff`, `Sim.geQ_iff`) to the comparisons of
  the real-valued `cosineSimilarity` that the source performs, which keeps
  every algorithm executable.
* A JavaScript `Map` is modelled as an insertion-ordered association list
  (`JsMap`): `set` on a present key updates in place, on an absent key
  appends; iteration order is list order.  This matches `Map` semantics.
* Mutation is modelled by explicit state passing; `async` functions that can
  throw are modelled with `Option` results where the failure is observable.
-/

/-! ### Kernel-friendly string primitives

`String.take`, `String.drop`, `String.dropRight` and `String.startsWith`
are realized on the underlying character list, so that concrete runs of the
engine reduce inside the kernel; they agree with the library functions. -/

/-- `s.slice(0, n)`. -/
def strTake (s : String) (n : Nat) : String := ⟨s.data.take n⟩

/-- `s.slice(n)`. -/
def strDrop (s : String) (n : Nat) : String := ⟨s.data.drop n⟩

/-- `s.slice(0, -1)`. -/
def strDropLast (s : String) : String := ⟨s.data.dropLast⟩

/-- `s.startsWith(p)`. -/
def strStartsWith (s p : String) : Bool := p.data.isPrefixOf s.data

/-- Entry of a JavaScript `Map`. -/
abbrev JsMap (κ α : Type) := List (κ × α)

/-- `Map.get`. -/
def mapGet [DecidableEq κ] (m : JsMap κ α) (k : κ) : Option α :=
  (m.find? (fun p => decide (p.1 = k))).map (·.2)

/-- `Map.set`: replace the value at the first occurrence of the key,
preserving its position, otherwise append (JS `Map` insertion order). -/
def mapSet [DecidableEq κ] : JsMap κ α → κ → α → JsMap κ α
  | [], k, v => [(k, v)]
  | (k', v') :: rest, k, v =>
    if k' = k then (k', v) :: rest else (k', v') :: mapSet rest k v

/-- `Map.has`. -/
def mapHas [DecidableEq κ] (m : JsMap κ α) (k : κ) : Bool :=
  (mapGet m k).isSome

/-- Keep the first occurrence of every element, in first-seen order
(the semantics of JavaScript `[...new Set(l)]`). -/
def dedupFirst [DecidableEq α] (l : List α) : List α :=
  l.foldl (fun acc x => if acc.contains x then acc else acc ++ [x]) []

/-! ## Vector arithmetic (`cosineSimilarity`, `calculateCentroid`) -/

/-- Dot product (`dotProduct` accumulator of `cosineSimilarity`). -/
def dot (a b : List ℚ) : ℚ := (List.zipWith (· * ·) a b).sum

/-- Sum of squared entries (`magnitudeA`/`magnitudeB` accumulators of
`cosineSimilarity` before the square root is taken). -/
def sumSq (a : List ℚ) : ℚ := dot a a

/-- `cosineSimilarity` of `openrouter.ts`: normalized dot product, `0` when
either magnitude is zero.  (The source throws on a length mismatch; all
vectors compared by the engine share one dimension, and no claim concerns
the mismatch path.) -/
noncomputable def cosineSimilarity (a b : List ℚ) : ℝ :=
  if sumSq a = 0 ∨ sumSq b = 0 then 0
  else (dot a b : ℝ) / (Real.sqrt (sumSq a) * Real.sqrt (sumSq b))

/-- Exact representation of a cosine-similarity value `num / √den2`:
`num` is the dot product and `den2` the product of the two squared
magnitudes (`den2 > 0` for every value the engine builds). -/
structure Sim where
  num : ℚ
  den2 : ℚ
deriving DecidableEq, Repr

/-- The real similarity value represented by a `Sim`. -/
noncomputable def Sim.toReal (s : Sim) : ℝ := (s.num : ℝ) / Real.sqrt s.den2

/-- The similarity of two vectors as a `Sim` pair; mirrors the zero-magnitude
guard of `cosineSimilarity`. -/
def simOfVecs (a b : List ℚ) : Sim :=
  if sumSq a = 0 ∨ sumSq b = 0 then ⟨0, 1⟩ else ⟨dot a b, sumSq a * sumSq b⟩

/-- Decides `c ≤ s.toReal` (the source's `similarity >= threshold`). -/
def Sim.geQ (s : Sim) (c : ℚ) : Bool :=
  if 0 ≤ s.num then decide (c ≤ 0) || decide (c ^ 2 * s.den2 ≤ s.num ^ 2)
  else decide (c < 0) && decide (s.num ^ 2 ≤ c ^ 2 * s.den2)

/-- Decides `t.toReal < s.toReal` (the source's `similarity > bestSimilarity`). -/
def Sim.gtS (s t : Sim) : Bool :=
  if 0 ≤ s.num then
    if 0 ≤ t.num then decide (t.num ^ 2 * s.den2 < s.num ^ 2 * t.den2)
    else true
  else
    if 0 ≤ t.num then false
    else decide (s.num ^ 2 * t.den2 < t.num ^ 2 * s.den2)

/-- `ProcessVectorStore.calculateCentroid`: element-wise mean, `[]` for an
empty input.  (The source iterates the dimension of the first vector; all
inputs the engine supplies share one dimension.) -/
def calculateCentroid (embeddings : List (List ℚ)) : List ℚ :=
  match embeddings with
  | [] => []
  | e0 :: _ =>
    (List.range e0.length).map
      (fun i => (embeddings.map (fun e => e.getD i 0)).sum / embeddings.length)

/-! ## Data model (`shared/types.ts`) -/

/-- `SystemProcess` (the fields the clustering engine reads).  The optional
`netIn`/`netOut` fields are read through `(p.netIn || 0)` in the source, so
an absent field is identified with `0`. -/
structure SystemProcess where
  pid : Int
  name : String
  command : String
  cpu : ℚ
  mem : ℚ
  netIn : ℚ := 0
  netOut : ℚ := 0
deriving DecidableEq, Repr, Inhabited

/-- `aggregateStats` of a `ProcessCluster`. -/
structure AggregateStats where
  totalCpu : ℚ
  totalMem : ℚ
  totalNetIn : ℚ
  totalNetOut : ℚ
  processCount : Nat
deriving DecidableEq, Repr, Inhabited

/-- `ProcessCluster` of `shared/types.ts`.  The `children` field makes the
type recursive, hence an inductive with named projections below.  The
`category` union type is kept as a `String`. -/
inductive ProcessCluster where
  | mk (id : String) (name : String) (descr : String) (category : String)
      (processIds : List Int) (centroid : List ℚ)
      (children : List ProcessCluster) (parent : Option String)
      (depth : Nat) (aggregateStats : AggregateStats)
deriving Inhabited

def ProcessCluster.id : ProcessCluster → String
  | .mk i _ _ _ _ _ _ _ _ _ => i

def ProcessCluster.name : ProcessCluster → String
  | .mk _ n _ _ _ _ _ _ _ _ => n

def ProcessCluster.descr : ProcessCluster → String
  | .mk _ _ d _ _ _ _ _ _ _ => d

def ProcessCluster.category : ProcessCluster → String
  | .mk _ _ _ c _ _ _ _ _ _ => c

def ProcessCluster.processIds : ProcessCluster → List Int
  | .mk _ _ _ _ p _ _ _ _ _ => p

def ProcessCluster.centroid : ProcessCluster → List ℚ
  | .mk _ _ _ _ _ c _ _ _ _ => c

def ProcessCluster.children : ProcessCluster → List ProcessCluster
  | .mk _ _ _ _ _ _ ch _ _ _ => ch

def ProcessCluster.parent : ProcessCluster → Option String
  | .mk _ _ _ _ _ _ _ p _ _ => p

def ProcessCluster.depth : ProcessCluster → Nat
  | .mk _ _ _ _ _ _ _ _ d _ => d

def ProcessCluster.aggregateStats : ProcessCluster → AggregateStats
  | .mk _ _ _ _ _ _ _ _ _ s => s

/-- `ClusterTree` of `shared/types.ts`. -/
structure ClusterTree where
  root : ProcessCluster
  flatList : List ProcessCluster
  lastUpdated : Nat

/-! ## Clustering constants (`clustering.ts`) -/

/-- `SIMILARITY_THRESHOLD = 0.75`. -/
def similarityThreshold : ℚ := 3 / 4

/-- `MERGE_THRESHOLD = 0.8`. -/
def mergeThreshold : ℚ := 4 / 5

/-- `MAX_CLUSTER_SIZE = 25`. -/
def maxClusterSize : Nat := 25

/-- `MIN_CLUSTER_SIZE = 2`. -/
def minClusterSize : Nat := 2

/-- `createEmptyCluster` with no overrides; call sites spell out their
overridden fields over these defaults. -/
def createEmptyCluster (id : String) : ProcessCluster :=
  .mk id "Uncategorized" "" "Other" [] [] [] none 1 ⟨0, 0, 0, 0, 0⟩

/-- `createSingletonCluster`. -/
def createSingletonCluster (p : SystemProcess) (embedding : List ℚ)
    (id : String) : ProcessCluster :=
  .mk id p.name ("Single process: " ++ p.name) "Other" [p.pid] embedding []
    none 1 ⟨p.cpu, p.mem, p.netIn, p.netOut, 1⟩

/-- `updateClusterStats` (functional: returns the updated cluster). -/
def updateClusterStats (c : ProcessCluster) (processes : List SystemProcess) :
    ProcessCluster :=
  let clusterProcesses := processes.filter (fun p => c.processIds.contains p.pid)
  match c with
  | .mk i n d cat pids cen ch par dep _ =>
    .mk i n d cat pids cen ch par dep
      ⟨(clusterProcesses.map (·.cpu)).sum,
       (clusterProcesses.map (·.mem)).sum,
       (clusterProcesses.map (·.netIn)).sum,
       (clusterProcesses.map (·.netOut)).sum,
       clusterProcesses.length⟩

/-! ## Vector store (`vector-store.ts`)

`summarizeCommand` strips macOS path prefixes with eight regex replacements
and truncates to 200 characters.  Its exact value never matters to a claim
(it only shapes the persistent-cache text key), so it is passed as an
explicit function parameter `sc`; every theorem below holds for all `sc`. -/

/-- `ProcessVector` of `vector-store.ts`. -/
structure ProcessVector where
  pid : Int
  name : String
  command : String
  embedding : List ℚ
  text : String
deriving DecidableEq, Repr

/-- The mutable state touched by the vector store: the in-memory
`vectors` map and the persistent embedding cache of `database.ts`
(`getCachedEmbedding` / `cacheEmbedding`, keyed by the text). -/
structure World where
  vectors : JsMap String ProcessVector
  db : JsMap String (List ℚ)
deriving DecidableEq, Repr

/-- `processToText`: `name: summarizedCommand`. -/
def processToText (sc : String → String) (p : SystemProcess) : String :=
  p.name ++ ": " ++ sc p.command

/-- `ProcessVectorStore.getKey`: `` `${name}::${command}`.slice(0, 500) ``. -/
def getKey (p : SystemProcess) : String :=
  strTake (p.name ++ "::" ++ p.command) 500

/-- Item of the `uncached` array built by `batchGetEmbeddings`. -/
structure UncachedItem where
  process : SystemProcess
  text : String
  key : String
deriving DecidableEq, Repr

/-- First pass of `batchGetEmbeddings`: check the in-memory map, then the
persistent cache, collecting the misses (in order) in `uncached`. -/
def firstPass (sc : String → String) :
    List SystemProcess → JsMap String (List ℚ) → World →
    JsMap String (List ℚ) × World × List UncachedItem
  | [], r, w => (r, w, [])
  | p :: rest, r, w =>
    let key := getKey p
    let text := processToText sc p
    match mapGet w.vectors key with
    | some pv => firstPass sc rest (mapSet r key pv.embedding) w
    | none =>
      match mapGet w.db text with
      | some cached =>
        firstPass sc rest (mapSet r key cached)
          { w with vectors := mapSet w.vectors key ⟨p.pid, p.name, p.command, cached, text⟩ }
      | none =>
        let (r', w', u) := firstPass sc rest r w
        (r', w', ⟨p, text, key⟩ :: u)

/-- Fuel-driven worker for `chunksOf`; each step consumes `n ≥ 1` elements,
so fuel `l.length` always reaches the empty list first. -/
def chunksOfGo (n : Nat) : Nat → List α → List (List α)
  | 0, _ => []
  | fuel + 1, l =>
    if l.isEmpty ∨ n = 0 then []
    else l.take n :: chunksOfGo n fuel (l.drop n)

/-- `l` cut into consecutive chunks of `n` (the `i += batchSize` loop). -/
def chunksOf (n : Nat) (l : List α) : List (List α) :=
  chunksOfGo n l.length l

/-- The batched fetch loop of `batchGetEmbeddings`.  `getE` is the external
provider `getEmbeddings` (a failing call returns `none`).  The entire loop
is wrapped in one `try`: the first failing batch aborts the remaining
batches, keeping `r` as accumulated so far.  The third component is the
transcript of provider calls that were issued. -/
def fetchBatches (getE : List String → Option (List (List ℚ))) :
    List (List UncachedItem) → JsMap String (List ℚ) → World →
    List (List String) →
    JsMap String (List ℚ) × World × List (List String)
  | [], r, w, sent => (r, w, sent)
  | b :: rest, r, w, sent =>
    let texts := b.map (·.text)
    match getE texts with
    | none => (r, w, sent ++ [texts])
    | some es =>
      let rw := (b.zip es).foldl
        (fun (rw : JsMap String (List ℚ) × World) pe =>
          (mapSet rw.1 pe.1.key pe.2,
           { vectors := mapSet rw.2.vectors pe.1.key
               ⟨pe.1.process.pid, pe.1.process.name, pe.1.process.command,
                pe.2, pe.1.text⟩,
             db := mapSet rw.2.db pe.1.text pe.2 }))
        (r, w)
      fetchBatches getE rest rw.1 rw.2 (sent ++ [texts])

/-- `ProcessVectorStore.batchGetEmbeddings` (returns, additionally, the
transcript of issued provider calls). -/
def batchGetEmbeddings (getE : List String → Option (List (List ℚ)))
    (sc : String → String) (w : World) (processes : List SystemProcess) :
    JsMap String (List ℚ) × World × List (List String) :=
  let (r, w1, uncached) := firstPass sc processes [] w
  if uncached.isEmpty then (r, w1, [])
  else fetchBatches getE (chunksOf 50 uncached) r w1 []

/-- `ProcessVectorStore.findNearestCentroid`; the similarity kept in `best`
is carried as a `Sim`. -/
def findNearestCentroid (embedding : List ℚ)
    (centroids : List (String × List ℚ)) : Option (String × Sim) :=
  match centroids with
  | [] => none
  | _ =>
    centroids.foldl
      (fun best idc =>
        let s := simOfVecs embedding idc.2
        match best with
        | none => some (idc.1, s)
        | some (bid, bs) => if s.gtS bs then some (idc.1, s) else some (bid, bs))
      none

/-! ## Tier 1: fast assignment (`assignProcessToCluster`) -/

/-- Result of `assignProcessToCluster`: the (possibly mutated) cluster list,
the returned `{ cluster, isNew }`, and the module-level `singletonCount`. -/
structure AssignResult where
  clusters : List ProcessCluster
  cluster : ProcessCluster
  isNew : Bool
  singletonCount : Nat

/-- Replace the first cluster bearing the given id (in-place mutation of the
object found by `clusters.find`). -/
def replaceById : List ProcessCluster → String → ProcessCluster →
    List ProcessCluster
  | [], _, _ => []
  | c :: rest, bid, u =>
    if c.id = bid then u :: rest else c :: replaceById rest bid u

/-- `assignProcessToCluster`.  The `embedding` argument is the value of
`await vectorStore.getProcessEmbedding(process)`; `newId` the value
`generateClusterId()` would produce for a fresh singleton. -/
def assignProcessToCluster (p : SystemProcess) (embedding : List ℚ)
    (clusters : List ProcessCluster) (singletonCount : Nat)
    (newId : String) : AssignResult :=
  let centroids := (clusters.filter (fun c => decide (0 < c.centroid.length))).map
    (fun c => (c.id, c.centroid))
  let mkSingleton : AssignResult :=
    ⟨clusters, createSingletonCluster p embedding newId, true, singletonCount + 1⟩
  match findNearestCentroid embedding centroids with
  | some (bid, s) =>
    if s.geQ similarityThreshold then
      let cluster := (clusters.find? (fun c => decide (c.id = bid))).getD
        (createEmptyCluster "")
      if cluster.processIds.contains p.pid then
        ⟨clusters, cluster, false, singletonCount⟩
      else
        let newPids := cluster.processIds ++ [p.pid]
        let allEmbeddings := List.replicate (min 10 newPids.length) cluster.centroid
        let newCentroid := calculateCentroid (allEmbeddings ++ [embedding])
        let updated := match cluster with
          | .mk i n d cat _ _ ch par dep st => ProcessCluster.mk i n d cat newPids newCentroid ch par dep st
        ⟨replaceById clusters bid updated, updated, false, singletonCount⟩
    else mkSingleton
  | none => mkSingleton

/-! ## Tier 2: full recluster (`fullRecluster`, `agglomerativeClusterWithPids`)

`generateClusterId()` draws on `Date.now()` and `Math.random()`; it is
modelled by an arbitrary id supply `ids : Nat → String` consumed in call
order, so that two runs may observe different ids. -/

/-- Internal cluster record of `agglomerativeClusterWithPids`. -/
structure MCluster where
  id : String
  processIds : List Int
  embeddings : List (List ℚ)
  centroid : List ℚ
deriving DecidableEq, Repr, Inhabited

/-- Item of the `processEmbeddings` array built by `fullRecluster`:
one representative process per text group plus all pids of the group. -/
structure ClusterItem where
  process : SystemProcess
  embedding : List ℚ
  allPids : List Int
deriving DecidableEq, Repr, Inhabited

/-- Centroid of the cluster at index `i`. -/
def centroidAt (cs : List MCluster) (i : Nat) : List ℚ :=
  (cs.getD i default).centroid

/-- All index pairs `i < j < n` in the row-major order of the double loop. -/
def allPairs (n : Nat) : List (Nat × Nat) :=
  (List.range n).flatMap (fun i => (List.range' (i + 1) (n - (i + 1))).map (fun j => (i, j)))

/-- Body of the best-pair scan: consider pair `ij`, replacing the best pair
so far when `similarity > bestSimilarity && similarity >= MERGE_THRESHOLD`. -/
def scanF (cs : List MCluster) (acc : Sim × Option (Nat × Nat)) (ij : Nat × Nat) :
    Sim × Option (Nat × Nat) :=
  let s := simOfVecs (centroidAt cs ij.1) (centroidAt cs ij.2)
  if s.gtS acc.1 && s.geQ mergeThreshold then (s, some ij) else acc

/-- The best-pair scan: pick the pair maximizing centroid similarity, first
found wins ties, with `bestSimilarity` starting at `0`. -/
def scanPairs (cs : List MCluster) : Option (Nat × Nat) :=
  ((allPairs cs.length).foldl (scanF cs) (⟨0, 1⟩, none)).2

/-- `clusters.filter((_, idx) => idx !== i && idx !== j)`. -/
def removeTwo (cs : List α) (i j : Nat) : List α :=
  (cs.enum.filter (fun p => decide (p.1 ≠ i) && decide (p.1 ≠ j))).map (·.2)

/-- One iteration of the merge loop: find the most similar pair; merge it
(appending the merged cluster) if the combined unique-text-group count
respects `MAX_CLUSTER_SIZE`, otherwise stop (`merged` stays `false` even if
other pairs would qualify). -/
def mergeStep (newId : String) (cs : List MCluster) : Option (List MCluster) :=
  match scanPairs cs with
  | none => none
  | some (i, j) =>
    let c1 := cs.getD i default
    let c2 := cs.getD j default
    if c1.embeddings.length + c2.embeddings.length ≤ maxClusterSize then
      some (removeTwo cs i j ++
        [⟨newId, c1.processIds ++ c2.processIds, c1.embeddings ++ c2.embeddings,
          calculateCentroid (c1.embeddings ++ c2.embeddings)⟩])
    else none

/-- `while (merged && clusters.length > 1)`.  Each successful step shrinks
the list by one, so fuel `cs.length` always reaches the loop's own exit. -/
def mergeLoop (ids : Nat → String) : Nat → List MCluster → Nat →
    List MCluster × Nat
  | 0, cs, k => (cs, k)
  | fuel + 1, cs, k =>
    if cs.length ≤ 1 then (cs, k)
    else
      match mergeStep (ids k) cs with
      | none => (cs, k)
      | some cs' => mergeLoop ids fuel cs' (k + 1)

/-- The initial cluster list of `agglomerativeClusterWithPids`: one cluster
per text group, holding all the group's pids. -/
def aggloInit (ids : Nat → String) (items : List ClusterItem) : List MCluster :=
  items.enum.map (fun p => ⟨ids p.1, p.2.allPids, [p.2.embedding], p.2.embedding⟩)

/-- The cluster list after the merge loop of `agglomerativeClusterWithPids`
(the value of the `clusters` variable when the `while` exits). -/
def aggloMerged (ids : Nat → String) (items : List ClusterItem) : List MCluster :=
  (mergeLoop ids (aggloInit ids items).length (aggloInit ids items) items.length).1

/-- `agglomerativeClusterWithPids`: one initial cluster per text group, the
merge loop, then the small-cluster post-filter and conversion to
`ProcessCluster` (a `createEmptyCluster` with id/pids/centroid overridden). -/
def agglomerativeClusterWithPids (ids : Nat → String)
    (items : List ClusterItem) : List ProcessCluster :=
  if items.isEmpty then []
  else
    let cs := aggloMerged ids items
    (cs.filter (fun c =>
        decide (minClusterSize ≤ c.embeddings.length) || decide (cs.length ≤ 5))).map
      (fun c => ProcessCluster.mk c.id "Uncategorized" "" "Other" c.processIds
        c.centroid [] none 1 ⟨0, 0, 0, 0, 0⟩)

/-! ## Cluster naming (`generateClusterNames` and helpers) -/

/-- The `while (!strings[i].startsWith(prefix) && prefix.length > 0)` loop:
drop trailing characters until `s` starts with the candidate (fuel
`pre.length + 1` dominates the loop, which shortens `pre` each pass). -/
def shrinkAgainst (s : String) (pre : String) : String :=
  go (pre.length + 1) pre
where
  go : Nat → String → String
    | 0, pre => pre
    | fuel + 1, pre =>
      if pre.length = 0 then pre
      else if strStartsWith s pre then pre
      else go fuel (strDropLast pre)

/-- `findCommonPrefix`. -/
def findCommonPrefix (strings : List String) : String :=
  match strings with
  | [] => ""
  | s :: rest => rest.foldl (fun pre t => shrinkAgainst t pre) s

/-- `pattern.test(joined)` for the literal-alternative regexes of
`inferCategory`: some alternative occurs as a substring. -/
def strContainsSub (hay pat : String) : Bool :=
  (List.range (hay.length + 1)).any (fun i => strStartsWith (strDrop hay i) pat)

/-- `inferCategory`: keyword sets checked in fixed priority order over the
lower-cased, space-joined names. -/
def inferCategory (names : List String) : String :=
  let joined := (String.intercalate " " names).toLower
  if ["chrome", "safari", "firefox", "edge", "browser", "webkit"].any
      (strContainsSub joined) then "Browser"
  else if ["node", "python", "ruby", "java", "vscode", "xcode", "git", "npm",
      "yarn"].any (strContainsSub joined) then "Development"
  else if ["slack", "zoom", "teams", "discord", "telegram", "messages"].any
      (strContainsSub joined) then "Communication"
  else if ["spotify", "music", "video", "vlc", "quicktime", "audio"].any
      (strContainsSub joined) then "Media"
  else if ["kernel", "launchd", "system", "daemon", "agent"].any
      (strContainsSub joined) then "System"
  else if ["helper", "agent", "service", "worker"].any
      (strContainsSub joined) then "Background"
  else "Other"

/-- Stable insertion of `x` into a list ordered by the total preorder `le`:
`x` lands after every element it compares `le`-greater-or-equal against. -/
def insertLe (le : α → α → Bool) (x : α) : List α → List α
  | [] => [x]
  | y :: ys => if le y x then y :: insertLe le x ys else x :: y :: ys

/-- `Array.prototype.sort` with a consistent comparator is a stable sort;
modelled by a stable insertion sort. -/
def stableSortLe (le : α → α → Bool) (l : List α) : List α :=
  l.foldl (fun acc x => insertLe le x acc) []

/-- Overwrite name, description and category (the only fields
`generateClusterNames` assigns). -/
def setNameDescCat (c : ProcessCluster) (n d cat : String) : ProcessCluster :=
  match c with
  | .mk i _ _ _ pids cen ch par dep st => .mk i n d cat pids cen ch par dep st

/-- The per-cluster heuristic naming of `generateClusterNames` (the AI
fallback in the source is commented out; `needsAI` stays empty). -/
def nameCluster (processes : List SystemProcess) (c : ProcessCluster) :
    ProcessCluster :=
  let clusterProcesses := processes.filter (fun p => c.processIds.contains p.pid)
  let uniqueNames := dedupFirst (clusterProcesses.map (·.name))
  if uniqueNames.length = 1 then
    setNameDescCat c uniqueNames.headI
      (toString clusterProcesses.length ++ " instance(s) of " ++ uniqueNames.headI)
      (inferCategory uniqueNames)
  else
    let cp := findCommonPrefix uniqueNames
    if 3 ≤ cp.length then
      setNameDescCat c cp (toString uniqueNames.length ++ " related processes")
        (inferCategory uniqueNames)
    else
      let nameCounts := uniqueNames.foldl
        (fun m n => mapSet m n ((mapGet m n).getD 0 + 1)) ([] : JsMap String Nat)
      let sorted := stableSortLe (fun a b => decide (a.2 ≥ b.2)) nameCounts
      let cat := inferCategory uniqueNames
      let categoryNamed := setNameDescCat c (cat ++ " processes")
        (toString uniqueNames.length ++ " " ++ cat.toLower ++ " processes") cat
      match sorted.head? with
      | some d =>
        if uniqueNames.length < 2 * d.2 then
          setNameDescCat c (d.1 ++ " & related")
            (toString uniqueNames.length ++ " related processes")
            (inferCategory uniqueNames)
        else categoryNamed
      | none => categoryNamed

/-- `generateClusterNames` (functional: returns the renamed clusters). -/
def generateClusterNames (clusters : List ProcessCluster)
    (processes : List SystemProcess) : List ProcessCluster :=
  clusters.map (nameCluster processes)

/-! ## Tree building (`buildClusterTree`, `createEmptyTree`) -/

/-- The mutation `cluster.parent = 'root'; cluster.depth = 1`. -/
def setParentDepthRoot (c : ProcessCluster) : ProcessCluster :=
  match c with
  | .mk i n d cat pids cen ch _ _ st => .mk i n d cat pids cen ch (some "root") 1 st

/-- `buildClusterTree`; `now` stands for `Date.now()`. -/
def buildClusterTree (clusters : List ProcessCluster) (now : Nat) : ClusterTree :=
  let cs := clusters.map setParentDepthRoot
  let root : ProcessCluster := .mk "root" "All Processes" "" "Other" [] [] cs none 0
    ⟨(cs.map (·.aggregateStats.totalCpu)).sum,
     (cs.map (·.aggregateStats.totalMem)).sum,
     (cs.map (·.aggregateStats.totalNetIn)).sum,
     (cs.map (·.aggregateStats.totalNetOut)).sum,
     (cs.map (·.aggregateStats.processCount)).sum⟩
  ⟨root, root :: cs, now⟩

/-- `createEmptyTree`. -/
def createEmptyTree (now : Nat) : ClusterTree :=
  let root : ProcessCluster :=
    .mk "root" "All Processes" "" "Other" [] [] [] none 0 ⟨0, 0, 0, 0, 0⟩
  ⟨root, [root], now⟩

/-- The activity filter of `fullRecluster`:
`p.cpu > 0 || p.mem > 0.1 || (p.netIn || 0) > 0 || (p.netOut || 0) > 0`. -/
def isActive (p : SystemProcess) : Bool :=
  decide (0 < p.cpu) || decide (1 / 10 < p.mem) ||
  decide (0 < p.netIn) || decide (0 < p.netOut)

/-- The `byName` grouping of `fullRecluster`: a JS `Map` from process name
to the list of active processes bearing it, in first-seen order. -/
def groupByName (activeProcesses : List SystemProcess) :
    JsMap String (List SystemProcess) :=
  activeProcesses.foldl
    (fun m p => mapSet m p.name ((mapGet m p.name).getD [] ++ [p])) []

/-- The `processEmbeddings` array: one `ClusterItem` per text group whose
representative's key received an embedding. -/
def buildItems (embeddingsMap : JsMap String (List ℚ))
    (byName : JsMap String (List SystemProcess)) : List ClusterItem :=
  byName.filterMap (fun e =>
    let representative := e.2.headI
    let key := strTake (representative.name ++ "::" ++ representative.command) 500
    match mapGet embeddingsMap key with
    | some emb => some ⟨representative, emb, e.2.map (·.pid)⟩
    | none => none)

/-- `fullRecluster`.  `ids` supplies `generateClusterId()`, `getE` the
embedding provider, `sc` the command summarizer, `now` the clock. -/
def fullRecluster (ids : Nat → String)
    (getE : List String → Option (List (List ℚ))) (sc : String → String)
    (now : Nat) (w : World) (processes : List SystemProcess) :
    ClusterTree × World :=
  let activeProcesses := processes.filter isActive
  if activeProcesses.isEmpty then (createEmptyTree now, w)
  else
    let byName := groupByName activeProcesses
    let uniqueProcesses := byName.map (fun e => e.2.headI)
    let fetched := batchGetEmbeddings getE sc w uniqueProcesses
    let processEmbeddings := buildItems fetched.1 byName
    let clusters := agglomerativeClusterWithPids ids processEmbeddings
    let named := generateClusterNames clusters activeProcesses
    let withStats := named.map (fun c => updateClusterStats c activeProcesses)
    (buildClusterTree withStats now, fetched.2.1)

/-! ## Bridging the exact `Sim` comparisons to `cosineSimilarity` -/

lemma dot_cons (x y : ℚ) (xs ys : List ℚ) :
    dot (x :: xs) (y :: ys) = x * y + dot xs ys := by
  simp [dot]

lemma sumSq_nonneg (a : List ℚ) : 0 ≤ sumSq a := by
  induction a with
  | nil => simp [sumSq, dot]
  | cons x xs ih =>
    rw [sumSq, dot_cons]
    exact add_nonneg (mul_self_nonneg x) ih

lemma simOfVecs_den2_pos (a b : List ℚ) : 0 < (simOfVecs a b).den2 := by
  unfold simOfVecs
  split_ifs with h
  · exact one_pos
  · push_neg at h
    exact mul_pos (lt_of_le_of_ne (sumSq_nonneg a) (Ne.symm h.1))
      (lt_of_le_of_ne (sumSq_nonneg b) (Ne.symm h.2))

/-- The pair representation evaluates to the source's `cosineSimilarity`. -/
lemma simOfVecs_toReal (a b : List ℚ) :
    (simOfVecs a b).toReal = cosineSimilarity a b := by
  unfold simOfVecs cosineSimilarity Sim.toReal
  split_ifs with h
  · simp
  · push_neg at h
    have ha : (0:ℝ) ≤ (sumSq a : ℝ) := by exact_mod_cast sumSq_nonneg a
    rw [Rat.cast_mul, Real.sqrt_mul ha]

/-- `Sim.geQ` decides the threshold comparison the source performs on the
real cosine similarity. -/
lemma Sim.geQ_iff (s : Sim) (hd : 0 < s.den2) (c : ℚ) :
    s.geQ c = true ↔ (c : ℝ) ≤ s.toReal := by
  have hdR : (0:ℝ) < (s.den2 : ℝ) := by exact_mod_cast hd
  have hm : (0:ℝ) < Real.sqrt s.den2 := Real.sqrt_pos.mpr hdR
  have hsq : Real.sqrt s.den2 * Real.sqrt s.den2 = (s.den2 : ℝ) :=
    Real.mul_self_sqrt hdR.le
  have hB2 : ((c:ℝ) * Real.sqrt s.den2) ^ 2 = (c:ℝ) ^ 2 * (s.den2 : ℝ) := by
    rw [mul_pow]
    rw [sq (Real.sqrt s.den2), hsq]
  rw [Sim.toReal, le_div_iff₀ hm]
  unfold Sim.geQ
  split_ifs with hnum
  · have hnR : (0:ℝ) ≤ (s.num : ℝ) := by exact_mod_cast hnum
    rw [Bool.or_eq_true, decide_eq_true_eq, decide_eq_true_eq]
    constructor
    · rintro (hc | hc)
      · have hcR : (c:ℝ) ≤ 0 := by exact_mod_cast hc
        exact le_trans (mul_nonpos_of_nonpos_of_nonneg hcR hm.le) hnR
      · have hcR : (c:ℝ) ^ 2 * (s.den2 : ℝ) ≤ (s.num : ℝ) ^ 2 := by exact_mod_cast hc
        nlinarith [hB2, hcR, hnR, hm, sq_nonneg ((c:ℝ) * Real.sqrt s.den2 + (s.num : ℝ))]
    · intro h
      by_cases hc : c ≤ 0
      · exact Or.inl hc
      · push_neg at hc
        have hcR : (0:ℝ) < (c : ℝ) := by exact_mod_cast hc
        right
        have hBpos : 0 < (c:ℝ) * Real.sqrt s.den2 := mul_pos hcR hm
        have key : ((c:ℝ) * Real.sqrt s.den2) * ((c:ℝ) * Real.sqrt s.den2) ≤
            (s.num : ℝ) * (s.num : ℝ) := mul_le_mul h h hBpos.le hnR
        have : (c:ℝ) ^ 2 * (s.den2 : ℝ) ≤ (s.num : ℝ) ^ 2 := by nlinarith [key, hsq]
        exact_mod_cast this
  · push_neg at hnum
    have hnR : (s.num : ℝ) < 0 := by exact_mod_cast hnum
    rw [Bool.and_eq_true, decide_eq_true_eq, decide_eq_true_eq]
    constructor
    · rintro ⟨hc, hsqle⟩
      have hcR : (c:ℝ) < 0 := by exact_mod_cast hc
      have hle : (s.num : ℝ) ^ 2 ≤ (c:ℝ) ^ 2 * (s.den2 : ℝ) := by exact_mod_cast hsqle
      have hBneg : (c:ℝ) * Real.sqrt s.den2 < 0 := mul_neg_of_neg_of_pos hcR hm
      nlinarith [hB2, hle, hBneg, hnR]
    · intro h
      have hc : c < 0 := by
        by_contra hge
        push_neg at hge
        have hcR : (0:ℝ) ≤ (c : ℝ) := by exact_mod_cast hge
        nlinarith [mul_nonneg hcR hm.le, hnR, h]
      refine ⟨hc, ?_⟩
      have hcR : (c:ℝ) < 0 := by exact_mod_cast hc
      have hBneg : (c:ℝ) * Real.sqrt s.den2 < 0 := mul_neg_of_neg_of_pos hcR hm
      have : (s.num : ℝ) ^ 2 ≤ (c:ℝ) ^ 2 * (s.den2 : ℝ) := by
        nlinarith [hB2, hBneg, hnR, h]
      exact_mod_cast this

/-! ## The merge loop's exit condition (claim C4) -/

/-- Once the scan has recorded a best pair it never reverts to `none`. -/
lemma scanFold_isSome (cs : List MCluster) (P : List (Nat × Nat))
    (acc : Sim × Option (Nat × Nat)) (h : acc.2.isSome) :
    ((P.foldl (scanF cs) acc).2).isSome := by
  induction P generalizing acc with
  | nil => exact h
  | cons ij P ih =>
    rw [List.foldl_cons]
    apply ih
    simp only [scanF]
    split_ifs <;> simp_all

/-- A similarity that clears the merge threshold also beats the initial
`bestSimilarity = 0`. -/
lemma geQ_merge_gtS_zero (a b : List ℚ)
    (h : (simOfVecs a b).geQ mergeThreshold = true) :
    (simOfVecs a b).gtS ⟨0, 1⟩ = true := by
  have hd : 0 < (simOfVecs a b).den2 := simOfVecs_den2_pos a b
  have hth : (0:ℚ) < mergeThreshold := by norm_num [mergeThreshold]
  unfold Sim.geQ at h
  by_cases h1 : 0 ≤ (simOfVecs a b).num
  · rw [if_pos h1, Bool.or_eq_true, decide_eq_true_eq, decide_eq_true_eq] at h
    have hq : mergeThreshold ^ 2 * (simOfVecs a b).den2 ≤ (simOfVecs a b).num ^ 2 := by
      rcases h with h | h
      · exact absurd h (not_le.mpr hth)
      · exact h
    unfold Sim.gtS
    rw [if_pos h1]
    show (if 0 ≤ (0:ℚ) then
        decide ((0:ℚ) ^ 2 * (simOfVecs a b).den2 < (simOfVecs a b).num ^ 2 * 1)
      else true) = true
    rw [if_pos le_rfl, decide_eq_true_eq]
    nlinarith [hq, hd, mul_pos (pow_pos hth 2) hd]
  · rw [if_neg h1, Bool.and_eq_true, decide_eq_true_eq] at h
    exact absurd h.1 (not_lt.mpr hth.le)

/-- If the scan ends with no pair recorded, no pair in the scanned list
clears the merge threshold. -/
lemma scanFold_none (cs : List MCluster) (P : List (Nat × Nat))
    (h : (P.foldl (scanF cs) (⟨0, 1⟩, none)).2 = none) :
    ∀ ij ∈ P, (simOfVecs (centroidAt cs ij.1) (centroidAt cs ij.2)).geQ
      mergeThreshold = false := by
  induction P with
  | nil => intro ij hij; cases hij
  | cons ij P ih =>
    rw [List.foldl_cons] at h
    have hcond : ((simOfVecs (centroidAt cs ij.1) (centroidAt cs ij.2)).gtS ⟨0, 1⟩ &&
        (simOfVecs (centroidAt cs ij.1) (centroidAt cs ij.2)).geQ mergeThreshold) = false := by
      by_contra hne
      have htrue := eq_true_of_ne_false hne
      have hsome : (scanF cs (⟨0, 1⟩, none) ij).2.isSome := by
        simp only [scanF]
        rw [htrue]
        simp
      have := scanFold_isSome cs P _ hsome
      rw [h] at this
      cases this
    have hstep : scanF cs (⟨0, 1⟩, none) ij = (⟨0, 1⟩, none) := by
      simp only [scanF]
      rw [hcond]
      simp
    rw [hstep] at h
    intro ij' hij'
    rcases List.mem_cons.mp hij' with rfl | hmem
    · by_contra hq
      have hq := eq_true_of_ne_false hq
      have hgt := geQ_merge_gtS_zero _ _ hq
      rw [hgt, hq] at hcond
      cases hcond
    · exact ih h ij' hmem

/-- If the scan records a pair, that pair was scanned and its similarity
clears the merge threshold. -/
lemma scanFold_some (cs : List MCluster) (P : List (Nat × Nat))
    (acc : Sim × Option (Nat × Nat)) (i j : Nat)
    (h : (P.foldl (scanF cs) acc).2 = some (i, j)) :
    ((i, j) ∈ P ∧ (simOfVecs (centroidAt cs i) (centroidAt cs j)).geQ
      mergeThreshold = true) ∨ acc.2 = some (i, j) := by
  induction P generalizing acc with
  | nil => exact Or.inr h
  | cons ij P ih =>
    rw [List.foldl_cons] at h
    rcases ih _ h with h' | h'
    · exact Or.inl ⟨List.mem_cons_of_mem _ h'.1, h'.2⟩
    · simp only [scanF] at h'
      split_ifs at h' with hcond
      · have hij : ij = (i, j) := by simpa using h'
        subst hij
        rw [Bool.and_eq_true] at hcond
        exact Or.inl ⟨List.mem_cons_self _ _, hcond.2⟩
      · exact Or.inr h'

/-- Membership in `allPairs n` means `i < j < n`. -/
lemma mem_allPairs {n i j : Nat} (h : (i, j) ∈ allPairs n) : i < j ∧ j < n := by
  unfold allPairs at h
  rw [List.mem_flatMap] at h
  obtain ⟨a, ha, hmem⟩ := h
  rw [List.mem_map] at hmem
  obtain ⟨b, hb, heq⟩ := hmem
  rw [List.mem_range] at ha
  rw [List.mem_range'] at hb
  obtain ⟨k, hk, rfl⟩ := hb
  cases heq
  omega

/-- All pairs `i < j < n` are scanned. -/
lemma mem_allPairs_of_lt {n i j : Nat} (hij : i < j) (hj : j < n) :
    (i, j) ∈ allPairs n := by
  unfold allPairs
  rw [List.mem_flatMap]
  refine ⟨i, List.mem_range.mpr (lt_trans hij hj), ?_⟩
  rw [List.mem_map]
  refine ⟨j, ?_, rfl⟩
  rw [List.mem_range']
  exact ⟨j - (i + 1), by omega, by omega⟩

/-- `scanPairs cs = none` leaves every pair below the merge threshold. -/
lemma scanPairs_none (cs : List MCluster) (h : scanPairs cs = none) :
    ∀ i j, i < j → j < cs.length →
      (simOfVecs (centroidAt cs i) (centroidAt cs j)).geQ mergeThreshold = false := by
  intro i j hij hj
  exact scanFold_none cs _ h (i, j) (mem_allPairs_of_lt hij hj)

/-- `scanPairs cs = some (i, j)` is a genuine above-threshold pair. -/
lemma scanPairs_some (cs : List MCluster) (i j : Nat)
    (h : scanPairs cs = some (i, j)) :
    i < j ∧ j < cs.length ∧
      (simOfVecs (centroidAt cs i) (centroidAt cs j)).geQ mergeThreshold = true := by
  rcases scanFold_some cs _ _ i j h with h' | h'
  · obtain ⟨hlt, hq⟩ := mem_allPairs h'.1
    exact ⟨hlt, hq, h'.2⟩
  · cases h'

/-- Single-index variant of `removeTwo` (proof helper). -/
def removeOne (cs : List α) (i : Nat) : List α :=
  (cs.enum.filter (fun p => decide (p.1 ≠ i))).map (·.2)

lemma removeOne_cons_zero (c : α) (rest : List α) :
    removeOne (c :: rest) 0 = rest := by
  unfold removeOne
  rw [List.enum_cons, List.enumFrom_eq_map_enum]
  simp [List.filter_map, List.map_map, Function.comp_def, List.enum_map_snd]

lemma removeOne_cons_succ (c : α) (rest : List α) (i : Nat) :
    removeOne (c :: rest) (i + 1) = c :: removeOne rest i := by
  unfold removeOne
  rw [List.enum_cons, List.enumFrom_eq_map_enum]
  simp [List.filter_map, List.map_map, Function.comp_def]

lemma removeTwo_cons_zero (c : α) (rest : List α) (j : Nat) :
    removeTwo (c :: rest) 0 (j + 1) = removeOne rest j := by
  unfold removeTwo removeOne
  rw [List.enum_cons, List.enumFrom_eq_map_enum]
  simp [List.filter_map, List.map_map, Function.comp_def]

lemma removeTwo_cons_succ (c : α) (rest : List α) (i j : Nat) :
    removeTwo (c :: rest) (i + 1) (j + 1) = c :: removeTwo rest i j := by
  unfold removeTwo
  rw [List.enum_cons, List.enumFrom_eq_map_enum]
  simp [List.filter_map, List.map_map, Function.comp_def]

lemma removeOne_perm [Inhabited α] (cs : List α) (i : Nat) (h : i < cs.length) :
    List.Perm (cs.getD i default :: removeOne cs i) cs := by
  induction cs generalizing i with
  | nil => cases h
  | cons c rest ih =>
    cases i with
    | zero =>
      rw [removeOne_cons_zero]
      exact List.Perm.refl (c :: rest)
    | succ i =>
      rw [removeOne_cons_succ]
      have hi : i < rest.length := by simpa using h
      have step := (ih i hi).cons c
      exact (List.Perm.swap c (rest.getD i default) (removeOne rest i)).trans step

lemma removeTwo_perm [Inhabited α] (cs : List α) (i j : Nat) (hij : i < j)
    (hj : j < cs.length) :
    List.Perm (cs.getD i default :: cs.getD j default :: removeTwo cs i j) cs := by
  induction cs generalizing i j with
  | nil => cases hj
  | cons c rest ih =>
    cases i with
    | zero =>
      obtain ⟨j', rfl⟩ : ∃ j', j = j' + 1 := ⟨j - 1, by omega⟩
      rw [removeTwo_cons_zero]
      have hj' : j' < rest.length := by simpa using hj
      exact (removeOne_perm rest j' hj').cons c
    | succ i =>
      obtain ⟨j', rfl⟩ : ∃ j', j = j' + 1 := ⟨j - 1, by omega⟩
      rw [removeTwo_cons_succ]
      have hij' : i < j' := by omega
      have hj' : j' < rest.length := by simpa using hj
      have step := (ih i j' hij' hj').cons c
      have h1 : List.Perm
          (rest.getD i default :: rest.getD j' default :: c :: removeTwo rest i j')
          (rest.getD i default :: c :: rest.getD j' default :: removeTwo rest i j') :=
        (List.Perm.swap c (rest.getD j' default) (removeTwo rest i j')).cons _
      have h2 : List.Perm
          (rest.getD i default :: c :: rest.getD j' default :: removeTwo rest i j')
          (c :: rest.getD i default :: rest.getD j' default :: removeTwo rest i j') :=
        List.Perm.swap c (rest.getD i default) _
      exact (h1.trans h2).trans step

lemma removeTwo_length [Inhabited α] (cs : List α) (i j : Nat) (hij : i < j)
    (hj : j < cs.length) : (removeTwo cs i j).length + 2 = cs.length := by
  have := (removeTwo_perm cs i j hij hj).length_eq
  simp only [List.length_cons] at this
  omega

/-- Whether a merge step fires does not depend on the generated id. -/
lemma mergeStep_none_indep (a b : String) (cs : List MCluster)
    (h : mergeStep a cs = none) : mergeStep b cs = none := by
  unfold mergeStep at h ⊢
  cases hscan : scanPairs cs with
  | none => rw [hscan] at h
  | some ij =>
    rw [hscan] at h
    obtain ⟨i, j⟩ := ij
    dsimp only at h ⊢
    split_ifs at h ⊢ with hsz
    rfl

/-- A successful merge step removes exactly one cluster. -/
lemma mergeStep_length (nid : String) (cs cs' : List MCluster)
    (h : mergeStep nid cs = some cs') : cs'.length + 1 = cs.length := by
  unfold mergeStep at h
  cases hscan : scanPairs cs with
  | none => rw [hscan] at h; cases h
  | some ij =>
    rw [hscan] at h
    obtain ⟨i, j⟩ := ij
    obtain ⟨hij, hj, -⟩ := scanPairs_some cs i j hscan
    dsimp only at h
    split_ifs at h with hsz
    cases h
    have := removeTwo_length cs i j hij hj
    simp only [List.length_append, List.length_cons, List.length_nil]
    omega

/-- With fuel at least the cluster count, the loop runs to a genuine
fixpoint: it stops only with at most one cluster or a failing step. -/
lemma mergeLoop_fix (ids : Nat → String) (fuel : Nat) (cs : List MCluster)
    (k : Nat) (hf : cs.length ≤ fuel) :
    ((mergeLoop ids fuel cs k).1).length ≤ 1 ∨
      ∀ s, mergeStep s ((mergeLoop ids fuel cs k).1) = none := by
  induction fuel generalizing cs k with
  | zero =>
    left
    simp only [mergeLoop]
    omega
  | succ fuel ih =>
    show ((mergeLoop ids (fuel + 1) cs k).1).length ≤ 1 ∨ _
    rw [mergeLoop]
    by_cases hlen : cs.length ≤ 1
    · rw [if_pos hlen]
      exact Or.inl hlen
    · rw [if_neg hlen]
      cases hstep : mergeStep (ids k) cs with
      | none =>
        right
        intro s
        exact mergeStep_none_indep _ s _ hstep
      | some cs' =>
        have hlen' : cs'.length ≤ fuel := by
          have := mergeStep_length _ _ _ hstep
          omega
        exact ih cs' (k + 1) hlen'

/-- A failing step with a recorded best pair means that pair is oversized. -/
lemma mergeStep_none_some (s : String) (cs : List MCluster) (i j : Nat)
    (h : mergeStep s cs = none) (hscan : scanPairs cs = some (i, j)) :
    maxClusterSize < (cs.getD i default).embeddings.length +
      (cs.getD j default).embeddings.length := by
  unfold mergeStep at h
  rw [hscan] at h
  dsimp only at h
  split_ifs at h with hsz
  omega

/-- **Claim C4 (amended).**  When the agglomerative merge loop terminates
with more than one cluster, either no pair of remaining clusters reaches
centroid cosine similarity `0.8`, or the single most-similar pair found by
the scan reaches `0.8` but exceeds the maximum size of 25 unique text
groups — in the latter case other pairs may remain that are both similar
enough and small enough, and the loop stops anyway. -/
theorem c4_amended (ids : Nat → String) (cs : List MCluster) (k fuel : Nat)
    (out : List MCluster) (hout : out = (mergeLoop ids fuel cs k).1)
    (hf : cs.length ≤ fuel) (hlen : 1 < out.length) :
    (∀ i j, i < j → j < out.length →
        cosineSimilarity (centroidAt out i) (centroidAt out j) < (4 : ℝ) / 5) ∨
    (∃ i j, scanPairs out = some (i, j) ∧
        (4 : ℝ) / 5 ≤ cosineSimilarity (centroidAt out i) (centroidAt out j) ∧
        maxClusterSize < (out.getD i default).embeddings.length +
          (out.getD j default).embeddings.length) := by
  have hth : ((mergeThreshold : ℚ) : ℝ) = (4 : ℝ) / 5 := by
    norm_num [mergeThreshold]
  rcases mergeLoop_fix ids fuel cs k hf with hsmall | hnone
  · rw [← hout] at hsmall
    omega
  · rw [← hout] at hnone
    cases hscan : scanPairs out with
    | none =>
      left
      intro i j hij hj
      have hq := scanPairs_none out hscan i j hij hj
      have hd := simOfVecs_den2_pos (centroidAt out i) (centroidAt out j)
      have hnotle : ¬ ((mergeThreshold : ℚ) : ℝ) ≤
          (simOfVecs (centroidAt out i) (centroidAt out j)).toReal := by
        intro hle
        rw [← Sim.geQ_iff _ hd] at hle
        rw [hq] at hle
        cases hle
      rw [simOfVecs_toReal, hth] at hnotle
      exact lt_of_not_le hnotle
    | some ij =>
      obtain ⟨i, j⟩ := ij
      right
      refine ⟨i, j, rfl, ?_, mergeStep_none_some "" out i j (hnone "") hscan⟩
      obtain ⟨-, -, hq⟩ := scanPairs_some out i j hscan
      have hd := simOfVecs_den2_pos (centroidAt out i) (centroidAt out j)
      have hle := (Sim.geQ_iff _ hd mergeThreshold).mp hq
      rw [simOfVecs_toReal, hth] at hle
      exact hle

/-- The two orthogonal singleton clusters of the `c4_amended` witness. -/
def c4wcs : List MCluster :=
  [⟨"a", [0], [[1, 0]], [1, 0]⟩, ⟨"b", [1], [[0, 1]], [0, 1]⟩]

/-- Witness for `c4_amended`: on two orthogonal singleton clusters the loop
stops immediately with both clusters remaining. -/
theorem c4_amended_witness :
    (c4wcs = (mergeLoop (fun n => "c" ++ toString n) 2 c4wcs 2).1 ∧
      c4wcs.length ≤ 2 ∧ 1 < c4wcs.length) ∧
    ((∀ i j, i < j → j < c4wcs.length →
        cosineSimilarity (centroidAt c4wcs i) (centroidAt c4wcs j) < (4 : ℝ) / 5) ∨
    (∃ i j, scanPairs c4wcs = some (i, j) ∧
        (4 : ℝ) / 5 ≤ cosineSimilarity (centroidAt c4wcs i) (centroidAt c4wcs j) ∧
        maxClusterSize < (c4wcs.getD i default).embeddings.length +
          (c4wcs.getD j default).embeddings.length)) :=
  ⟨⟨by with_unfolding_all decide, by decide, by decide⟩,
   c4_amended (fun n => "c" ++ toString n) c4wcs 2 2 c4wcs
     (by with_unfolding_all decide) (by decide) (by decide)⟩

set_option maxRecDepth 4000

/-- Id supply used in concrete runs: `generateClusterId()` stubbed as
`"c" ++ n`. -/
def c4ids : Nat → String := fun n => "c" ++ toString n

/-- The 27 text groups of the claim C4 counterexample: 26 groups embedded at
`[1, 0]` and one at `[4/5, 3/5]`. -/
def c4items : List ClusterItem :=
  (List.range 26).map
    (fun i => ⟨⟨(i : Int), "m" ++ toString i, "", 1, 0, 0, 0⟩, [1, 0], [(i : Int)]⟩) ++
  [⟨⟨26, "d", "", 1, 0, 0, 0⟩, [4 / 5, 3 / 5], [26]⟩]

/-- One successful iteration of the merge loop. -/
lemma mergeLoop_cons (ids : Nat → String) (fuel : Nat) (cs : List MCluster)
    (k : Nat) (cs' : List MCluster) (h1 : ¬ cs.length ≤ 1)
    (h2 : mergeStep (ids k) cs = some cs') :
    mergeLoop ids (fuel + 1) cs k = mergeLoop ids fuel cs' (k + 1) := by
  simp [mergeLoop, h1, h2]

/-- The loop exits when no merge happens. -/
lemma mergeLoop_stop (ids : Nat → String) (fuel : Nat) (cs : List MCluster)
    (k : Nat) (h1 : ¬ cs.length ≤ 1) (h2 : mergeStep (ids k) cs = none) :
    mergeLoop ids (fuel + 1) cs k = (cs, k) := by
  simp [mergeLoop, h1, h2]

/-! ## Field-preservation lemmas for the naming / stats / tree passes -/

lemma setNameDescCat_children (c : ProcessCluster) (n d cat : String) :
    (setNameDescCat c n d cat).children = c.children := by
  cases c
  rfl

lemma setNameDescCat_processIds (c : ProcessCluster) (n d cat : String) :
    (setNameDescCat c n d cat).processIds = c.processIds := by
  cases c
  rfl

lemma nameCluster_children (ps : List SystemProcess) (c : ProcessCluster) :
    (nameCluster ps c).children = c.children := by
  unfold nameCluster
  dsimp only
  repeat' split
  all_goals simp [setNameDescCat_children]

lemma nameCluster_processIds (ps : List SystemProcess) (c : ProcessCluster) :
    (nameCluster ps c).processIds = c.processIds := by
  unfold nameCluster
  dsimp only
  repeat' split
  all_goals simp [setNameDescCat_processIds]

lemma updateClusterStats_children (c : ProcessCluster) (ps : List SystemProcess) :
    (updateClusterStats c ps).children = c.children := by
  cases c
  rfl

lemma updateClusterStats_processIds (c : ProcessCluster) (ps : List SystemProcess) :
    (updateClusterStats c ps).processIds = c.processIds := by
  cases c
  rfl

lemma setParentDepthRoot_children (c : ProcessCluster) :
    (setParentDepthRoot c).children = c.children := by
  cases c
  rfl

lemma setParentDepthRoot_processIds (c : ProcessCluster) :
    (setParentDepthRoot c).processIds = c.processIds := by
  cases c
  rfl

lemma setParentDepthRoot_parent (c : ProcessCluster) :
    (setParentDepthRoot c).parent = some "root" := by
  cases c
  rfl

lemma setParentDepthRoot_depth (c : ProcessCluster) :
    (setParentDepthRoot c).depth = 1 := by
  cases c
  rfl

/-- Every cluster emitted by the agglomerative pass is a leaf. -/
lemma agglomerative_children (ids : Nat → String) (items : List ClusterItem) :
    ∀ c ∈ agglomerativeClusterWithPids ids items, c.children = [] := by
  intro c hc
  unfold agglomerativeClusterWithPids at hc
  split_ifs at hc with h
  · cases hc
  · rw [List.mem_map] at hc
    obtain ⟨m, -, rfl⟩ := hc
    rfl

/-- **Claim C10.**  Every `ClusterTree` produced by `fullRecluster` is flat:
the root has depth 0, the flat list is exactly the root followed by the
root's children, and every child of the root has parent `"root"`, depth 1
and no children of its own — the hierarchical merge never nests clusters. -/
theorem c10_flat_tree (ids : Nat → String)
    (getE : List String → Option (List (List ℚ))) (sc : String → String)
    (now : Nat) (w : World) (ps : List SystemProcess) :
    ((fullRecluster ids getE sc now w ps).1.root).depth = 0 ∧
    (fullRecluster ids getE sc now w ps).1.flatList =
      (fullRecluster ids getE sc now w ps).1.root ::
        ((fullRecluster ids getE sc now w ps).1.root).children ∧
    ∀ c ∈ ((fullRecluster ids getE sc now w ps).1.root).children,
      c.parent = some "root" ∧ c.depth = 1 ∧ c.children = [] := by
  unfold fullRecluster
  dsimp only
  split_ifs with hempty
  · refine ⟨rfl, rfl, ?_⟩
    intro c hc
    cases hc
  · refine ⟨rfl, rfl, ?_⟩
    intro c hc
    unfold buildClusterTree at hc
    dsimp only at hc
    simp only [ProcessCluster.children] at hc
    rw [List.mem_map] at hc
    obtain ⟨c1, hc1, rfl⟩ := hc
    refine ⟨setParentDepthRoot_parent c1, setParentDepthRoot_depth c1, ?_⟩
    rw [setParentDepthRoot_children]
    rw [List.mem_map] at hc1
    obtain ⟨c2, hc2, rfl⟩ := hc1
    rw [updateClusterStats_children]
    unfold generateClusterNames at hc2
    rw [List.mem_map] at hc2
    obtain ⟨c3, hc3, rfl⟩ := hc2
    rw [nameCluster_children]
    exact agglomerative_children _ _ c3 hc3

/-! ## Concrete inputs for claims C1 and C3 -/

/-- The `i`-th 6-dimensional standard basis vector. -/
def basis6 (i : Nat) : List ℚ := (List.range 6).map (fun j => if j = i then 1 else 0)

/-- Six active processes with distinct pids and names. -/
def c1ps : List SystemProcess :=
  (List.range 6).map (fun i => ⟨(i : Int) + 1, "n" ++ toString i, "", 1, 0, 0, 0⟩)

/-- Persistent cache mapping each `c1ps` text to an orthogonal embedding. -/
def c1w : World :=
  ⟨[], (List.range 6).map (fun i => ("n" ++ toString i ++ ": ", basis6 i))⟩

/-- **Claim C1, counterexample.**  Six active processes whose six text
groups are pairwise orthogonal: no merge fires, all six clusters have one
text group, and since `6 > 5` the post-filter drops every cluster.  The
resulting tree has no non-root clusters at all, so the union of the member
pid sets is empty and does not equal the filtered-active pid set
`{1,…,6}`. -/
theorem c1_counterexample :
    ((c1ps.filter isActive).map (fun p => p.pid)) = [1, 2, 3, 4, 5, 6] ∧
    ((fullRecluster c4ids (fun _ => none) id 0 c1w c1ps).1.root).children.length = 0 := by
  constructor
  · decide
  · with_unfolding_all decide

/-- Seven active processes with distinct pids and names. -/
def c3ps : List SystemProcess :=
  (List.range 7).map (fun i => ⟨(i : Int) + 1, "n" ++ toString i, "", 1, 0, 0, 0⟩)

/-- Embeddings for `c3ps`: the first two text groups share one vector, the
remaining five are pairwise orthogonal to everything else. -/
def c3emb (i : Nat) : List ℚ := if i ≤ 1 then basis6 0 else basis6 (i - 1)

/-- Persistent cache for the `c3ps` texts. -/
def c3w : World :=
  ⟨[], (List.range 7).map (fun i => ("n" ++ toString i ++ ": ", c3emb i))⟩

/-- The text-group items `fullRecluster` builds for `c3ps`. -/
def c3items : List ClusterItem :=
  buildItems
    (batchGetEmbeddings (fun _ => none) id c3w
      ((groupByName (c3ps.filter isActive)).map (fun e => e.2.headI))).1
    (groupByName (c3ps.filter isActive))

/-- **Claim C3, counterexample.**  For `c3ps` the merge pass ends with six
clusters, five of them below the minimum size.  Dropping the five would
leave one cluster — five or fewer — so by the claim they must all be kept;
the code instead tests the pre-drop count (`6 > 5`) and drops them: the
published tree holds exactly one cluster, with pids `[1, 2]`. -/
theorem c3_counterexample :
    (aggloMerged c4ids c3items).length = 6 ∧
    ((aggloMerged c4ids c3items).filter
        (fun c => decide (c.embeddings.length < minClusterSize))).length = 5 ∧
    ((fullRecluster c4ids (fun _ => none) id 0 c3w c3ps).1.root).children.map
        (fun c => c.processIds) = [[1, 2]] := by
  refine ⟨?_, ?_, ?_⟩ <;> with_unfolding_all decide

/-- **Claim C3 (amended).**  After the agglomerative merge, undersized
clusters (fewer than 2 unique text groups) are dropped exactly when the
total number of merged clusters before any dropping exceeds five; when that
total is at most five, every cluster is kept.  (The code tests the pre-drop
cluster count, not the count that dropping would leave.) -/
theorem c3_amended (ids : Nat → String) (items : List ClusterItem) :
    ((aggloMerged ids items).length ≤ 5 →
      (agglomerativeClusterWithPids ids items).length =
        (aggloMerged ids items).length) ∧
    (5 < (aggloMerged ids items).length →
      (agglomerativeClusterWithPids ids items).map (fun c => c.processIds) =
        ((aggloMerged ids items).filter
            (fun c => decide (minClusterSize ≤ c.embeddings.length))).map
          (fun c => c.processIds)) := by
  by_cases hne : items.isEmpty
  · have hitems : items = [] := by
      cases items with
      | nil => rfl
      | cons a l => cases hne
    subst hitems
    have hm : aggloMerged ids [] = [] := rfl
    rw [hm]
    exact ⟨fun _ => rfl, fun h5 => absurd h5 (by simp)⟩
  · unfold agglomerativeClusterWithPids
    rw [if_neg hne]
    dsimp only
    constructor
    · intro h5
      have hall : ∀ c ∈ aggloMerged ids items,
          (decide (minClusterSize ≤ c.embeddings.length) ||
            decide ((aggloMerged ids items).length ≤ 5)) = true := by
        intro c hc
        simp [h5]
      rw [List.filter_eq_self.mpr hall, List.length_map]
    · intro h5
      have hcong : ∀ c ∈ aggloMerged ids items,
          (decide (minClusterSize ≤ c.embeddings.length) ||
            decide ((aggloMerged ids items).length ≤ 5)) =
          decide (minClusterSize ≤ c.embeddings.length) := by
        intro c hc
        have : ¬ (aggloMerged ids items).length ≤ 5 := by omega
        simp [this]
      rw [List.filter_congr hcong, List.map_map]
      simp [Function.comp_def, ProcessCluster.processIds]

/-- Witness for `c3_amended` at the `c3items` input, whose merge pass ends
with six clusters. -/
theorem c3_amended_witness :
    5 < (aggloMerged c4ids c3items).length ∧
    (agglomerativeClusterWithPids c4ids c3items).map (fun c => c.processIds) =
      ((aggloMerged c4ids c3items).filter
          (fun c => decide (minClusterSize ≤ c.embeddings.length))).map
        (fun c => c.processIds) :=
  ⟨by with_unfolding_all decide,
   (c3_amended c4ids c3items).2 (by with_unfolding_all decide)⟩

/-! ## Pid bookkeeping through the full recluster pipeline (claim C1) -/

lemma mapGet_cons_self [DecidableEq κ] (k : κ) (v : α) (m : JsMap κ α) :
    mapGet ((k, v) :: m) k = some v := by
  simp [mapGet]

lemma mapGet_cons_ne [DecidableEq κ] (k k' : κ) (v : α) (m : JsMap κ α)
    (h : ¬ k = k') : mapGet ((k, v) :: m) k' = mapGet m k' := by
  simp [mapGet, List.find?_cons, h]

/-- Appending one process to its name group permutes the grouped processes
by exactly that process. -/
lemma groupStep_flatMap (m : JsMap String (List SystemProcess))
    (p : SystemProcess) :
    List.Perm
      ((mapSet m p.name ((mapGet m p.name).getD [] ++ [p])).flatMap (fun e => e.2))
      ((m.flatMap (fun e => e.2)) ++ [p]) := by
  induction m with
  | nil => simp [mapSet, mapGet]
  | cons kv m ih =>
    obtain ⟨k, v⟩ := kv
    by_cases hk : k = p.name
    · subst hk
      rw [mapGet_cons_self]
      rw [mapSet, if_pos rfl]
      simp only [List.flatMap_cons]
      rw [List.append_assoc, List.append_assoc]
      exact List.Perm.append_left v (List.perm_append_comm)
    · rw [mapGet_cons_ne _ _ _ _ hk]
      rw [mapSet, if_neg hk]
      simp only [List.flatMap_cons]
      rw [List.append_assoc]
      exact List.Perm.append_left v (ih.trans (List.Perm.refl _))

/-- The `byName` fold collects exactly the processes it is given. -/
lemma groupByName_foldl (l : List SystemProcess) :
    ∀ m : JsMap String (List SystemProcess),
      List.Perm
        ((l.foldl (fun m p => mapSet m p.name ((mapGet m p.name).getD [] ++ [p]))
            m).flatMap (fun e => e.2))
        ((m.flatMap (fun e => e.2)) ++ l) := by
  induction l with
  | nil => intro m; simp
  | cons p l ih =>
    intro m
    rw [List.foldl_cons]
    refine (ih _).trans ?_
    have h := (groupStep_flatMap m p).append_right l
    refine h.trans ?_
    rw [List.append_assoc]
    simp

/-- The name groups of `fullRecluster` partition the active processes. -/
lemma groupByName_flatMap (l : List SystemProcess) :
    List.Perm ((groupByName l).flatMap (fun e => e.2)) l := by
  simpa [groupByName] using groupByName_foldl l []

/-- `flatMap` is monotone with respect to sublists. -/
lemma sublist_flatMap {l₁ l₂ : List α} (h : List.Sublist l₁ l₂) (f : α → List β) :
    List.Sublist (l₁.flatMap f) (l₂.flatMap f) := by
  induction h with
  | slnil => exact List.Sublist.refl _
  | cons a h ih =>
    rw [List.flatMap_cons]
    exact ih.trans (List.sublist_append_right _ _)
  | cons₂ a h ih =>
    rw [List.flatMap_cons, List.flatMap_cons]
    exact (List.Sublist.refl _).append ih

/-- `flatMap` after a `filterMap` whose kept elements carry list `G a`. -/
lemma filterMap_flatMap_sublist (F : α → Option β) (g : β → List γ)
    (G : α → List γ) (hFG : ∀ a b, F a = some b → g b = G a) :
    ∀ l : List α, List.Sublist ((l.filterMap F).flatMap g) (l.flatMap G) := by
  intro l
  induction l with
  | nil => simp
  | cons a l ih =>
    rw [List.filterMap_cons, List.flatMap_cons]
    cases hF : F a with
    | none => exact ih.trans (List.sublist_append_right _ _)
    | some b =>
      rw [List.flatMap_cons, hFG a b hF]
      exact (List.Sublist.refl _).append ih

/-- The pids of the text-group items are among the grouped pids. -/
lemma buildItems_pids (em : JsMap String (List ℚ))
    (b : JsMap String (List SystemProcess)) :
    List.Sublist ((buildItems em b).flatMap (fun it => it.allPids))
      (b.flatMap (fun e => e.2.map (fun p => p.pid))) := by
  refine filterMap_flatMap_sublist _ _ _ ?_ b
  intro e it hF
  dsimp only at hF
  cases hg : mapGet em (strTake (e.2.headI.name ++ "::" ++ e.2.headI.command) 500) with
  | none => rw [hg] at hF; cases hF
  | some emb =>
    rw [hg] at hF
    cases hF
    rfl

lemma enumFrom_flatMap_snd (g : α → List β) :
    ∀ (n : Nat) (l : List α), (l.enumFrom n).flatMap (fun p => g p.2) = l.flatMap g := by
  intro n l
  induction l generalizing n with
  | nil => rfl
  | cons a l ih => simp [List.flatMap_cons, ih]

/-- The initial clusters carry exactly the items' pid blocks. -/
lemma aggloInit_pids (ids : Nat → String) (items : List ClusterItem) :
    (aggloInit ids items).flatMap (fun c => c.processIds) =
      items.flatMap (fun it => it.allPids) := by
  unfold aggloInit
  rw [List.flatMap_map]
  show (items.enum).flatMap (fun p => p.2.allPids) = _
  rw [List.enum_eq_enumFrom, enumFrom_flatMap_snd (fun it => it.allPids) 0 items]

/-- One merge step permutes the collected pids. -/
lemma mergeStep_pids_perm (nid : String) (cs cs' : List MCluster)
    (h : mergeStep nid cs = some cs') :
    List.Perm (cs'.flatMap (fun c => c.processIds))
      (cs.flatMap (fun c => c.processIds)) := by
  unfold mergeStep at h
  cases hscan : scanPairs cs with
  | none => rw [hscan] at h; cases h
  | some ij =>
    rw [hscan] at h
    obtain ⟨i, j⟩ := ij
    obtain ⟨hij, hj, -⟩ := scanPairs_some cs i j hscan
    dsimp only at h
    split_ifs at h with hsz
    cases h
    have hperm := (removeTwo_perm cs i j hij hj).flatMap_right (fun c => c.processIds)
    simp only [List.flatMap_cons] at hperm
    refine List.Perm.trans ?_ hperm
    simp only [List.flatMap_append, List.flatMap_cons, List.flatMap_nil]
    rw [List.append_nil]
    have : List.Perm
        ((removeTwo cs i j).flatMap (fun c => c.processIds) ++
          ((cs.getD i default).processIds ++ (cs.getD j default).processIds))
        (((cs.getD i default).processIds ++ (cs.getD j default).processIds) ++
          (removeTwo cs i j).flatMap (fun c => c.processIds)) :=
      List.perm_append_comm
    refine this.trans ?_
    rw [List.append_assoc]

/-- The merge loop permutes the collected pids. -/
lemma mergeLoop_pids_perm (ids : Nat → String) :
    ∀ (fuel : Nat) (cs : List MCluster) (k : Nat),
      List.Perm (((mergeLoop ids fuel cs k).1).flatMap (fun c => c.processIds))
        (cs.flatMap (fun c => c.processIds)) := by
  intro fuel
  induction fuel with
  | zero => intro cs k; exact List.Perm.refl _
  | succ fuel ih =>
    intro cs k
    rw [mergeLoop]
    by_cases hlen : cs.length ≤ 1
    · rw [if_pos hlen]
    · rw [if_neg hlen]
      cases hstep : mergeStep (ids k) cs with
      | none => exact List.Perm.refl _
      | some cs' => exact (ih cs' (k + 1)).trans (mergeStep_pids_perm _ _ _ hstep)

lemma buildClusterTree_children (cs : List ProcessCluster) (now : Nat) :
    (buildClusterTree cs now).root.children = cs.map setParentDepthRoot := rfl

/-- Naming, stats and re-parenting do not change any cluster's pids. -/
lemma naming_stats_pids (cs : List ProcessCluster) (A : List SystemProcess) :
    (((generateClusterNames cs A).map (fun c => updateClusterStats c A)).map
        setParentDepthRoot).flatMap (fun c => c.processIds) =
      cs.flatMap (fun c => c.processIds) := by
  unfold generateClusterNames
  rw [List.flatMap_map, List.flatMap_map, List.flatMap_map]
  congr 1
  funext c
  rw [setParentDepthRoot_processIds, updateClusterStats_processIds,
    nameCluster_processIds]

/-- The agglomerative pass emits pids drawn from the items' pid blocks. -/
lemma agglo_pids_subperm (ids : Nat → String) (items : List ClusterItem) :
    List.Subperm
      ((agglomerativeClusterWithPids ids items).flatMap (fun c => c.processIds))
      (items.flatMap (fun it => it.allPids)) := by
  unfold agglomerativeClusterWithPids
  split_ifs with h
  · exact List.nil_subperm
  · dsimp only
    rw [List.flatMap_map]
    have hfn : (fun c : MCluster =>
        (ProcessCluster.mk c.id "Uncategorized" "" "Other" c.processIds c.centroid
          [] none 1 ⟨0, 0, 0, 0, 0⟩).processIds) = fun c : MCluster => c.processIds := by
      funext c
      rfl
    rw [hfn]
    have hsub : List.Sublist
        (((aggloMerged ids items).filter (fun c =>
            decide (minClusterSize ≤ c.embeddings.length) ||
              decide ((aggloMerged ids items).length ≤ 5))).flatMap
          (fun c => c.processIds))
        ((aggloMerged ids items).flatMap (fun c => c.processIds)) :=
      sublist_flatMap (List.filter_sublist _) _
    have hperm : List.Perm
        ((aggloMerged ids items).flatMap (fun c => c.processIds))
        (items.flatMap (fun it => it.allPids)) := by
      unfold aggloMerged
      exact (mergeLoop_pids_perm ids _ _ _).trans
        (by rw [aggloInit_pids])
    exact (hsub.subperm).trans hperm.subperm
  
/-- The grouped pids are a permutation of the active pids. -/
lemma groups_pids_perm (A : List SystemProcess) :
    List.Perm ((groupByName A).flatMap (fun e => e.2.map (fun p => p.pid)))
      (A.map (fun p => p.pid)) := by
  have h := (groupByName_flatMap A).map (fun p => p.pid)
  refine List.Perm.trans ?_ h
  rw [List.map_flatMap]

/-- The non-root clusters of a full recluster carry pids that form, up to
permutation, a sub-collection of the filtered-active pids. -/
lemma fullRecluster_pids_subperm (ids : Nat → String)
    (getE : List String → Option (List (List ℚ))) (sc : String → String)
    (now : Nat) (w : World) (ps : List SystemProcess) :
    List.Subperm
      ((((fullRecluster ids getE sc now w ps).1.root).children).flatMap
        (fun c => c.processIds))
      ((ps.filter isActive).map (fun p => p.pid)) := by
  unfold fullRecluster
  dsimp only
  split_ifs with hempty
  · exact List.nil_subperm
  · rw [buildClusterTree_children, naming_stats_pids]
    refine (agglo_pids_subperm ids _).trans ?_
    refine List.Subperm.trans ?_ (groups_pids_perm (ps.filter isActive)).subperm
    exact (buildItems_pids _ _).subperm

/-- **Claim C1 (amended).**  For inputs with pairwise-distinct pids, the
non-root clusters of the tree returned by `fullRecluster` have pairwise
disjoint member pid sets, and every member pid passes the activity filter.
The union need not equal the whole filtered-active pid set: text groups
whose embedding is unavailable are skipped, and the post-filter may drop
whole clusters together with their pids (see the counterexample). -/
theorem c1_amended (ids : Nat → String)
    (getE : List String → Option (List (List ℚ))) (sc : String → String)
    (now : Nat) (w : World) (ps : List SystemProcess)
    (hnodup : (ps.map (fun p => p.pid)).Nodup) :
    List.Pairwise (fun c d => ∀ q ∈ c.processIds, q ∉ d.processIds)
      (((fullRecluster ids getE sc now w ps).1.root).children) ∧
    ∀ c ∈ (((fullRecluster ids getE sc now w ps).1.root).children),
      ∀ q ∈ c.processIds, q ∈ (ps.filter isActive).map (fun p => p.pid) := by
  have hsub := fullRecluster_pids_subperm ids getE sc now w ps
  have hA : ((ps.filter isActive).map (fun p => p.pid)).Nodup :=
    List.Nodup.sublist (List.Sublist.map _ (List.filter_sublist ps)) hnodup
  have hflat : ((((fullRecluster ids getE sc now w ps).1.root).children).flatMap
      (fun c => c.processIds)).Nodup := by
    obtain ⟨l, hp, hs⟩ := hsub
    exact hp.nodup_iff.mp (hs.nodup hA)
  constructor
  · have hpw := (List.nodup_flatMap.mp hflat).2
    refine hpw.imp ?_
    intro c d hdisj q hqc hqd
    exact hdisj hqc hqd
  · intro c hc q hq
    have : q ∈ (((fullRecluster ids getE sc now w ps).1.root).children).flatMap
        (fun c => c.processIds) := List.mem_flatMap.mpr ⟨c, hc, hq⟩
    exact hsub.subset this

/-- Witness for `c1_amended` at the seven-process `c3ps` input, whose tree
holds one cluster with pids `[1, 2]`. -/
theorem c1_amended_witness :
    (c3ps.map (fun p => p.pid)).Nodup ∧
    (List.Pairwise (fun c d => ∀ q ∈ c.processIds, q ∉ d.processIds)
      (((fullRecluster c4ids (fun _ => none) id 0 c3w c3ps).1.root).children) ∧
    ∀ c ∈ (((fullRecluster c4ids (fun _ => none) id 0 c3w c3ps).1.root).children),
      ∀ q ∈ c.processIds, q ∈ (c3ps.filter isActive).map (fun p => p.pid)) :=
  ⟨by decide, c1_amended c4ids (fun _ => none) id 0 c3w c3ps (by decide)⟩

/-! ## Text-group keying and embedding-fetch accounting (claim C2) -/

/-- Two active processes sharing the name `node` but with different
commands. -/
def c2ps : List SystemProcess :=
  [⟨1, "node", "a", 1, 0, 0, 0⟩, ⟨2, "node", "b", 1, 0, 0, 0⟩]

/-- A provider that embeds every text as `[1]`. -/
def c2getE : List String → Option (List (List ℚ)) :=
  fun ts => some (ts.map (fun _ => [1]))

/-- **Claim C2, counterexample.**  Two active processes with the same name
but different command strings fall into a single text group (the `byName`
map is keyed by name only), incur one embedding fetch for one text — the
first-encountered representative's text — and both pids land in one
cluster.  The claim predicted two text groups and separate fetches. -/
theorem c2_counterexample :
    (groupByName (c2ps.filter isActive)).length = 1 ∧
    (batchGetEmbeddings c2getE id ⟨[], []⟩
        ((groupByName (c2ps.filter isActive)).map (fun e => e.2.headI))).2.2 =
      [["node: a"]] ∧
    ((fullRecluster c4ids c2getE id 0 ⟨[], []⟩ c2ps).1.root).children.map
      (fun c => c.processIds) = [[1, 2]] := by
  refine ⟨?_, ?_, ?_⟩ <;> with_unfolding_all decide

/-- The keys of `mapSet` are the old keys, plus the new key at the end if
absent. -/
lemma mapSet_keys [DecidableEq κ] (m : JsMap κ α) (k : κ) (v : α) :
    (mapSet m k v).map (fun e => e.1) =
      if (m.map (fun e => e.1)).contains k then m.map (fun e => e.1)
      else m.map (fun e => e.1) ++ [k] := by
  induction m with
  | nil => simp [mapSet]
  | cons kv m ih =>
    obtain ⟨k', v'⟩ := kv
    by_cases hk : k' = k
    · subst hk
      simp [mapSet]
    · rw [mapSet, if_neg hk]
      simp only [List.map_cons, List.contains_cons]
      have hbeq : (k == k') = false := by
        simp only [beq_eq_false_iff_ne, ne_eq]
        exact fun h => hk h.symm
      rw [hbeq]
      simp only [Bool.false_or]
      rw [ih]
      split_ifs <;> simp

/-- The `byName` fold builds one entry per distinct name, in first-seen
order. -/
lemma groupByName_keys_aux (l : List SystemProcess) :
    ∀ m : JsMap String (List SystemProcess),
      ((l.foldl (fun m p => mapSet m p.name ((mapGet m p.name).getD [] ++ [p]))
          m).map (fun e => e.1)) =
        (l.map (fun p => p.name)).foldl
          (fun acc x => if acc.contains x then acc else acc ++ [x])
          (m.map (fun e => e.1)) := by
  induction l with
  | nil => intro m; rfl
  | cons p l ih =>
    intro m
    rw [List.foldl_cons, List.map_cons, List.foldl_cons, ih, mapSet_keys]

/-- **Keys of the name grouping**: one per distinct active name. -/
lemma groupByName_keys (A : List SystemProcess) :
    (groupByName A).map (fun e => e.1) = dedupFirst (A.map (fun p => p.name)) := by
  unfold groupByName dedupFirst
  exact groupByName_keys_aux A []

/-- With empty caches, the first pass leaves everything uncached. -/
lemma firstPass_empty (sc : String → String) (l : List SystemProcess) :
    firstPass sc l [] ⟨[], []⟩ =
      ([], ⟨[], []⟩, l.map (fun p => ⟨p, processToText sc p, getKey p⟩)) := by
  induction l with
  | nil => rfl
  | cons p l ih =>
    rw [firstPass]
    show (let r := firstPass sc l [] ⟨[], []⟩;
      (r.1, r.2.1, ⟨p, processToText sc p, getKey p⟩ :: r.2.2)) = _
    rw [ih]
    rfl

/-- A never-failing provider issues every batch, in order. -/
lemma fetchBatches_success (getE : List String → Option (List (List ℚ)))
    (hgetE : ∀ ts, getE ts ≠ none) :
    ∀ (batches : List (List UncachedItem)) (r : JsMap String (List ℚ))
      (w : World) (sent : List (List String)),
      (fetchBatches getE batches r w sent).2.2 =
        sent ++ batches.map (fun b => b.map (fun u => u.text)) := by
  intro batches
  induction batches with
  | nil => intro r w sent; simp [fetchBatches]
  | cons b rest ih =>
    intro r w sent
    rw [fetchBatches]
    cases hE : getE (b.map (fun u => u.text)) with
    | none => exact absurd hE (hgetE _)
    | some es =>
      dsimp only
      rw [ih]
      simp

/-- Chunking with positive width loses nothing. -/
lemma chunksOfGo_flatten (n : Nat) (hn : n ≠ 0) :
    ∀ (fuel : Nat) (l : List α), l.length ≤ fuel →
      (chunksOfGo n fuel l).flatten = l := by
  intro fuel
  induction fuel with
  | zero =>
    intro l hl
    rw [show l = [] from List.eq_nil_of_length_eq_zero (by omega)]
    rfl
  | succ fuel ih =>
    intro l hl
    rw [chunksOfGo]
    split_ifs with h
    · rcases h with h | h
      · rw [List.isEmpty_iff.mp h]
        rfl
      · exact absurd h hn
    · push_neg at h
      obtain ⟨h1, -⟩ := h
      rw [List.flatten_cons]
      rw [ih (l.drop n) ?_]
      · exact List.take_append_drop n l
      · have : l.length ≠ 0 := by
          intro h0
          exact h1 (List.isEmpty_iff.mpr (List.eq_nil_of_length_eq_zero h0))
        rw [List.length_drop]
        omega

lemma chunksOf_flatten (n : Nat) (hn : n ≠ 0) (l : List α) :
    (chunksOf n l).flatten = l :=
  chunksOfGo_flatten n hn l.length l (le_refl _)

/-! ## Same-name pids travel in one block (claim C2) -/

/-- `pids` is a concatenation of whole blocks drawn from `bs`. -/
def blockUnion (bs : List (List Int)) (pids : List Int) : Prop :=
  ∃ S : List (List Int), (∀ b ∈ S, b ∈ bs) ∧ pids = S.flatten

lemma blockUnion_mono {bs bs' : List (List Int)} {p : List Int}
    (hsub : ∀ b ∈ bs, b ∈ bs') (h : blockUnion bs p) : blockUnion bs' p := by
  obtain ⟨S, hS, rfl⟩ := h
  exact ⟨S, fun b hb => hsub b (hS b hb), rfl⟩

lemma blockUnion_append {bs : List (List Int)} {p q : List Int}
    (hp : blockUnion bs p) (hq : blockUnion bs q) : blockUnion bs (p ++ q) := by
  obtain ⟨S1, hS1, rfl⟩ := hp
  obtain ⟨S2, hS2, rfl⟩ := hq
  refine ⟨S1 ++ S2, ?_, by simp⟩
  intro b hb
  rcases List.mem_append.mp hb with h | h
  exacts [hS1 b h, hS2 b h]

lemma getD_mem_of_lt [Inhabited α] {cs : List α} {i : Nat} (h : i < cs.length) :
    cs.getD i default ∈ cs := by
  rw [List.getD_eq_getElem cs default h]
  exact List.getElem_mem h

/-- Every initial cluster's pid list is one whole item block. -/
lemma blockUnion_init (ids : Nat → String) (items : List ClusterItem) :
    ∀ c ∈ aggloInit ids items,
      blockUnion (items.map (fun it => it.allPids)) c.processIds := by
  intro c hc
  unfold aggloInit at hc
  rw [List.mem_map] at hc
  obtain ⟨p, hp, rfl⟩ := hc
  refine ⟨[p.2.allPids], ?_, by simp⟩
  intro b hb
  rw [List.mem_singleton] at hb
  subst hb
  rw [List.mem_map]
  refine ⟨p.2, ?_, rfl⟩
  have hmem := List.mem_map_of_mem Prod.snd hp
  rw [List.enum_eq_enumFrom, List.enumFrom_map_snd] at hmem
  exact hmem

/-- Merging preserves block structure. -/
lemma blockUnion_mergeStep (nid : String) (cs cs' : List MCluster)
    (bs : List (List Int)) (h : mergeStep nid cs = some cs')
    (hall : ∀ c ∈ cs, blockUnion bs c.processIds) :
    ∀ c ∈ cs', blockUnion bs c.processIds := by
  unfold mergeStep at h
  cases hscan : scanPairs cs with
  | none => rw [hscan] at h; cases h
  | some ij =>
    rw [hscan] at h
    obtain ⟨i, j⟩ := ij
    obtain ⟨hij, hj, -⟩ := scanPairs_some cs i j hscan
    dsimp only at h
    split_ifs at h with hsz
    cases h
    intro c hc
    rcases List.mem_append.mp hc with hmem | hmem
    · refine hall c ?_
      exact (removeTwo_perm cs i j hij hj).subset
        (List.mem_cons_of_mem _ (List.mem_cons_of_mem _ hmem))
    · rw [List.mem_singleton] at hmem
      subst hmem
      exact blockUnion_append (hall _ (getD_mem_of_lt (lt_trans hij hj)))
        (hall _ (getD_mem_of_lt hj))

/-- The merge loop preserves block structure. -/
lemma blockUnion_mergeLoop (ids : Nat → String) (bs : List (List Int)) :
    ∀ (fuel : Nat) (cs : List MCluster) (k : Nat),
      (∀ c ∈ cs, blockUnion bs c.processIds) →
      ∀ c ∈ (mergeLoop ids fuel cs k).1, blockUnion bs c.processIds := by
  intro fuel
  induction fuel with
  | zero => intro cs k hall; exact hall
  | succ fuel ih =>
    intro cs k hall
    rw [mergeLoop]
    by_cases hlen : cs.length ≤ 1
    · rw [if_pos hlen]; exact hall
    · rw [if_neg hlen]
      cases hstep : mergeStep (ids k) cs with
      | none => exact hall
      | some cs' =>
        exact ih cs' (k + 1) (blockUnion_mergeStep _ _ _ _ hstep hall)

/-- Each item's pid block is the pid list of one name group. -/
lemma buildItems_allPids_mem (em : JsMap String (List ℚ))
    (b : JsMap String (List SystemProcess)) :
    ∀ it ∈ buildItems em b, ∃ e ∈ b, it.allPids = e.2.map (fun p => p.pid) := by
  intro it hit
  unfold buildItems at hit
  rw [List.mem_filterMap] at hit
  obtain ⟨e, he, hF⟩ := hit
  dsimp only at hF
  cases hg : mapGet em (strTake (e.2.headI.name ++ "::" ++ e.2.headI.command) 500) with
  | none => rw [hg] at hF; cases hF
  | some emb =>
    rw [hg] at hF
    cases hF
    exact ⟨e, he, rfl⟩

/-- Every non-root cluster's pid list is a concatenation of whole name
groups' pid lists. -/
lemma fullRecluster_children_blockUnion (ids : Nat → String)
    (getE : List String → Option (List (List ℚ))) (sc : String → String)
    (now : Nat) (w : World) (ps : List SystemProcess) :
    ∀ c ∈ ((fullRecluster ids getE sc now w ps).1.root).children,
      blockUnion
        ((groupByName (ps.filter isActive)).map (fun e => e.2.map (fun p => p.pid)))
        c.processIds := by
  unfold fullRecluster
  dsimp only
  split_ifs with hempty
  · intro c hc
    cases hc
  · rw [buildClusterTree_children]
    intro c hc
    rw [List.mem_map] at hc
    obtain ⟨c1, hc1, rfl⟩ := hc
    rw [setParentDepthRoot_processIds]
    rw [List.mem_map] at hc1
    obtain ⟨c2, hc2, rfl⟩ := hc1
    rw [updateClusterStats_processIds]
    unfold generateClusterNames at hc2
    rw [List.mem_map] at hc2
    obtain ⟨c3, hc3, rfl⟩ := hc2
    rw [nameCluster_processIds]
    unfold agglomerativeClusterWithPids at hc3
    split_ifs at hc3 with hni
    · cases hc3
    · dsimp only at hc3
      rw [List.mem_map] at hc3
      obtain ⟨m, hm, rfl⟩ := hc3
      show blockUnion _ m.processIds
      have hmm : m ∈ aggloMerged ids _ := List.mem_of_mem_filter hm
      unfold aggloMerged at hmm
      have hbu := blockUnion_mergeLoop ids _ _ _ _ (blockUnion_init ids _) m hmm
      refine blockUnion_mono ?_ hbu
      intro b hb
      rw [List.mem_map] at hb
      obtain ⟨it, hit, rfl⟩ := hb
      obtain ⟨e, he, heq⟩ := buildItems_allPids_mem _ _ it hit
      rw [heq, List.mem_map]
      exact ⟨e, he, rfl⟩

/-- In a duplicate-free flattening, an element determines its block. -/
lemma nodup_flatMap_unique {f : α → List β} {l : List α}
    (hnd : (l.flatMap f).Nodup) {x : β} {a b : α} (ha : a ∈ l) (hb : b ∈ l)
    (hxa : x ∈ f a) (hxb : x ∈ f b) : f a = f b := by
  induction l with
  | nil => cases ha
  | cons e rest ih =>
    rw [List.flatMap_cons] at hnd
    obtain ⟨h1, h2, hdisj⟩ := List.nodup_append.mp hnd
    rcases List.mem_cons.mp ha with rfl | ha' <;>
      rcases List.mem_cons.mp hb with rfl | hb'
    · rfl
    · exact absurd (List.mem_flatMap.mpr ⟨b, hb', hxb⟩) (fun hc => hdisj hxa hc)
    · exact absurd (List.mem_flatMap.mpr ⟨a, ha', hxa⟩) (fun hc => hdisj hxb hc)
    · exact ih h2 ha' hb'

/-- Membership in a `mapSet` result. -/
lemma mapSet_mem [DecidableEq κ] {m : JsMap κ α} {k : κ} {v : α} :
    ∀ e ∈ mapSet m k v, e ∈ m ∨ e = (k, v) := by
  induction m with
  | nil =>
    intro e he
    rw [mapSet] at he
    rw [List.mem_singleton] at he
    exact Or.inr he
  | cons kv m ih =>
    intro e he
    obtain ⟨k', v'⟩ := kv
    rw [mapSet] at he
    split_ifs at he with hk
    · rcases List.mem_cons.mp he with rfl | he'
      · subst hk
        exact Or.inr rfl
      · exact Or.inl (List.mem_cons_of_mem _ he')
    · rcases List.mem_cons.mp he with rfl | he'
      · exact Or.inl (List.mem_cons_self _ _)
      · rcases ih e he' with h | h
        · exact Or.inl (List.mem_cons_of_mem _ h)
        · exact Or.inr h

/-- A `mapGet` hit is an entry of the map. -/
lemma mapGet_eq_some_mem [DecidableEq κ] {m : JsMap κ α} {k : κ} {g : α}
    (h : mapGet m k = some g) : (k, g) ∈ m := by
  induction m with
  | nil => cases h
  | cons kv m ih =>
    obtain ⟨k', v'⟩ := kv
    by_cases hk : k' = k
    · subst hk
      rw [mapGet_cons_self] at h
      cases h
      exact List.mem_cons_self _ _
    · rw [mapGet_cons_ne _ _ _ _ hk] at h
      exact List.mem_cons_of_mem _ (ih h)

/-- Every member of a name group bears the group's key as its name. -/
lemma groupByName_member_name (A : List SystemProcess) :
    ∀ e ∈ groupByName A, ∀ r ∈ e.2, r.name = e.1 := by
  suffices h : ∀ (l : List SystemProcess) (m : JsMap String (List SystemProcess)),
      (∀ e ∈ m, ∀ r ∈ e.2, r.name = e.1) →
      ∀ e ∈ l.foldl (fun m p => mapSet m p.name ((mapGet m p.name).getD [] ++ [p])) m,
        ∀ r ∈ e.2, r.name = e.1 by
    exact h A [] (by intro e he; cases he)
  intro l
  induction l with
  | nil => intro m hm; exact hm
  | cons p l ih =>
    intro m hm
    rw [List.foldl_cons]
    refine ih _ ?_
    intro e he r hr
    rcases mapSet_mem e he with h | h
    · exact hm e h r hr
    · subst h
      rcases List.mem_append.mp hr with h | h
      · cases hg : mapGet m p.name with
        | none => rw [hg] at h; cases h
        | some g =>
          rw [hg] at h
          exact hm (p.name, g) (mapGet_eq_some_mem hg) r h
      · rw [List.mem_singleton] at h
        subst h
        rfl

/-- `dedupFirst` never holds duplicates. -/
lemma dedupFirst_nodup [DecidableEq α] (l : List α) : (dedupFirst l).Nodup := by
  suffices h : ∀ (l : List α) (acc : List α), acc.Nodup →
      (l.foldl (fun acc x => if acc.contains x then acc else acc ++ [x]) acc).Nodup by
    exact h l [] List.nodup_nil
  intro l
  induction l with
  | nil => intro acc h; exact h
  | cons x l ih =>
    intro acc hacc
    rw [List.foldl_cons]
    refine ih _ ?_
    split_ifs with hc
    · exact hacc
    · rw [List.nodup_append]
      refine ⟨hacc, List.nodup_singleton x, ?_⟩
      intro a ha hax
      rw [List.mem_singleton] at hax
      subst hax
      exact hc (by simpa using ha)

/-- Every active process lives in some name group. -/
lemma groupByName_mem_group (A : List SystemProcess) (p : SystemProcess)
    (hp : p ∈ A) : ∃ e ∈ groupByName A, p ∈ e.2 :=
  List.mem_flatMap.mp ((groupByName_flatMap A).mem_iff.mpr hp)

/-- Two same-name active processes always land in the same non-root
clusters: name-group pid blocks travel whole through the pipeline. -/
lemma fullRecluster_samename_together (ids : Nat → String)
    (getE : List String → Option (List (List ℚ))) (sc : String → String)
    (now : Nat) (w : World) (ps : List SystemProcess)
    (hnodup : (ps.map (fun p => p.pid)).Nodup) :
    ∀ p ∈ ps.filter isActive, ∀ q ∈ ps.filter isActive, p.name = q.name →
      ∀ c ∈ ((fullRecluster ids getE sc now w ps).1.root).children,
        (p.pid ∈ c.processIds ↔ q.pid ∈ c.processIds) := by
  intro p hp q hq hname c hc
  obtain ⟨ep, hep, hpep⟩ := groupByName_mem_group (ps.filter isActive) p hp
  obtain ⟨e2, he2, hqe2⟩ := groupByName_mem_group (ps.filter isActive) q hq
  have hkeys : ((groupByName (ps.filter isActive)).map (fun e => e.1)).Nodup := by
    rw [groupByName_keys]
    exact dedupFirst_nodup _
  have hsame : ep = e2 := by
    refine List.inj_on_of_nodup_map hkeys hep he2 ?_
    show ep.1 = e2.1
    rw [← groupByName_member_name _ ep hep p hpep,
        ← groupByName_member_name _ e2 he2 q hqe2]
    exact hname
  subst hsame
  have hA : ((ps.filter isActive).map (fun r => r.pid)).Nodup :=
    List.Nodup.sublist (List.Sublist.map _ (List.filter_sublist ps)) hnodup
  have hgf : ((groupByName (ps.filter isActive)).flatMap
      (fun e => e.2.map (fun r => r.pid))).Nodup :=
    (groups_pids_perm (ps.filter isActive)).nodup_iff.mpr hA
  obtain ⟨S, hS, hflat⟩ :=
    fullRecluster_children_blockUnion ids getE sc now w ps c hc
  have key : ∀ r : SystemProcess, r ∈ ep.2 → r.pid ∈ c.processIds →
      ∀ s : SystemProcess, s ∈ ep.2 → s.pid ∈ c.processIds := by
    intro r hr hrc s hs
    rw [hflat] at hrc ⊢
    obtain ⟨b, hbS, hrb⟩ := List.mem_flatten.mp hrc
    have hbblk := hS b hbS
    rw [List.mem_map] at hbblk
    obtain ⟨e3, he3, rfl⟩ := hbblk
    have heq3 : e3.2.map (fun r => r.pid) = ep.2.map (fun r => r.pid) :=
      nodup_flatMap_unique hgf he3 hep hrb (List.mem_map_of_mem _ hr)
    refine List.mem_flatten.mpr ⟨_, hbS, ?_⟩
    rw [heq3]
    exact List.mem_map_of_mem _ hs
  constructor
  · intro hpc
    exact key p hpep hpc q hqe2
  · intro hqc
    exact key q hqe2 hqc p hpep

/-- From empty caches and a reliable provider, the batched fetch sends
exactly one text per requested process, in order. -/
lemma batchGet_transcript_empty (getE : List String → Option (List (List ℚ)))
    (hgetE : ∀ ts, getE ts ≠ none) (sc : String → String)
    (U : List SystemProcess) :
    ((batchGetEmbeddings getE sc ⟨[], []⟩ U).2.2).flatten =
      U.map (fun p => processToText sc p) := by
  unfold batchGetEmbeddings
  rw [firstPass_empty]
  cases U with
  | nil => rfl
  | cons p rest =>
    show (fetchBatches getE
        (chunksOf 50 ((p :: rest).map (fun p => ⟨p, processToText sc p, getKey p⟩)))
        [] ⟨[], []⟩ []).2.2.flatten = _
    rw [fetchBatches_success getE hgetE, List.nil_append, ← List.map_flatten,
      chunksOf_flatten 50 (by decide), List.map_map]
    rfl

/-- **Claim C2 (amended).**  In `fullRecluster`, the initial text groups are
keyed by process *name alone*, not by `(name, command)`: the `byName` map
has one entry per distinct active name, in first-seen order.  Starting from
empty caches with a reliable provider, exactly one embedding text — the
first-seen representative's `name: summarizedCommand` — is fetched per name
group, and (for pid-distinct inputs) any two active processes sharing a
name land in exactly the same non-root clusters. -/
theorem c2_amended (ids : Nat → String)
    (getE : List String → Option (List (List ℚ))) (sc : String → String)
    (now : Nat) (ps : List SystemProcess)
    (hnodup : (ps.map (fun p => p.pid)).Nodup)
    (hgetE : ∀ ts, getE ts ≠ none) :
    (groupByName (ps.filter isActive)).map (fun e => e.1) =
        dedupFirst ((ps.filter isActive).map (fun p => p.name)) ∧
    ((batchGetEmbeddings getE sc ⟨[], []⟩
        ((groupByName (ps.filter isActive)).map (fun e => e.2.headI))).2.2).flatten =
      (groupByName (ps.filter isActive)).map
        (fun e => processToText sc e.2.headI) ∧
    ∀ p ∈ ps.filter isActive, ∀ q ∈ ps.filter isActive, p.name = q.name →
      ∀ c ∈ ((fullRecluster ids getE sc now ⟨[], []⟩ ps).1.root).children,
        (p.pid ∈ c.processIds ↔ q.pid ∈ c.processIds) := by
  refine ⟨groupByName_keys _, ?_, ?_⟩
  · rw [batchGet_transcript_empty getE hgetE, List.map_map]
    rfl
  · exact fullRecluster_samename_together ids getE sc now ⟨[], []⟩ ps hnodup

/-- Witness for `c2_amended` at the two-process `c2ps` input (same name
`node`, different commands). -/
theorem c2_amended_witness :
    ((c2ps.map (fun p => p.pid)).Nodup ∧ ∀ ts, c2getE ts ≠ none) ∧
    ((groupByName (c2ps.filter isActive)).map (fun e => e.1) =
        dedupFirst ((c2ps.filter isActive).map (fun p => p.name)) ∧
    ((batchGetEmbeddings c2getE id ⟨[], []⟩
        ((groupByName (c2ps.filter isActive)).map (fun e => e.2.headI))).2.2).flatten =
      (groupByName (c2ps.filter isActive)).map
        (fun e => processToText id e.2.headI) ∧
    ∀ p ∈ c2ps.filter isActive, ∀ q ∈ c2ps.filter isActive, p.name = q.name →
      ∀ c ∈ ((fullRecluster c4ids c2getE id 0 ⟨[], []⟩ c2ps).1.root).children,
        (p.pid ∈ c.processIds ↔ q.pid ∈ c.processIds)) :=
  ⟨⟨by decide, by intro ts h; simp [c2getE] at h⟩,
   c2_amended c4ids c2getE id 0 c2ps (by decide) (by intro ts h; simp [c2getE] at h)⟩

/-! ## Tier-1 assignment branches (claims C6, C9) -/

/-- The `findNearestCentroid` call of `assignProcessToCluster`: only clusters
with a non-empty centroid compete. -/
def nearestOf (e : List ℚ) (clusters : List ProcessCluster) :
    Option (String × Sim) :=
  findNearestCentroid e
    ((clusters.filter (fun c => decide (0 < c.centroid.length))).map
      (fun c => (c.id, c.centroid)))

/-- The `clusters.find(c => c.id === nearest.id)!` lookup (`getD` models the
non-null assertion's observed value). -/
def foundCluster (clusters : List ProcessCluster) (bid : String) :
    ProcessCluster :=
  (clusters.find? (fun c => decide (c.id = bid))).getD (createEmptyCluster "")

/-- The cluster produced by the join branch: pid appended, centroid the mean
of `min 10 |newPids|` copies of the old centroid and the new embedding. -/
def joinedCluster (p : SystemProcess) (e : List ℚ) (c : ProcessCluster) :
    ProcessCluster :=
  .mk c.id c.name c.descr c.category (c.processIds ++ [p.pid])
    (calculateCentroid
      (List.replicate (min 10 (c.processIds ++ [p.pid]).length) c.centroid ++ [e]))
    c.children c.parent c.depth c.aggregateStats

/-- `assignProcessToCluster` unfolded into its four branches. -/
lemma assign_branch (p : SystemProcess) (e : List ℚ)
    (clusters : List ProcessCluster) (n : Nat) (newId : String) :
    assignProcessToCluster p e clusters n newId =
      match nearestOf e clusters with
      | some (bid, s) =>
        if s.geQ similarityThreshold then
          if (foundCluster clusters bid).processIds.contains p.pid then
            ⟨clusters, foundCluster clusters bid, false, n⟩
          else
            ⟨replaceById clusters bid (joinedCluster p e (foundCluster clusters bid)),
             joinedCluster p e (foundCluster clusters bid), false, n⟩
        else ⟨clusters, createSingletonCluster p e newId, true, n + 1⟩
      | none => ⟨clusters, createSingletonCluster p e newId, true, n + 1⟩ := by
  unfold assignProcessToCluster nearestOf foundCluster joinedCluster
  dsimp only
  cases findNearestCentroid e
      ((clusters.filter (fun c => decide (0 < c.centroid.length))).map
        (fun c => (c.id, c.centroid))) with
  | none => rfl
  | some bs =>
    obtain ⟨bid, s⟩ := bs
    dsimp only
    split_ifs with h1 h2 <;> try rfl
    cases hcl : (clusters.find? (fun c => decide (c.id = bid))).getD
        (createEmptyCluster "") with
    | mk i nm d cat pids cen ch par dep st => rfl

/-- Replacing by id never changes the number of clusters. -/
lemma replaceById_length (clusters : List ProcessCluster) (bid : String)
    (u : ProcessCluster) : (replaceById clusters bid u).length = clusters.length := by
  induction clusters with
  | nil => rfl
  | cons c rest ih =>
    rw [replaceById]
    split_ifs <;> simp [ih]

/-- The only cluster of the C6 counterexample: pid `5` is already a member
and the centroid is `[1, 0]`. -/
def c6cs : List ProcessCluster :=
  [.mk "k1" "n" "d" "Other" [5] [1, 0] [] none 1 ⟨0, 0, 0, 0, 0⟩]

/-- The C6 counterexample descriptor, bearing the already-member pid `5`. -/
def c6p : SystemProcess := ⟨5, "x", "cmd", 0, 0, 0, 0⟩

/-- **Claim C6, counterexample.**  The descriptor's embedding `[4/5, 3/5]`
has similarity `0.8 ≥ 0.75` to the only centroid, yet `assign` neither adds
the pid nor shifts the centroid: the pid is already a member, so the cluster
list is returned untouched and the centroid stays `[1, 0]`, which differs
from the claimed mean of prior centroid contributions and the new vector. -/
theorem c6_counterexample :
    nearestOf [4/5, 3/5] c6cs = some ("k1", ⟨4/5, 1⟩) ∧
    Sim.geQ ⟨4/5, 1⟩ similarityThreshold = true ∧
    (assignProcessToCluster c6p [4/5, 3/5] c6cs 0 "fresh").clusters.map
      (fun c => (c.processIds, c.centroid)) = [([5], [1, 0])] ∧
    (assignProcessToCluster c6p [4/5, 3/5] c6cs 0 "fresh").cluster.centroid = [1, 0] ∧
    (assignProcessToCluster c6p [4/5, 3/5] c6cs 0 "fresh").isNew = false ∧
    calculateCentroid (List.replicate 2 [1, 0] ++ [[4/5, 3/5]]) ≠ [1, 0] := by
  refine ⟨?_, ?_, ?_, ?_, ?_, ?_⟩ <;> with_unfolding_all decide

/-- **Claim C6 (amended).**  If the nearest non-empty centroid clears the
join threshold (0.75) *and the descriptor's pid is not already a member*,
`assign` appends the pid to that cluster, recomputes its centroid as the mean
of `min 10 |newPids|` copies of the prior centroid and the new embedding,
creates no new cluster (the list keeps its length; `isNew = false`; the
singleton counter is unchanged).  If no cluster competes, or the best falls
below the threshold, `assign` returns a fresh singleton seeded with the
embedding, `isNew = true`, and increments the singleton counter.  (For an
already-member pid the cluster is returned untouched: see the
counterexample and claim C9.) -/
theorem c6_amended (p : SystemProcess) (e : List ℚ)
    (clusters : List ProcessCluster) (n : Nat) (newId : String) :
    (∀ bid s, nearestOf e clusters = some (bid, s) →
      s.geQ similarityThreshold = true →
      (foundCluster clusters bid).processIds.contains p.pid = false →
      assignProcessToCluster p e clusters n newId =
        ⟨replaceById clusters bid (joinedCluster p e (foundCluster clusters bid)),
         joinedCluster p e (foundCluster clusters bid), false, n⟩ ∧
      (joinedCluster p e (foundCluster clusters bid)).processIds =
        (foundCluster clusters bid).processIds ++ [p.pid] ∧
      (joinedCluster p e (foundCluster clusters bid)).centroid =
        calculateCentroid
          (List.replicate (min 10 ((foundCluster clusters bid).processIds.length + 1))
            (foundCluster clusters bid).centroid ++ [e]) ∧
      (replaceById clusters bid
          (joinedCluster p e (foundCluster clusters bid))).length =
        clusters.length) ∧
    (nearestOf e clusters = none →
      assignProcessToCluster p e clusters n newId =
        ⟨clusters, createSingletonCluster p e newId, true, n + 1⟩) ∧
    (∀ bid s, nearestOf e clusters = some (bid, s) →
      s.geQ similarityThreshold = false →
      assignProcessToCluster p e clusters n newId =
        ⟨clusters, createSingletonCluster p e newId, true, n + 1⟩) := by
  refine ⟨?_, ?_, ?_⟩
  · intro bid s hfind hgeQ hmem
    refine ⟨?_, rfl, ?_, replaceById_length _ _ _⟩
    · rw [assign_branch, hfind]
      dsimp only
      rw [if_pos hgeQ, if_neg (by rw [hmem]; exact Bool.false_ne_true)]
    · show ProcessCluster.centroid (.mk _ _ _ _ _ _ _ _ _ _) = _
      rw [ProcessCluster.centroid]
      congr 2
      simp
  · intro hfind
    rw [assign_branch, hfind]
  · intro bid s hfind hgeQ
    rw [assign_branch, hfind]
    dsimp only
    rw [if_neg (by simp [hgeQ])]

/-- Witness for `c6_amended` at the `c6cs` cluster list with the fresh
pid `7`. -/
theorem c6_amended_witness :
    (∀ bid s, nearestOf [4/5, 3/5] c6cs = some (bid, s) →
      s.geQ similarityThreshold = true →
      (foundCluster c6cs bid).processIds.contains (7 : Int) = false →
      assignProcessToCluster ⟨7, "x", "cmd", 0, 0, 0, 0⟩ [4/5, 3/5] c6cs 0 "fresh" =
        ⟨replaceById c6cs bid
           (joinedCluster ⟨7, "x", "cmd", 0, 0, 0, 0⟩ [4/5, 3/5] (foundCluster c6cs bid)),
         joinedCluster ⟨7, "x", "cmd", 0, 0, 0, 0⟩ [4/5, 3/5] (foundCluster c6cs bid),
         false, 0⟩ ∧
      (joinedCluster ⟨7, "x", "cmd", 0, 0, 0, 0⟩ [4/5, 3/5] (foundCluster c6cs bid)).processIds =
        (foundCluster c6cs bid).processIds ++ [(7 : Int)] ∧
      (joinedCluster ⟨7, "x", "cmd", 0, 0, 0, 0⟩ [4/5, 3/5] (foundCluster c6cs bid)).centroid =
        calculateCentroid
          (List.replicate (min 10 ((foundCluster c6cs bid).processIds.length + 1))
            (foundCluster c6cs bid).centroid ++ [[4/5, 3/5]]) ∧
      (replaceById c6cs bid
          (joinedCluster ⟨7, "x", "cmd", 0, 0, 0, 0⟩ [4/5, 3/5] (foundCluster c6cs bid))).length =
        c6cs.length) ∧
    (nearestOf [4/5, 3/5] c6cs = none →
      assignProcessToCluster ⟨7, "x", "cmd", 0, 0, 0, 0⟩ [4/5, 3/5] c6cs 0 "fresh" =
        ⟨c6cs, createSingletonCluster ⟨7, "x", "cmd", 0, 0, 0, 0⟩ [4/5, 3/5] "fresh",
         true, 0 + 1⟩) ∧
    (∀ bid s, nearestOf [4/5, 3/5] c6cs = some (bid, s) →
      s.geQ similarityThreshold = false →
      assignProcessToCluster ⟨7, "x", "cmd", 0, 0, 0, 0⟩ [4/5, 3/5] c6cs 0 "fresh" =
        ⟨c6cs, createSingletonCluster ⟨7, "x", "cmd", 0, 0, 0, 0⟩ [4/5, 3/5] "fresh",
         true, 0 + 1⟩) :=
  c6_amended ⟨7, "x", "cmd", 0, 0, 0, 0⟩ [4/5, 3/5] c6cs 0 "fresh"

/-- **Claim C9 (confirmed).**  When the nearest qualifying cluster already
contains the descriptor's pid, `assign` returns the cluster list untouched
(no duplicate pid, no centroid recomputation) with `isNew = false` and the
counter unchanged, and running the same assignment again yields the very
same result. -/
theorem c9_member_idempotent (p : SystemProcess) (e : List ℚ)
    (clusters : List ProcessCluster) (n : Nat) (newId newId' : String)
    (bid : String) (s : Sim)
    (hfind : nearestOf e clusters = some (bid, s))
    (hgeQ : s.geQ similarityThreshold = true)
    (hmem : (foundCluster clusters bid).processIds.contains p.pid = true) :
    assignProcessToCluster p e clusters n newId =
      ⟨clusters, foundCluster clusters bid, false, n⟩ ∧
    assignProcessToCluster p e
        (assignProcessToCluster p e clusters n newId).clusters
        (assignProcessToCluster p e clusters n newId).singletonCount newId' =
      assignProcessToCluster p e clusters n newId := by
  have h1 : assignProcessToCluster p e clusters n newId =
      ⟨clusters, foundCluster clusters bid, false, n⟩ := by
    rw [assign_branch, hfind]
    dsimp only
    rw [if_pos hgeQ, if_pos hmem]
  refine ⟨h1, ?_⟩
  rw [h1]
  dsimp only
  rw [assign_branch, hfind]
  dsimp only
  rw [if_pos hgeQ, if_pos hmem]

/-- Witness for `c9_member_idempotent`: pid `5` is already in the only
cluster, whose centroid equals the embedding. -/
theorem c9_member_idempotent_witness :
    (nearestOf [1, 0] c6cs = some ("k1", ⟨1, 1⟩) ∧
     Sim.geQ ⟨1, 1⟩ similarityThreshold = true ∧
     (foundCluster c6cs "k1").processIds.contains c6p.pid = true) ∧
    (assignProcessToCluster c6p [1, 0] c6cs 0 "a" =
      ⟨c6cs, foundCluster c6cs "k1", false, 0⟩ ∧
    assignProcessToCluster c6p [1, 0]
        (assignProcessToCluster c6p [1, 0] c6cs 0 "a").clusters
        (assignProcessToCluster c6p [1, 0] c6cs 0 "a").singletonCount "b" =
      assignProcessToCluster c6p [1, 0] c6cs 0 "a") :=
  ⟨⟨by with_unfolding_all decide, by with_unfolding_all decide, by decide⟩,
   c9_member_idempotent c6p [1, 0] c6cs 0 "a" "b" "k1" ⟨1, 1⟩
     (by with_unfolding_all decide) (by with_unfolding_all decide) (by decide)⟩

/-! ## Partial success of the batched fetch (claim C7) -/

lemma mapGet_mapSet [DecidableEq κ] (m : JsMap κ α) (k k' : κ) (v : α) :
    mapGet (mapSet m k v) k' = if k = k' then some v else mapGet m k' := by
  induction m with
  | nil =>
    rw [mapSet]
    by_cases h : k = k'
    · subst h
      rw [if_pos rfl, mapGet_cons_self]
    · rw [if_neg h, mapGet_cons_ne _ _ _ _ h]
  | cons kv m ih =>
    obtain ⟨a, b⟩ := kv
    rw [mapSet]
    by_cases h1 : a = k
    · rw [if_pos h1]
      subst h1
      by_cases h2 : a = k'
      · subst h2
        rw [if_pos rfl, mapGet_cons_self]
      · rw [if_neg h2, mapGet_cons_ne _ _ _ _ h2, mapGet_cons_ne _ _ _ _ h2]
    · rw [if_neg h1]
      by_cases h2 : a = k'
      · subst h2
        rw [if_neg (fun h => h1 h.symm), mapGet_cons_self, mapGet_cons_self]
      · rw [mapGet_cons_ne _ _ _ _ h2, ih, mapGet_cons_ne _ _ _ _ h2]

lemma mapHas_mapSet [DecidableEq κ] (m : JsMap κ α) (k k' : κ) (v : α) :
    mapHas (mapSet m k v) k' = (decide (k = k') || mapHas m k') := by
  rw [mapHas, mapGet_mapSet]
  split_ifs with h <;> simp [h, mapHas]

/-- Keys present after storing one successful batch: the old keys plus the
batch items zipped with the returned embeddings. -/
lemma fetchFold_keys :
    ∀ (l : List (UncachedItem × List ℚ)) (r : JsMap String (List ℚ))
      (w : World) (key : String),
      mapHas (l.foldl
        (fun (rw : JsMap String (List ℚ) × World) pe =>
          (mapSet rw.1 pe.1.key pe.2,
           { vectors := mapSet rw.2.vectors pe.1.key
               ⟨pe.1.process.pid, pe.1.process.name, pe.1.process.command,
                pe.2, pe.1.text⟩,
             db := mapSet rw.2.db pe.1.text pe.2 }))
        (r, w)).1 key = true ↔
      (mapHas r key = true ∨ ∃ pe ∈ l, pe.1.key = key) := by
  intro l
  induction l with
  | nil => intro r w key; simp
  | cons pe l ih =>
    intro r w key
    rw [List.foldl_cons, ih, mapHas_mapSet]
    simp only [Bool.or_eq_true, decide_eq_true_eq, List.mem_cons]
    constructor
    · rintro ((h | h) | ⟨q, hq, hkey⟩)
      · exact Or.inr ⟨pe, Or.inl rfl, h⟩
      · exact Or.inl h
      · exact Or.inr ⟨q, Or.inr hq, hkey⟩
    · rintro (h | ⟨q, rfl | hq, hkey⟩)
      · exact Or.inl (Or.inr h)
      · exact Or.inl (Or.inl hkey)
      · exact Or.inr ⟨q, hq, hkey⟩

/-- A batch's keys coincide with its zipped keys when the provider returned
one embedding per text. -/
lemma exists_zip_key (b : List UncachedItem) (es : List (List ℚ))
    (hlen : es.length = b.length) (key : String) :
    (∃ pe ∈ b.zip es, pe.1.key = key) ↔ ∃ u ∈ b, u.key = key := by
  constructor
  · rintro ⟨pe, hpe, hkey⟩
    obtain ⟨u, v⟩ := pe
    exact ⟨u, (List.of_mem_zip hpe).1, hkey⟩
  · rintro ⟨u, hu, hkey⟩
    obtain ⟨i, hi, hgu⟩ := List.getElem_of_mem hu
    have hzi : i < (b.zip es).length := by
      rw [List.length_zip, hlen, min_self]
      exact hi
    refine ⟨(b.zip es).get ⟨i, hzi⟩, List.get_mem _ _ _, ?_⟩
    have : (b.zip es).get ⟨i, hzi⟩ = (b[i], es.get ⟨i, by rw [hlen]; exact hi⟩) := by
      rw [List.get_eq_getElem, List.getElem_zip]
      rfl
    rw [this]
    dsimp only
    rw [hgu]
    exact hkey

/-- **Fetch-loop partial success**: with every batch before the failing one
succeeding (one embedding per text) and the `k`-th failing, the loop issues
exactly the first `k + 1` batches and its result holds exactly the incoming
keys plus the earlier batches' keys. -/
lemma fetchBatches_partial (getE : List String → Option (List (List ℚ))) :
    ∀ (pre : List (List UncachedItem)) (bk : List UncachedItem)
      (post : List (List UncachedItem)) (r : JsMap String (List ℚ))
      (w : World) (sent : List (List String)),
      (∀ b ∈ pre, ∃ es, getE (b.map (fun u => u.text)) = some es ∧
        es.length = b.length) →
      getE (bk.map (fun u => u.text)) = none →
      (fetchBatches getE (pre ++ bk :: post) r w sent).2.2 =
        sent ++ pre.map (fun b => b.map (fun u => u.text)) ++
          [bk.map (fun u => u.text)] ∧
      ∀ key, mapHas (fetchBatches getE (pre ++ bk :: post) r w sent).1 key = true ↔
        (mapHas r key = true ∨ ∃ b ∈ pre, ∃ u ∈ b, u.key = key) := by
  intro pre
  induction pre with
  | nil =>
    intro bk post r w sent hpre hfail
    rw [List.nil_append, fetchBatches, hfail]
    refine ⟨by simp, ?_⟩
    intro key
    simp
  | cons b pre ih =>
    intro bk post r w sent hpre hfail
    obtain ⟨es, hsome, hlen⟩ := hpre b (List.mem_cons_self b pre)
    rw [List.cons_append, fetchBatches, hsome]
    dsimp only
    obtain ⟨ht, hk⟩ := ih bk post _ _ (sent ++ [b.map (fun u => u.text)])
      (fun b' hb' => hpre b' (List.mem_cons_of_mem b hb')) hfail
    refine ⟨?_, ?_⟩
    · rw [ht]
      simp
    · intro key
      rw [hk key, fetchFold_keys, exists_zip_key b es hlen key]
      simp only [List.mem_cons]
      constructor
      · rintro ((h | ⟨u, hu, hkey⟩) | ⟨b', hb', u, hu, hkey⟩)
        · exact Or.inl h
        · exact Or.inr ⟨b, Or.inl rfl, u, hu, hkey⟩
        · exact Or.inr ⟨b', Or.inr hb', u, hu, hkey⟩
      · rintro (h | ⟨b', rfl | hb', u, hu, hkey⟩)
        · exact Or.inl (Or.inl h)
        · exact Or.inl (Or.inr ⟨u, hu, hkey⟩)
        · exact Or.inr ⟨b', hb', u, hu, hkey⟩

/-- `batchGetEmbeddings` with the first pass projected out. -/
lemma batchGetEmbeddings_eq (getE : List String → Option (List (List ℚ)))
    (sc : String → String) (w : World) (ps : List SystemProcess) :
    batchGetEmbeddings getE sc w ps =
      if ((firstPass sc ps [] w).2.2).isEmpty
      then ((firstPass sc ps [] w).1, (firstPass sc ps [] w).2.1, [])
      else fetchBatches getE (chunksOf 50 ((firstPass sc ps [] w).2.2))
        ((firstPass sc ps [] w).1) ((firstPass sc ps [] w).2.1) [] := by
  unfold batchGetEmbeddings
  rcases firstPass sc ps [] w with ⟨r0, w1, uc⟩
  rfl

/-- **Claim C7 (confirmed).**  If the provider fails on the `k`-th batch of
uncached texts (each earlier batch succeeding with one embedding per text),
`batchGetEmbeddings` still returns a map holding every cache hit of the
first pass and every key of the batches before the `k`-th; exactly the
failed and later batches' keys are absent (unless cached), the failed batch
is the last call issued, and no error escapes — a plain map is returned. -/
theorem c7_partial_batches (getE : List String → Option (List (List ℚ)))
    (sc : String → String) (w : World) (ps : List SystemProcess)
    (pre : List (List UncachedItem)) (bk : List UncachedItem)
    (post : List (List UncachedItem))
    (hchunks : chunksOf 50 ((firstPass sc ps [] w).2.2) = pre ++ bk :: post)
    (hpre : ∀ b ∈ pre, ∃ es, getE (b.map (fun u => u.text)) = some es ∧
      es.length = b.length)
    (hfail : getE (bk.map (fun u => u.text)) = none) :
    (batchGetEmbeddings getE sc w ps).2.2 =
      pre.map (fun b => b.map (fun u => u.text)) ++
        [bk.map (fun u => u.text)] ∧
    ∀ key, mapHas (batchGetEmbeddings getE sc w ps).1 key = true ↔
      (mapHas (firstPass sc ps [] w).1 key = true ∨
       ∃ b ∈ pre, ∃ u ∈ b, u.key = key) := by
  have hne : ¬ ((firstPass sc ps [] w).2.2).isEmpty = true := by
    intro h
    rw [List.isEmpty_iff.mp h] at hchunks
    rw [show chunksOf 50 ([] : List UncachedItem) = [] from rfl] at hchunks
    exact (List.cons_ne_nil bk post) (List.append_eq_nil.mp hchunks.symm).2
  rw [batchGetEmbeddings_eq, if_neg hne, hchunks]
  obtain ⟨ht, hk⟩ := fetchBatches_partial getE pre bk post
    ((firstPass sc ps [] w).1) ((firstPass sc ps [] w).2.1) [] hpre hfail
  refine ⟨?_, hk⟩
  rw [ht, List.nil_append]

/-- Fifty-one copies of one process: the first pass leaves 51 uncached
items, chunked into a full batch of 50 and a final batch of 1. -/
def c7ps : List SystemProcess := List.replicate 51 ⟨1, "n", "c", 1, 0, 0, 0⟩

/-- A provider that answers exactly the 50-element batches. -/
def c7getE : List String → Option (List (List ℚ)) :=
  fun ts => if ts.length = 50 then some (ts.map (fun _ => [1])) else none

/-- The uncached item shared by all 51 copies. -/
def c7item : UncachedItem := ⟨⟨1, "n", "c", 1, 0, 0, 0⟩, "n: c", "n::c"⟩

/-- Witness for `c7_partial_batches`: the second (one-element) batch fails;
the 50 earlier keys are kept and the transcript stops at the failed call. -/
theorem c7_partial_batches_witness :
    (chunksOf 50 ((firstPass id c7ps [] ⟨[], []⟩).2.2) =
        [List.replicate 50 c7item] ++ [c7item] :: [] ∧
     (∀ b ∈ [List.replicate 50 c7item], ∃ es,
        c7getE (b.map (fun u => u.text)) = some es ∧ es.length = b.length) ∧
     c7getE ([c7item].map (fun u => u.text)) = none) ∧
    ((batchGetEmbeddings c7getE id ⟨[], []⟩ c7ps).2.2 =
      [List.replicate 50 c7item].map (fun b => b.map (fun u => u.text)) ++
        [[c7item].map (fun u => u.text)] ∧
    ∀ key, mapHas (batchGetEmbeddings c7getE id ⟨[], []⟩ c7ps).1 key = true ↔
      (mapHas (firstPass id c7ps [] ⟨[], []⟩).1 key = true ∨
       ∃ b ∈ [List.replicate 50 c7item], ∃ u ∈ b, u.key = key)) :=
  ⟨⟨by with_unfolding_all decide,
    by
      intro b hb
      rw [List.mem_singleton] at hb
      subst hb
      exact ⟨List.replicate 50 [1], by with_unfolding_all decide, by decide⟩,
    by with_unfolding_all decide⟩,
   c7_partial_batches c7getE id ⟨[], []⟩ c7ps
     [List.replicate 50 c7item] [c7item] []
     (by with_unfolding_all decide)
     (by
       intro b hb
       rw [List.mem_singleton] at hb
       subst hb
       exact ⟨List.replicate 50 [1], by with_unfolding_all decide, by decide⟩)
     (by with_unfolding_all decide)⟩

/-! ## Request coalescing in `getProcessEmbedding` (claim C8) -/

/-- The vector-store state seen by `getProcessEmbedding`: the in-memory
`vectors` map, the `pendingEmbeddings` table (in-flight promises, numbered
in creation order), the persistent cache, the count of issued provider
fetches, and the next promise number. -/
structure VSState where
  vectors : JsMap String ProcessVector
  pending : JsMap String Nat
  db : JsMap String (List ℚ)
  fetchCount : Nat
  nextPromise : Nat
deriving DecidableEq, Repr

/-- What one call hands back: a settled value (cache hit) or a promise. -/
inductive CallResult where
  | value (v : List ℚ)
  | promise (n : Nat)
deriving DecidableEq, Repr

/-- The synchronous prefix of one `getProcessEmbedding` call, which
JavaScript runs atomically: an in-memory hit returns the stored embedding; a
pending key returns the in-flight promise; a database hit stores and returns
the cached vector; otherwise the fetch is issued, a fresh promise is
registered under the key, and that promise is returned. -/
def stepCall (sc : String → String) (p : SystemProcess) (s : VSState) :
    CallResult × VSState :=
  let key := getKey p
  let text := processToText sc p
  match mapGet s.vectors key with
  | some pv => (.value pv.embedding, s)
  | none =>
    match mapGet s.pending key with
    | some n => (.promise n, s)
    | none =>
      match mapGet s.db text with
      | some cached =>
        (.value cached,
         { s with vectors := mapSet s.vectors key ⟨p.pid, p.name, p.command, cached, text⟩ })
      | none =>
        (.promise s.nextPromise,
         { s with pending := mapSet s.pending key s.nextPromise,
                  fetchCount := s.fetchCount + 1,
                  nextPromise := s.nextPromise + 1 })

/-- `n` concurrent calls for the same process: their synchronous prefixes
run back to back, with no fetch completion in between. -/
def callsN (sc : String → String) (p : SystemProcess) :
    Nat → VSState → List CallResult × VSState
  | 0, s => ([], s)
  | n + 1, s =>
    let r := stepCall sc p s
    let rest := callsN sc p n r.2
    (r.1 :: rest.1, rest.2)

/-- The vector a caller ends up with once every promise is settled:
`resolved` maps a promise number to the vector its fetch produced. -/
def deliver (resolved : Nat → List ℚ) : CallResult → List ℚ
  | .value v => v
  | .promise n => resolved n

/-- While the key stays pending, every further call returns the in-flight
promise and changes nothing. -/
lemma callsN_pending (sc : String → String) (p : SystemProcess) (m : Nat) :
    ∀ (n : Nat) (s : VSState), mapGet s.vectors (getKey p) = none →
      mapGet s.pending (getKey p) = some m →
      callsN sc p n s = (List.replicate n (.promise m), s) := by
  intro n
  induction n with
  | zero => intro s hvec hpend; rfl
  | succ n ih =>
    intro s hvec hpend
    have hstep : stepCall sc p s = (.promise m, s) := by
      unfold stepCall
      dsimp only
      rw [hvec, hpend]
    rw [callsN, hstep]
    dsimp only
    rw [ih s hvec hpend]
    rfl

/-- **Claim C8 (confirmed).**  `N + 1` concurrent `getProcessEmbedding`
calls for one key that is in neither the in-memory map nor the persistent
cache issue exactly one fetch: the first call registers promise
`s.nextPromise` and bumps `fetchCount` by one, every further call returns
that same promise, and once it settles all callers hold the same vector. -/
theorem c8_coalesce (sc : String → String) (p : SystemProcess) (s : VSState)
    (N : Nat)
    (hvec : mapGet s.vectors (getKey p) = none)
    (hpend : mapGet s.pending (getKey p) = none)
    (hdb : mapGet s.db (processToText sc p) = none) :
    (callsN sc p (N + 1) s).1 =
      List.replicate (N + 1) (.promise s.nextPromise) ∧
    (callsN sc p (N + 1) s).2.fetchCount = s.fetchCount + 1 ∧
    ∀ resolved : Nat → List ℚ, ∀ r1 ∈ (callsN sc p (N + 1) s).1,
      ∀ r2 ∈ (callsN sc p (N + 1) s).1,
        deliver resolved r1 = deliver resolved r2 := by
  have hstep : stepCall sc p s =
      (.promise s.nextPromise,
       { s with pending := mapSet s.pending (getKey p) s.nextPromise,
                fetchCount := s.fetchCount + 1,
                nextPromise := s.nextPromise + 1 }) := by
    unfold stepCall
    dsimp only
    rw [hvec, hpend, hdb]
  have hrest := callsN_pending sc p s.nextPromise N
    { s with pending := mapSet s.pending (getKey p) s.nextPromise,
             fetchCount := s.fetchCount + 1,
             nextPromise := s.nextPromise + 1 }
    hvec (by dsimp only; rw [mapGet_mapSet, if_pos rfl])
  have hout : callsN sc p (N + 1) s =
      (List.replicate (N + 1) (.promise s.nextPromise),
       { s with pending := mapSet s.pending (getKey p) s.nextPromise,
                fetchCount := s.fetchCount + 1,
                nextPromise := s.nextPromise + 1 }) := by
    rw [callsN, hstep]
    dsimp only
    rw [hrest]
    rfl
  refine ⟨by rw [hout], by rw [hout], ?_⟩
  intro resolved r1 h1 r2 h2
  rw [hout] at h1 h2
  rw [List.eq_of_mem_replicate h1, List.eq_of_mem_replicate h2]

/-- Witness for `c8_coalesce`: three concurrent calls on the empty store. -/
theorem c8_coalesce_witness :
    (mapGet (⟨[], [], [], 0, 0⟩ : VSState).vectors (getKey ⟨1, "n", "c", 0, 0, 0, 0⟩) = none ∧
     mapGet (⟨[], [], [], 0, 0⟩ : VSState).pending (getKey ⟨1, "n", "c", 0, 0, 0, 0⟩) = none ∧
     mapGet (⟨[], [], [], 0, 0⟩ : VSState).db (processToText id ⟨1, "n", "c", 0, 0, 0, 0⟩) = none) ∧
    ((callsN id ⟨1, "n", "c", 0, 0, 0, 0⟩ (2 + 1) ⟨[], [], [], 0, 0⟩).1 =
      List.replicate (2 + 1) (.promise (⟨[], [], [], 0, 0⟩ : VSState).nextPromise) ∧
    (callsN id ⟨1, "n", "c", 0, 0, 0, 0⟩ (2 + 1) ⟨[], [], [], 0, 0⟩).2.fetchCount =
      (⟨[], [], [], 0, 0⟩ : VSState).fetchCount + 1 ∧
    ∀ resolved : Nat → List ℚ,
      ∀ r1 ∈ (callsN id ⟨1, "n", "c", 0, 0, 0, 0⟩ (2 + 1) ⟨[], [], [], 0, 0⟩).1,
      ∀ r2 ∈ (callsN id ⟨1, "n", "c", 0, 0, 0, 0⟩ (2 + 1) ⟨[], [], [], 0, 0⟩).1,
        deliver resolved r1 = deliver resolved r2) :=
  ⟨⟨rfl, rfl, rfl⟩,
   c8_coalesce id ⟨1, "n", "c", 0, 0, 0, 0⟩ ⟨[], [], [], 0, 0⟩ 2 rfl rfl rfl⟩

/-! ## Cluster ids never influence the pid partition (claim C5, part 1) -/

/-- Everything a merge-loop cluster carries except its generated id. -/
def eraseM (c : MCluster) : List Int × List (List ℚ) × List ℚ :=
  (c.processIds, c.embeddings, c.centroid)

lemma getD_map_eq (f : α → β) :
    ∀ (l : List α) (i : Nat) (d : α),
      (l.map f).getD i (f d) = f (l.getD i d) := by
  intro l
  induction l with
  | nil => intro i d; rfl
  | cons a l ih =>
    intro i d
    cases i with
    | zero => rfl
    | succ i => exact ih i d

lemma erase_length {cs cs' : List MCluster}
    (hm : cs.map eraseM = cs'.map eraseM) : cs.length = cs'.length := by
  have := congrArg List.length hm
  simpa using this

lemma getD_erase {cs cs' : List MCluster}
    (hm : cs.map eraseM = cs'.map eraseM) (i : Nat) :
    eraseM (cs.getD i default) = eraseM (cs'.getD i default) := by
  have h := congrArg (fun l => l.getD i (eraseM default)) hm
  dsimp only at h
  rw [getD_map_eq eraseM cs i default, getD_map_eq eraseM cs' i default] at h
  exact h

lemma centroidAt_erase {cs cs' : List MCluster}
    (hm : cs.map eraseM = cs'.map eraseM) (i : Nat) :
    centroidAt cs i = centroidAt cs' i :=
  congrArg (fun t => t.2.2) (getD_erase hm i)

lemma scanF_erase {cs cs' : List MCluster}
    (hm : cs.map eraseM = cs'.map eraseM) :
    scanF cs = scanF cs' := by
  funext acc ij
  unfold scanF
  rw [centroidAt_erase hm ij.1, centroidAt_erase hm ij.2]

lemma scanPairs_erase {cs cs' : List MCluster}
    (hm : cs.map eraseM = cs'.map eraseM) :
    scanPairs cs = scanPairs cs' := by
  unfold scanPairs
  rw [erase_length hm, scanF_erase hm]

/-- `removeTwo` only looks at positions, so it commutes with `map`. -/
lemma removeTwo_map (f : α → β) (cs : List α) (i j : Nat) :
    (removeTwo cs i j).map f = removeTwo (cs.map f) i j := by
  unfold removeTwo
  rw [List.map_map, List.enum_map, List.filter_map, List.map_map]
  have hp : ((fun p : Nat × β => decide (p.1 ≠ i) && decide (p.1 ≠ j)) ∘ Prod.map id f)
      = (fun p : Nat × α => decide (p.1 ≠ i) && decide (p.1 ≠ j)) := by
    funext p
    rfl
  rw [hp]
  rfl

/-- One merge step produces id-erased-equal results from id-erased-equal
states, whatever ids are drawn. -/
lemma mergeStep_erase {cs cs' : List MCluster}
    (hm : cs.map eraseM = cs'.map eraseM) (a b : String) :
    Option.map (fun l => l.map eraseM) (mergeStep a cs) =
    Option.map (fun l => l.map eraseM) (mergeStep b cs') := by
  unfold mergeStep
  rw [scanPairs_erase hm]
  cases scanPairs cs' with
  | none => rfl
  | some ij =>
    obtain ⟨i, j⟩ := ij
    dsimp only
    have h1 := getD_erase hm i
    have h2 := getD_erase hm j
    have hp1 : (cs.getD i default).processIds = (cs'.getD i default).processIds :=
      congrArg (fun t => t.1) h1
    have hp2 : (cs.getD j default).processIds = (cs'.getD j default).processIds :=
      congrArg (fun t => t.1) h2
    have he1 : (cs.getD i default).embeddings = (cs'.getD i default).embeddings :=
      congrArg (fun t => t.2.1) h1
    have he2 : (cs.getD j default).embeddings = (cs'.getD j default).embeddings :=
      congrArg (fun t => t.2.1) h2
    rw [he1, he2, hp1, hp2]
    split_ifs with hsz
    · dsimp only [Option.map]
      congr 1
      rw [List.map_append, List.map_append, removeTwo_map, removeTwo_map, hm]
      rfl
    · rfl

/-- The merge loop preserves id-erased equality whatever id supplies and
counters the two runs use. -/
lemma mergeLoop_erase (ids ids' : Nat → String) :
    ∀ (fuel : Nat) (cs cs' : List MCluster) (k k' : Nat),
      cs.map eraseM = cs'.map eraseM →
      (mergeLoop ids fuel cs k).1.map eraseM =
      (mergeLoop ids' fuel cs' k').1.map eraseM := by
  intro fuel
  induction fuel with
  | zero => intro cs cs' k k' hm; exact hm
  | succ fuel ih =>
    intro cs cs' k k' hm
    have hlen := erase_length hm
    rw [mergeLoop, mergeLoop]
    by_cases hl : cs.length ≤ 1
    · rw [if_pos hl, if_pos (hlen ▸ hl)]
      exact hm
    · rw [if_neg hl, if_neg (hlen ▸ hl)]
      have hms := mergeStep_erase hm (ids k) (ids' k')
      cases hs1 : mergeStep (ids k) cs with
      | none =>
        cases hs2 : mergeStep (ids' k') cs' with
        | none => exact hm
        | some d1 =>
          rw [hs1, hs2] at hms
          cases hms
      | some c1 =>
        cases hs2 : mergeStep (ids' k') cs' with
        | none =>
          rw [hs1, hs2] at hms
          cases hms
        | some d1 =>
          rw [hs1, hs2] at hms
          exact ih c1 d1 (k + 1) (k' + 1) (by simpa using hms)

lemma aggloInit_erase (ids ids' : Nat → String) (items : List ClusterItem) :
    (aggloInit ids items).map eraseM = (aggloInit ids' items).map eraseM := by
  unfold aggloInit
  rw [List.map_map, List.map_map]
  congr 1

lemma aggloMerged_erase (ids ids' : Nat → String) (items : List ClusterItem) :
    (aggloMerged ids items).map eraseM = (aggloMerged ids' items).map eraseM := by
  unfold aggloMerged
  have h1 : (aggloInit ids items).length = items.length := by
    simp [aggloInit]
  have h2 : (aggloInit ids' items).length = items.length := by
    simp [aggloInit]
  rw [h1, h2]
  exact mergeLoop_erase ids ids' items.length _ _ _ _
    (aggloInit_erase ids ids' items)

/-- The post-filter respects id-erased equality (its predicate reads only
sizes). -/
lemma filter_erase (n : Nat) :
    ∀ (cs cs' : List MCluster), cs.map eraseM = cs'.map eraseM →
      (cs.filter (fun c =>
          decide (minClusterSize ≤ c.embeddings.length) || decide (n ≤ 5))).map eraseM =
      (cs'.filter (fun c =>
          decide (minClusterSize ≤ c.embeddings.length) || decide (n ≤ 5))).map eraseM := by
  intro cs
  induction cs with
  | nil =>
    intro cs' hm
    rw [List.map_eq_nil_iff.mp hm.symm]
  | cons c cs ih =>
    intro cs' hm
    cases cs' with
    | nil => cases hm
    | cons c' cs'' =>
      rw [List.map_cons, List.map_cons] at hm
      have hhd : eraseM c = eraseM c' := by
        have := congrArg List.head? hm
        simpa using this
      have htl : cs.map eraseM = cs''.map eraseM := by
        have := congrArg List.tail hm
        simpa using this
      have hlen : c.embeddings.length = c'.embeddings.length :=
        congrArg (fun t => t.2.1.length) hhd
      rw [List.filter_cons, List.filter_cons, hlen]
      cases hcond : (decide (minClusterSize ≤ c'.embeddings.length) || decide (n ≤ 5)) with
      | false =>
        rw [if_neg Bool.false_ne_true, if_neg Bool.false_ne_true]
        exact ih cs'' htl
      | true =>
        rw [if_pos rfl, if_pos rfl, List.map_cons, List.map_cons, hhd, ih cs'' htl]

/-- The agglomerative pass yields the same per-cluster pid lists whatever
id supply it draws from. -/
lemma agglo_processIds_erase (ids ids' : Nat → String)
    (items : List ClusterItem) :
    (agglomerativeClusterWithPids ids items).map (fun c => c.processIds) =
    (agglomerativeClusterWithPids ids' items).map (fun c => c.processIds) := by
  unfold agglomerativeClusterWithPids
  split_ifs with h
  · rfl
  · dsimp only
    have hme := aggloMerged_erase ids ids' items
    have hlen : (aggloMerged ids items).length = (aggloMerged ids' items).length :=
      erase_length hme
    rw [List.map_map, List.map_map]
    have hf := filter_erase (aggloMerged ids items).length _ _ hme
    rw [← hlen]
    have hmapped := congrArg
      (List.map (fun t : List Int × List (List ℚ) × List ℚ => t.1)) hf
    rw [List.map_map, List.map_map] at hmapped
    exact hmapped

/-! ## The second run reads back what the first run cached (claim C5, part 2) -/

/-- Every entry of the result map is backed by a `vectors` entry holding the
same embedding. -/
def Backed (r : JsMap String (List ℚ)) (vs : JsMap String ProcessVector) : Prop :=
  ∀ k v, mapGet r k = some v →
    ∃ pv : ProcessVector, mapGet vs k = some pv ∧ pv.embedding = v

lemma backed_nil (vs : JsMap String ProcessVector) : Backed [] vs := by
  intro k v h
  exact absurd h (by simp [mapGet])

lemma backed_hit {r : JsMap String (List ℚ)} {vs : JsMap String ProcessVector}
    (hB : Backed r vs) {key : String} {pv : ProcessVector}
    (hpv : mapGet vs key = some pv) : Backed (mapSet r key pv.embedding) vs := by
  intro k v hkv
  rw [mapGet_mapSet] at hkv
  split_ifs at hkv with h
  · cases hkv
    exact ⟨pv, h ▸ hpv, rfl⟩
  · exact hB k v hkv

lemma backed_set {r : JsMap String (List ℚ)} {vs : JsMap String ProcessVector}
    (hB : Backed r vs) (key : String) (pv : ProcessVector) :
    Backed (mapSet r key pv.embedding) (mapSet vs key pv) := by
  intro k v hkv
  rw [mapGet_mapSet] at hkv
  split_ifs at hkv with h
  · cases hkv
    exact ⟨pv, by rw [mapGet_mapSet, if_pos h], rfl⟩
  · obtain ⟨pv', hpv', hemb⟩ := hB k v hkv
    exact ⟨pv', by rw [mapGet_mapSet, if_neg h]; exact hpv', hemb⟩

/-- The first pass only stores vector-backed embeddings. -/
lemma firstPass_backed (sc : String → String) :
    ∀ (U : List SystemProcess) (r : JsMap String (List ℚ)) (w : World),
      Backed r w.vectors →
      Backed (firstPass sc U r w).1 ((firstPass sc U r w).2.1).vectors := by
  intro U
  induction U with
  | nil => intro r w hB; exact hB
  | cons p U ih =>
    intro r w hB
    rw [firstPass]
    dsimp only
    cases hv : mapGet w.vectors (getKey p) with
    | some pv => exact ih _ w (backed_hit hB hv)
    | none =>
      cases hd : mapGet w.db (processToText sc p) with
      | some cached =>
        exact ih _ _
          (backed_set hB (getKey p)
            ⟨p.pid, p.name, p.command, cached, processToText sc p⟩)
      | none => exact ih r w hB

/-- Storing one successful batch keeps the result map vector-backed. -/
lemma fetchFold_backed :
    ∀ (l : List (UncachedItem × List ℚ)) (r : JsMap String (List ℚ)) (w : World),
      Backed r w.vectors →
      Backed (l.foldl
        (fun (rw : JsMap String (List ℚ) × World) pe =>
          (mapSet rw.1 pe.1.key pe.2,
           { vectors := mapSet rw.2.vectors pe.1.key
               ⟨pe.1.process.pid, pe.1.process.name, pe.1.process.command,
                pe.2, pe.1.text⟩,
             db := mapSet rw.2.db pe.1.text pe.2 }))
        (r, w)).1
        ((l.foldl
        (fun (rw : JsMap String (List ℚ) × World) pe =>
          (mapSet rw.1 pe.1.key pe.2,
           { vectors := mapSet rw.2.vectors pe.1.key
               ⟨pe.1.process.pid, pe.1.process.name, pe.1.process.command,
                pe.2, pe.1.text⟩,
             db := mapSet rw.2.db pe.1.text pe.2 }))
        (r, w)).2).vectors := by
  intro l
  induction l with
  | nil => intro r w hB; exact hB
  | cons pe l ih =>
    intro r w hB
    rw [List.foldl_cons]
    exact ih _ _
      (backed_set hB pe.1.key
        ⟨pe.1.process.pid, pe.1.process.name, pe.1.process.command,
         pe.2, pe.1.text⟩)

/-- The fetch loop keeps the result map vector-backed, also across a
failure. -/
lemma fetchBatches_backed (getE : List String → Option (List (List ℚ))) :
    ∀ (batches : List (List UncachedItem)) (r : JsMap String (List ℚ))
      (w : World) (sent : List (List String)),
      Backed r w.vectors →
      Backed (fetchBatches getE batches r w sent).1
        ((fetchBatches getE batches r w sent).2.1).vectors := by
  intro batches
  induction batches with
  | nil => intro r w sent hB; exact hB
  | cons b rest ih =>
    intro r w sent hB
    rw [fetchBatches]
    cases hE : getE (b.map (fun u => u.text)) with
    | none => exact hB
    | some es =>
      dsimp only
      exact ih _ _ _ (fetchFold_backed (b.zip es) r w hB)

/-- `batchGetEmbeddings` returns a vector-backed result map. -/
lemma batchGet_backed (getE : List String → Option (List (List ℚ)))
    (sc : String → String) (w : World) (U : List SystemProcess) :
    Backed (batchGetEmbeddings getE sc w U).1
      ((batchGetEmbeddings getE sc w U).2.1).vectors := by
  rw [batchGetEmbeddings_eq]
  split_ifs with he
  · exact firstPass_backed sc U [] w (backed_nil w.vectors)
  · exact fetchBatches_backed getE _ _ _ []
      (firstPass_backed sc U [] w (backed_nil w.vectors))

/-- The first pass never drops a key from the result map. -/
lemma firstPass_has_mono (sc : String → String) :
    ∀ (U : List SystemProcess) (r : JsMap String (List ℚ)) (w : World)
      (k : String), mapHas r k = true →
      mapHas (firstPass sc U r w).1 k = true := by
  intro U
  induction U with
  | nil => intro r w k h; exact h
  | cons p U ih =>
    intro r w k h
    rw [firstPass]
    dsimp only
    cases hv : mapGet w.vectors (getKey p) with
    | some pv => exact ih _ w k (by rw [mapHas_mapSet, h, Bool.or_true])
    | none =>
      cases hd : mapGet w.db (processToText sc p) with
      | some cached => exact ih _ _ k (by rw [mapHas_mapSet, h, Bool.or_true])
      | none => exact ih r w k h

/-- After the first pass, each requested key is either resolved or queued. -/
lemma firstPass_covers (sc : String → String) :
    ∀ (U : List SystemProcess) (r : JsMap String (List ℚ)) (w : World),
      ∀ u ∈ U,
        mapHas (firstPass sc U r w).1 (getKey u) = true ∨
        ∃ it ∈ (firstPass sc U r w).2.2, it.key = getKey u := by
  intro U
  induction U with
  | nil => intro r w u hu; cases hu
  | cons p U ih =>
    intro r w u hu
    rw [firstPass]
    dsimp only
    cases hv : mapGet w.vectors (getKey p) with
    | some pv =>
      rcases List.mem_cons.mp hu with rfl | hu'
      · exact Or.inl (firstPass_has_mono sc U _ w (getKey u)
          (by simp [mapHas_mapSet]))
      · exact ih _ w u hu'
    | none =>
      cases hd : mapGet w.db (processToText sc p) with
      | some cached =>
        rcases List.mem_cons.mp hu with rfl | hu'
        · exact Or.inl (firstPass_has_mono sc U _ _ (getKey u)
            (by simp [mapHas_mapSet]))
        · exact ih _ _ u hu'
      | none =>
        rcases List.mem_cons.mp hu with rfl | hu'
        · exact Or.inr ⟨⟨u, processToText sc u, getKey u⟩,
            List.mem_cons_self _ _, rfl⟩
        · rcases ih r w u hu' with h | ⟨it, hit, hk⟩
          · exact Or.inl h
          · exact Or.inr ⟨it, List.mem_cons_of_mem _ hit, hk⟩

/-- With a reliable provider every batch is stored: the fetched map's keys
are the incoming keys plus every batched item's key. -/
lemma fetchBatches_keys_total (getE : List String → Option (List (List ℚ))) :
    ∀ (batches : List (List UncachedItem)) (r : JsMap String (List ℚ))
      (w : World) (sent : List (List String)),
      (∀ b ∈ batches, ∃ es, getE (b.map (fun u => u.text)) = some es ∧
        es.length = b.length) →
      ∀ key, mapHas (fetchBatches getE batches r w sent).1 key = true ↔
        (mapHas r key = true ∨ ∃ b ∈ batches, ∃ u ∈ b, u.key = key) := by
  intro batches
  induction batches with
  | nil =>
    intro r w sent hrel key
    simp [fetchBatches]
  | cons b rest ih =>
    intro r w sent hrel key
    obtain ⟨es, hsome, hlen⟩ := hrel b (List.mem_cons_self b rest)
    rw [fetchBatches, hsome]
    dsimp only
    rw [ih _ _ _ (fun b' hb' => hrel b' (List.mem_cons_of_mem b hb')) key,
      fetchFold_keys, exists_zip_key b es hlen key]
    simp only [List.mem_cons]
    constructor
    · rintro ((h | ⟨u, hu, hkey⟩) | ⟨b', hb', u, hu, hkey⟩)
      · exact Or.inl h
      · exact Or.inr ⟨b, Or.inl rfl, u, hu, hkey⟩
      · exact Or.inr ⟨b', Or.inr hb', u, hu, hkey⟩
    · rintro (h | ⟨b', rfl | hb', u, hu, hkey⟩)
      · exact Or.inl (Or.inl h)
      · exact Or.inl (Or.inr ⟨u, hu, hkey⟩)
      · exact Or.inr ⟨b', hb', u, hu, hkey⟩

/-- With a reliable provider, `batchGetEmbeddings` resolves every requested
key. -/
lemma batchGet_covers (getE : List String → Option (List (List ℚ)))
    (hgetE : ∀ ts, ∃ es, getE ts = some es ∧ es.length = ts.length)
    (sc : String → String) (w : World) (U : List SystemProcess) :
    ∀ u ∈ U, mapHas (batchGetEmbeddings getE sc w U).1 (getKey u) = true := by
  intro u hu
  have hrel : ∀ b ∈ chunksOf 50 ((firstPass sc U [] w).2.2),
      ∃ es, getE (b.map (fun x => x.text)) = some es ∧ es.length = b.length := by
    intro b hb
    obtain ⟨es, hsome, hlen⟩ := hgetE (b.map (fun x => x.text))
    exact ⟨es, hsome, by rw [hlen, List.length_map]⟩
  rw [batchGetEmbeddings_eq]
  rcases firstPass_covers sc U [] w u hu with h | ⟨it, hit, hk⟩
  · split_ifs with he
    · exact h
    · rw [fetchBatches_keys_total getE _ _ _ [] hrel]
      exact Or.inl h
  · split_ifs with he
    · exact absurd hit (by rw [List.isEmpty_iff.mp he]; exact List.not_mem_nil it)
    · rw [fetchBatches_keys_total getE _ _ _ [] hrel]
      refine Or.inr ?_
      have hmem : it ∈ (chunksOf 50 ((firstPass sc U [] w).2.2)).flatten := by
        rw [chunksOf_flatten 50 (by decide)]
        exact hit
      obtain ⟨b, hb, hitb⟩ := List.mem_flatten.mp hmem
      exact ⟨b, hb, it, hitb, hk⟩

/-- Every resolved key of the first run is vector-backed in the returned
world, with the resolved embedding. -/
lemma run1_get (getE : List String → Option (List (List ℚ)))
    (hgetE : ∀ ts, ∃ es, getE ts = some es ∧ es.length = ts.length)
    (sc : String → String) (w : World) (U : List SystemProcess)
    (u : SystemProcess) (hu : u ∈ U) :
    ∃ pv : ProcessVector,
      mapGet ((batchGetEmbeddings getE sc w U).2.1).vectors (getKey u) = some pv ∧
      mapGet (batchGetEmbeddings getE sc w U).1 (getKey u) = some pv.embedding := by
  have hhas := batchGet_covers getE hgetE sc w U u hu
  rw [mapHas] at hhas
  obtain ⟨v, hv⟩ := Option.isSome_iff_exists.mp hhas
  obtain ⟨pv, hpv, hemb⟩ := batchGet_backed getE sc w U _ v hv
  exact ⟨pv, hpv, by rw [hv, hemb]⟩

/-- The result map never disagrees with the vectors it was read from. -/
def AgreesVec (r : JsMap String (List ℚ)) (vs : JsMap String ProcessVector) : Prop :=
  ∀ k v, mapGet r k = some v → ∀ pv, mapGet vs k = some pv → v = pv.embedding

/-- When every key is already in memory, the first pass resolves everything
from `vectors`, touches nothing, and queues nothing. -/
lemma firstPass_allhits (sc : String → String) :
    ∀ (U : List SystemProcess) (r : JsMap String (List ℚ)) (w : World),
      (∀ u ∈ U, ∃ pv, mapGet w.vectors (getKey u) = some pv) →
      AgreesVec r w.vectors →
      (firstPass sc U r w).2.1 = w ∧ (firstPass sc U r w).2.2 = [] ∧
      AgreesVec (firstPass sc U r w).1 w.vectors ∧
      ∀ u ∈ U, mapHas (firstPass sc U r w).1 (getKey u) = true := by
  intro U
  induction U with
  | nil =>
    intro r w hall hA
    exact ⟨rfl, rfl, hA, fun u hu => absurd hu (List.not_mem_nil u)⟩
  | cons p U ih =>
    intro r w hall hA
    obtain ⟨pv, hpv⟩ := hall p (List.mem_cons_self p U)
    rw [firstPass]
    dsimp only
    rw [hpv]
    have hA' : AgreesVec (mapSet r (getKey p) pv.embedding) w.vectors := by
      intro k v hkv pv' hpv'
      rw [mapGet_mapSet] at hkv
      split_ifs at hkv with h
      · cases hkv
        subst h
        rw [hpv] at hpv'
        cases hpv'
        rfl
      · exact hA k v hkv pv' hpv'
    obtain ⟨hw, hu0, hAout, hhas⟩ :=
      ih _ w (fun u hu => hall u (List.mem_cons_of_mem p hu)) hA'
    refine ⟨hw, hu0, hAout, ?_⟩
    intro u hu
    rcases List.mem_cons.mp hu with rfl | hu'
    · exact firstPass_has_mono sc U _ w (getKey u)
        (by simp [mapHas_mapSet])
    · exact hhas u hu'

/-- With every key in memory, `batchGetEmbeddings` resolves each key to the
stored vector's embedding. -/
lemma run2_get (getE : List String → Option (List (List ℚ)))
    (sc : String → String) (U : List SystemProcess) (w' : World)
    (hall : ∀ u ∈ U, ∃ pv, mapGet w'.vectors (getKey u) = some pv) :
    ∀ u ∈ U, ∀ pv, mapGet w'.vectors (getKey u) = some pv →
      mapGet (batchGetEmbeddings getE sc w' U).1 (getKey u) = some pv.embedding := by
  obtain ⟨hw, hu0, hA, hhas⟩ :=
    firstPass_allhits sc U [] w' hall
      (fun k v hkv => absurd hkv (by simp [mapGet]))
  rw [batchGetEmbeddings_eq, if_pos (by rw [hu0]; rfl)]
  dsimp only
  intro u hu pv hpv
  have h := hhas u hu
  rw [mapHas] at h
  obtain ⟨v, hv⟩ := Option.isSome_iff_exists.mp h
  rw [hv, hA _ v hv pv hpv]

/-- **Stability**: rerunning the batched lookup on the world the first run
returned resolves every requested key to the same embedding. -/
lemma batchGet_stable (getE : List String → Option (List (List ℚ)))
    (hgetE : ∀ ts, ∃ es, getE ts = some es ∧ es.length = ts.length)
    (sc : String → String) (w : World) (U : List SystemProcess) :
    ∀ u ∈ U,
      mapGet (batchGetEmbeddings getE sc
        ((batchGetEmbeddings getE sc w U).2.1) U).1 (getKey u) =
      mapGet (batchGetEmbeddings getE sc w U).1 (getKey u) := by
  intro u hu
  obtain ⟨pv, hpv, hr1⟩ := run1_get getE hgetE sc w U u hu
  have hall : ∀ u' ∈ U, ∃ pv',
      mapGet ((batchGetEmbeddings getE sc w U).2.1).vectors (getKey u') = some pv' :=
    fun u' hu' => (run1_get getE hgetE sc w U u' hu').imp (fun pv' h => h.1)
  rw [run2_get getE sc U _ hall u hu pv hpv, hr1]

/-! ## Claim C5: rerun stability and its failure mode -/

/-- `buildItems` reads the embeddings map only at the groups' keys. -/
lemma buildItems_congr (em1 em2 : JsMap String (List ℚ))
    (b : JsMap String (List SystemProcess))
    (h : ∀ e ∈ b, mapGet em1
        (strTake (e.2.headI.name ++ "::" ++ e.2.headI.command) 500) =
      mapGet em2 (strTake (e.2.headI.name ++ "::" ++ e.2.headI.command) 500)) :
    buildItems em1 b = buildItems em2 b := by
  unfold buildItems
  induction b with
  | nil => rfl
  | cons e b ih =>
    rw [List.filterMap_cons, List.filterMap_cons]
    dsimp only
    rw [h e (List.mem_cons_self e b)]
    cases mapGet em2 (strTake (e.2.headI.name ++ "::" ++ e.2.headI.command) 500) with
    | none => exact ih (fun e' he' => h e' (List.mem_cons_of_mem e he'))
    | some v => rw [ih (fun e' he' => h e' (List.mem_cons_of_mem e he'))]

/-- The non-root pid lists of a full recluster are those of its
agglomerative pass (naming, stats and re-parenting keep every pid list). -/
lemma fullRecluster_children_pids (ids : Nat → String)
    (getE : List String → Option (List (List ℚ))) (sc : String → String)
    (now : Nat) (w : World) (ps : List SystemProcess) :
    ((fullRecluster ids getE sc now w ps).1.root).children.map (fun c => c.processIds) =
      (agglomerativeClusterWithPids ids
        (buildItems (batchGetEmbeddings getE sc w
            ((groupByName (ps.filter isActive)).map (fun e => e.2.headI))).1
          (groupByName (ps.filter isActive)))).map (fun c => c.processIds) := by
  unfold fullRecluster
  dsimp only
  split_ifs with hempty
  · rw [List.isEmpty_iff.mp hempty]
    rfl
  · rw [buildClusterTree_children]
    unfold generateClusterNames
    rw [List.map_map, List.map_map, List.map_map]
    congr 1
    funext c
    dsimp only [Function.comp]
    rw [setParentDepthRoot_processIds, updateClusterStats_processIds,
      nameCluster_processIds]

/-- The world a full recluster returns. -/
lemma fullRecluster_snd (ids : Nat → String)
    (getE : List String → Option (List (List ℚ))) (sc : String → String)
    (now : Nat) (w : World) (ps : List SystemProcess) :
    (fullRecluster ids getE sc now w ps).2 =
      if (ps.filter isActive).isEmpty then w
      else (batchGetEmbeddings getE sc w
        ((groupByName (ps.filter isActive)).map (fun e => e.2.headI))).2.1 := by
  unfold fullRecluster
  dsimp only
  split_ifs <;> rfl

/-- **Claim C5 (amended).**  With a provider that answers every batch
(one embedding per text), running `fullRecluster` twice in succession —
the second run on the world the first returned — yields identical
children pid lists, whatever id supplies and clock values the runs draw:
ids may differ, membership may not.  Without that hypothesis the claim
fails: a failed batch can be retried with a different composition in the
second run and then succeed, adding pids (see the counterexample). -/
theorem c5_amended (ids ids' : Nat → String)
    (getE : List String → Option (List (List ℚ))) (sc : String → String)
    (now now' : Nat) (w : World) (ps : List SystemProcess)
    (hgetE : ∀ ts, ∃ es, getE ts = some es ∧ es.length = ts.length) :
    ((fullRecluster ids' getE sc now'
        (fullRecluster ids getE sc now w ps).2 ps).1.root).children.map
      (fun c => c.processIds) =
    ((fullRecluster ids getE sc now w ps).1.root).children.map
      (fun c => c.processIds) := by
  rw [fullRecluster_children_pids, fullRecluster_children_pids,
    fullRecluster_snd]
  split_ifs with hempty
  · exact agglo_processIds_erase ids' ids _
  · have hstable := batchGet_stable getE hgetE sc w
      ((groupByName (ps.filter isActive)).map (fun e => e.2.headI))
    have hitems : buildItems (batchGetEmbeddings getE sc
        ((batchGetEmbeddings getE sc w
          ((groupByName (ps.filter isActive)).map (fun e => e.2.headI))).2.1)
        ((groupByName (ps.filter isActive)).map (fun e => e.2.headI))).1
          (groupByName (ps.filter isActive)) =
        buildItems (batchGetEmbeddings getE sc w
          ((groupByName (ps.filter isActive)).map (fun e => e.2.headI))).1
          (groupByName (ps.filter isActive)) :=
      buildItems_congr _ _ _
        (fun e he => hstable e.2.headI (List.mem_map_of_mem _ he))
    rw [hitems]
    exact agglo_processIds_erase ids' ids _

/-- The id supply of the second counterexample run. -/
def c5ids : Nat → String := fun n => "d" ++ toString n

/-- 52 active processes: the names `n1`…`n50` and `p` are ordinary, but
`n1` (command `::c`) and `n1:` (command `:c`) share the embedding key
`n1::::c` even though their names and texts differ. -/
def c5ps : List SystemProcess :=
  [⟨1, "n1", "::c", 1, 0, 0, 0⟩,
   ⟨2, "n2", "c", 1, 0, 0, 0⟩,
   ⟨3, "n3", "c", 1, 0, 0, 0⟩,
   ⟨4, "n4", "c", 1, 0, 0, 0⟩,
   ⟨5, "n5", "c", 1, 0, 0, 0⟩,
   ⟨6, "n6", "c", 1, 0, 0, 0⟩,
   ⟨7, "n7", "c", 1, 0, 0, 0⟩,
   ⟨8, "n8", "c", 1, 0, 0, 0⟩,
   ⟨9, "n9", "c", 1, 0, 0, 0⟩,
   ⟨10, "n10", "c", 1, 0, 0, 0⟩,
   ⟨11, "n11", "c", 1, 0, 0, 0⟩,
   ⟨12, "n12", "c", 1, 0, 0, 0⟩,
   ⟨13, "n13", "c", 1, 0, 0, 0⟩,
   ⟨14, "n14", "c", 1, 0, 0, 0⟩,
   ⟨15, "n15", "c", 1, 0, 0, 0⟩,
   ⟨16, "n16", "c", 1, 0, 0, 0⟩,
   ⟨17, "n17", "c", 1, 0, 0, 0⟩,
   ⟨18, "n18", "c", 1, 0, 0, 0⟩,
   ⟨19, "n19", "c", 1, 0, 0, 0⟩,
   ⟨20, "n20", "c", 1, 0, 0, 0⟩,
   ⟨21, "n21", "c", 1, 0, 0, 0⟩,
   ⟨22, "n22", "c", 1, 0, 0, 0⟩,
   ⟨23, "n23", "c", 1, 0, 0, 0⟩,
   ⟨24, "n24", "c", 1, 0, 0, 0⟩,
   ⟨25, "n25", "c", 1, 0, 0, 0⟩,
   ⟨26, "n26", "c", 1, 0, 0, 0⟩,
   ⟨27, "n27", "c", 1, 0, 0, 0⟩,
   ⟨28, "n28", "c", 1, 0, 0, 0⟩,
   ⟨29, "n29", "c", 1, 0, 0, 0⟩,
   ⟨30, "n30", "c", 1, 0, 0, 0⟩,
   ⟨31, "n31", "c", 1, 0, 0, 0⟩,
   ⟨32, "n32", "c", 1, 0, 0, 0⟩,
   ⟨33, "n33", "c", 1, 0, 0, 0⟩,
   ⟨34, "n34", "c", 1, 0, 0, 0⟩,
   ⟨35, "n35", "c", 1, 0, 0, 0⟩,
   ⟨36, "n36", "c", 1, 0, 0, 0⟩,
   ⟨37, "n37", "c", 1, 0, 0, 0⟩,
   ⟨38, "n38", "c", 1, 0, 0, 0⟩,
   ⟨39, "n39", "c", 1, 0, 0, 0⟩,
   ⟨40, "n40", "c", 1, 0, 0, 0⟩,
   ⟨41, "n41", "c", 1, 0, 0, 0⟩,
   ⟨42, "n42", "c", 1, 0, 0, 0⟩,
   ⟨43, "n43", "c", 1, 0, 0, 0⟩,
   ⟨44, "n44", "c", 1, 0, 0, 0⟩,
   ⟨45, "n45", "c", 1, 0, 0, 0⟩,
   ⟨46, "n46", "c", 1, 0, 0, 0⟩,
   ⟨47, "n47", "c", 1, 0, 0, 0⟩,
   ⟨48, "n48", "c", 1, 0, 0, 0⟩,
   ⟨49, "n49", "c", 1, 0, 0, 0⟩,
   ⟨50, "n50", "c", 1, 0, 0, 0⟩,
   ⟨51, "p", "c", 1, 0, 0, 0⟩,
   ⟨52, "n1:", ":c", 1, 0, 0, 0⟩]

/-- A provider that fails any batch containing the text of the 52nd
process and otherwise returns a single embedding (so only the first item
of each successful batch is stored: `for j < embeddings.length`). -/
def c5getE : List String → Option (List (List ℚ)) :=
  fun ts => if ts.contains "n1:: :c" then none else some [[1, 0]]

/-- **Claim C5, counterexample.**  First run: batch 1 (groups 1-50)
stores only key `n1::::c`; batch 2 (groups 51-52) contains the poisoned
text and fails, so only groups 1 and 52 (which share that key) are
clustered: pids `[1, 52]`.  The second run, on the returned world, finds
the shared key cached, retries with a batch that no longer contains the
poisoned text, succeeds, and additionally clusters group 2: pids
`[52, 1, 2]`.  The pid partitions of the two runs differ. -/
theorem c5_counterexample :
    ((fullRecluster c4ids c5getE id 0 ⟨[], []⟩ c5ps).1.root).children.map
      (fun c => c.processIds) = [[1, 52]] ∧
    ((fullRecluster c5ids c5getE id 1
        (fullRecluster c4ids c5getE id 0 ⟨[], []⟩ c5ps).2 c5ps).1.root).children.map
      (fun c => c.processIds) = [[52, 1, 2]] := by
  constructor <;> with_unfolding_all decide

/-- Witness for `c5_amended` at the two-process `c2ps` input with the
always-answering provider `c2getE`. -/
theorem c5_amended_witness :
    (∀ ts, ∃ es, c2getE ts = some es ∧ es.length = ts.length) ∧
    ((fullRecluster c5ids c2getE id 1
        (fullRecluster c4ids c2getE id 0 ⟨[], []⟩ c2ps).2 c2ps).1.root).children.map
      (fun c => c.processIds) =
    ((fullRecluster c4ids c2getE id 0 ⟨[], []⟩ c2ps).1.root).children.map
      (fun c => c.processIds) :=
  ⟨fun ts => ⟨ts.map (fun _ => [1]), rfl, by simp⟩,
   c5_amended c4ids c5ids c2getE id 0 1 ⟨[], []⟩ c2ps
     (fun ts => ⟨ts.map (fun _ => [1]), rfl, by simp⟩)⟩
/-! ### The 27-group counterexample trace for claim C4.
26 text groups share the embedding `[1, 0]` and one has `[4/5, 3/5]`
(cosine similarity exactly `0.8` to the rest).  The merge loop greedily
pairs up the identical groups until the two surviving `[1, 0]` clusters
hold 10 and 16 groups; their own similarity is `1` but their combined
size is `26 > 25`, so the loop stops while the pair (singleton, 10-group
cluster) is still mergeable.  Each `c4s(i+1)` is one `mergeStep` from
`c4s(i)`; the scans are evaluated in chunks of 30 pairs. -/

/-- State 0 of the claim C4 merge-loop trace. -/
def c4s0 : List MCluster :=
  [⟨"c0", [0], [[1, 0]], [1, 0]⟩,
   ⟨"c1", [1], [[1, 0]], [1, 0]⟩,
   ⟨"c2", [2], [[1, 0]], [1, 0]⟩,
   ⟨"c3", [3], [[1, 0]], [1, 0]⟩,
   ⟨"c4", [4], [[1, 0]], [1, 0]⟩,
   ⟨"c5", [5], [[1, 0]], [1, 0]⟩,
   ⟨"c6", [6], [[1, 0]], [1, 0]⟩,
   ⟨"c7", [7], [[1, 0]], [1, 0]⟩,
   ⟨"c8", [8], [[1, 0]], [1, 0]⟩,
   ⟨"c9", [9], [[1, 0]], [1, 0]⟩,
   ⟨"c10", [10], [[1, 0]], [1, 0]⟩,
   ⟨"c11", [11], [[1, 0]], [1, 0]⟩,
   ⟨"c12", [12], [[1, 0]], [1, 0]⟩,
   ⟨"c13", [13], [[1, 0]], [1, 0]⟩,
   ⟨"c14", [14], [[1, 0]], [1, 0]⟩,
   ⟨"c15", [15], [[1, 0]], [1, 0]⟩,
   ⟨"c16", [16], [[1, 0]], [1, 0]⟩,
   ⟨"c17", [17], [[1, 0]], [1, 0]⟩,
   ⟨"c18", [18], [[1, 0]], [1, 0]⟩,
   ⟨"c19", [19], [[1, 0]], [1, 0]⟩,
   ⟨"c20", [20], [[1, 0]], [1, 0]⟩,
   ⟨"c21", [21], [[1, 0]], [1, 0]⟩,
   ⟨"c22", [22], [[1, 0]], [1, 0]⟩,
   ⟨"c23", [23], [[1, 0]], [1, 0]⟩,
   ⟨"c24", [24], [[1, 0]], [1, 0]⟩,
   ⟨"c25", [25], [[1, 0]], [1, 0]⟩,
   ⟨"c26", [26], [[4 / 5, 3 / 5]], [4 / 5, 3 / 5]⟩]

/-- State 1 of the claim C4 merge-loop trace. -/
def c4s1 : List MCluster :=
  [⟨"c2", [2], [[1, 0]], [1, 0]⟩,
   ⟨"c3", [3], [[1, 0]], [1, 0]⟩,
   ⟨"c4", [4], [[1, 0]], [1, 0]⟩,
   ⟨"c5", [5], [[1, 0]], [1, 0]⟩,
   ⟨"c6", [6], [[1, 0]], [1, 0]⟩,
   ⟨"c7", [7], [[1, 0]], [1, 0]⟩,
   ⟨"c8", [8], [[1, 0]], [1, 0]⟩,
   ⟨"c9", [9], [[1, 0]], [1, 0]⟩,
   ⟨"c10", [10], [[1, 0]], [1, 0]⟩,
   ⟨"c11", [11], [[1, 0]], [1, 0]⟩,
   ⟨"c12", [12], [[1, 0]], [1, 0]⟩,
   ⟨"c13", [13], [[1, 0]], [1, 0]⟩,
   ⟨"c14", [14], [[1, 0]], [1, 0]⟩,
   ⟨"c15", [15], [[1, 0]], [1, 0]⟩,
   ⟨"c16", [16], [[1, 0]], [1, 0]⟩,
   ⟨"c17", [17], [[1, 0]], [1, 0]⟩,
   ⟨"c18", [18], [[1, 0]], [1, 0]⟩,
   ⟨"c19", [19], [[1, 0]], [1, 0]⟩,
   ⟨"c20", [20], [[1, 0]], [1, 0]⟩,
   ⟨"c21", [21], [[1, 0]], [1, 0]⟩,
   ⟨"c22", [22], [[1, 0]], [1, 0]⟩,
   ⟨"c23", [23], [[1, 0]], [1, 0]⟩,
   ⟨"c24", [24], [[1, 0]], [1, 0]⟩,
   ⟨"c25", [25], [[1, 0]], [1, 0]⟩,
   ⟨"c26", [26], [[4 / 5, 3 / 5]], [4 / 5, 3 / 5]⟩,
   ⟨"c27", [0, 1], [[1, 0], [1, 0]], [1, 0]⟩]

/-- State 2 of the claim C4 merge-loop trace. -/
def c4s2 : List MCluster :=
  [⟨"c4", [4], [[1, 0]], [1, 0]⟩,
   ⟨"c5", [5], [[1, 0]], [1, 0]⟩,
   ⟨"c6", [6], [[1, 0]], [1, 0]⟩,
   ⟨"c7", [7], [[1, 0]], [1, 0]⟩,
   ⟨"c8", [8], [[1, 0]], [1, 0]⟩,
   ⟨"c9", [9], [[1, 0]], [1, 0]⟩,
   ⟨"c10", [10], [[1, 0]], [1, 0]⟩,
   ⟨"c11", [11], [[1, 0]], [1, 0]⟩,
   ⟨"c12", [12], [[1, 0]], [1, 0]⟩,
   ⟨"c13", [13], [[1, 0]], [1, 0]⟩,
   ⟨"c14", [14], [[1, 0]], [1, 0]⟩,
   ⟨"c15", [15], [[1, 0]], [1, 0]⟩,
   ⟨"c16", [16], [[1, 0]], [1, 0]⟩,
   ⟨"c17", [17], [[1, 0]], [1, 0]⟩,
   ⟨"c18", [18], [[1, 0]], [1, 0]⟩,
   ⟨"c19", [19], [[1, 0]], [1, 0]⟩,
   ⟨"c20", [20], [[1, 0]], [1, 0]⟩,
   ⟨"c21", [21], [[1, 0]], [1, 0]⟩,
   ⟨"c22", [22], [[1, 0]], [1, 0]⟩,
   ⟨"c23", [23], [[1, 0]], [1, 0]⟩,
   ⟨"c24", [24], [[1, 0]], [1, 0]⟩,
   ⟨"c25", [25], [[1, 0]], [1, 0]⟩,
   ⟨"c26", [26], [[4 / 5, 3 / 5]], [4 / 5, 3 / 5]⟩,
   ⟨"c27", [0, 1], [[1, 0], [1, 0]], [1, 0]⟩,
   ⟨"c28", [2, 3], [[1, 0], [1, 0]], [1, 0]⟩]

/-- State 3 of the claim C4 merge-loop trace. -/
def c4s3 : List MCluster :=
  [⟨"c6", [6], [[1, 0]], [1, 0]⟩,
   ⟨"c7", [7], [[1, 0]], [1, 0]⟩,
   ⟨"c8", [8], [[1, 0]], [1, 0]⟩,
   ⟨"c9", [9], [[1, 0]], [1, 0]⟩,
   ⟨"c10", [10], [[1, 0]], [1, 0]⟩,
   ⟨"c11", [11], [[1, 0]], [1, 0]⟩,
   ⟨"c12", [12], [[1, 0]], [1, 0]⟩,
   ⟨"c13", [13], [[1, 0]], [1, 0]⟩,
   ⟨"c14", [14], [[1, 0]], [1, 0]⟩,
   ⟨"c15", [15], [[1, 0]], [1, 0]⟩,
   ⟨"c16", [16], [[1, 0]], [1, 0]⟩,
   ⟨"c17", [17], [[1, 0]], [1, 0]⟩,
   ⟨"c18", [18], [[1, 0]], [1, 0]⟩,
   ⟨"c19", [19], [[1, 0]], [1, 0]⟩,
   ⟨"c20", [20], [[1, 0]], [1, 0]⟩,
   ⟨"c21", [21], [[1, 0]], [1, 0]⟩,
   ⟨"c22", [22], [[1, 0]], [1, 0]⟩,
   ⟨"c23", [23], [[1, 0]], [1, 0]⟩,
   ⟨"c24", [24], [[1, 0]], [1, 0]⟩,
   ⟨"c25", [25], [[1, 0]], [1, 0]⟩,
   ⟨"c26", [26], [[4 / 5, 3 / 5]], [4 / 5, 3 / 5]⟩,
   ⟨"c27", [0, 1], [[1, 0], [1, 0]], [1, 0]⟩,
   ⟨"c28", [2, 3], [[1, 0], [1, 0]], [1, 0]⟩,
   ⟨"c29", [4, 5], [[1, 0], [1, 0]], [1, 0]⟩]

/-- State 4 of the claim C4 merge-loop trace. -/
def c4s4 : List MCluster :=
  [⟨"c8", [8], [[1, 0]], [1, 0]⟩,
   ⟨"c9", [9], [[1, 0]], [1, 0]⟩,
   ⟨"c10", [10], [[1, 0]], [1, 0]⟩,
   ⟨"c11", [11], [[1, 0]], [1, 0]⟩,
   ⟨"c12", [12], [[1, 0]], [1, 0]⟩,
   ⟨"c13", [13], [[1, 0]], [1, 0]⟩,
   ⟨"c14", [14], [[1, 0]], [1, 0]⟩,
   ⟨"c15", [15], [[1, 0]], [1, 0]⟩,
   ⟨"c16", [16], [[1, 0]], [1, 0]⟩,
   ⟨"c17", [17], [[1, 0]], [1, 0]⟩,
   ⟨"c18", [18], [[1, 0]], [1, 0]⟩,
   ⟨"c19", [19], [[1, 0]], [1, 0]⟩,
   ⟨"c20", [20], [[1, 0]], [1, 0]⟩,
   ⟨"c21", [21], [[1, 0]], [1, 0]⟩,
   ⟨"c22", [22], [[1, 0]], [1, 0]⟩,
   ⟨"c23", [23], [[1, 0]], [1, 0]⟩,
   ⟨"c24", [24], [[1, 0]], [1, 0]⟩,
   ⟨"c25", [25], [[1, 0]], [1, 0]⟩,
   ⟨"c26", [26], [[4 / 5, 3 / 5]], [4 / 5, 3 / 5]⟩,
   ⟨"c27", [0, 1], [[1, 0], [1, 0]], [1, 0]⟩,
   ⟨"c28", [2, 3], [[1, 0], [1, 0]], [1, 0]⟩,
   ⟨"c29", [4, 5], [[1, 0], [1, 0]], [1, 0]⟩,
   ⟨"c30", [6, 7], [[1, 0], [1, 0]], [1, 0]⟩]

/-- State 5 of the claim C4 merge-loop trace. -/
def c4s5 : List MCluster :=
  [⟨"c10", [10], [[1, 0]], [1, 0]⟩,
   ⟨"c11", [11], [[1, 0]], [1, 0]⟩,
   ⟨"c12", [12], [[1, 0]], [1, 0]⟩,
   ⟨"c13", [13], [[1, 0]], [1, 0]⟩,
   ⟨"c14", [14], [[1, 0]], [1, 0]⟩,
   ⟨"c15", [15], [[1, 0]], [1, 0]⟩,
   ⟨"c16", [16], [[1, 0]], [1, 0]⟩,
   ⟨"c17", [17], [[1, 0]], [1, 0]⟩,
   ⟨"c18", [18], [[1, 0]], [1, 0]⟩,
   ⟨"c19", [19], [[1, 0]], [1, 0]⟩,
   ⟨"c20", [20], [[1, 0]], [1, 0]⟩,
   ⟨"c21", [21], [[1, 0]], [1, 0]⟩,
   ⟨"c22", [22], [[1, 0]], [1, 0]⟩,
   ⟨"c23", [23], [[1, 0]], [1, 0]⟩,
   ⟨"c24", [24], [[1, 0]], [1, 0]⟩,
   ⟨"c25", [25], [[1, 0]], [1, 0]⟩,
   ⟨"c26", [26], [[4 / 5, 3 / 5]], [4 / 5, 3 / 5]⟩,
   ⟨"c27", [0, 1], [[1, 0], [1, 0]], [1, 0]⟩,
   ⟨"c28", [2, 3], [[1, 0], [1, 0]], [1, 0]⟩,
   ⟨"c29", [4, 5], [[1, 0], [1, 0]], [1, 0]⟩,
   ⟨"c30", [6, 7], [[1, 0], [1, 0]], [1, 0]⟩,
   ⟨"c31", [8, 9], [[1, 0], [1, 0]], [1, 0]⟩]

/-- State 6 of the claim C4 merge-loop trace. -/
def c4s6 : List MCluster :=
  [⟨"c12", [12], [[1, 0]], [1, 0]⟩,
   ⟨"c13", [13], [[1, 0]], [1, 0]⟩,
   ⟨"c14", [14], [[1, 0]], [1, 0]⟩,
   ⟨"c15", [15], [[1, 0]], [1, 0]⟩,
   ⟨"c16", [16], [[1, 0]], [1, 0]⟩,
   ⟨"c17", [17], [[1, 0]], [1, 0]⟩,
   ⟨"c18", [18], [[1, 0]], [1, 0]⟩,
   ⟨"c19", [19], [[1, 0]], [1, 0]⟩,
   ⟨"c20", [20], [[1, 0]], [1, 0]⟩,
   ⟨"c21", [21], [[1, 0]], [1, 0]⟩,
   ⟨"c22", [22], [[1, 0]], [1, 0]⟩,
   ⟨"c23", [23], [[1, 0]], [1, 0]⟩,
   ⟨"c24", [24], [[1, 0]], [1, 0]⟩,
   ⟨"c25", [25], [[1, 0]], [1, 0]⟩,
   ⟨"c26", [26], [[4 / 5, 3 / 5]], [4 / 5, 3 / 5]⟩,
   ⟨"c27", [0, 1], [[1, 0], [1, 0]], [1, 0]⟩,
   ⟨"c28", [2, 3], [[1, 0], [1, 0]], [1, 0]⟩,
   ⟨"c29", [4, 5], [[1, 0], [1, 0]], [1, 0]⟩,
   ⟨"c30", [6, 7], [[1, 0], [1, 0]], [1, 0]⟩,
   ⟨"c31", [8, 9], [[1, 0], [1, 0]], [1, 0]⟩,
   ⟨"c32", [10, 11], [[1, 0], [1, 0]], [1, 0]⟩]

/-- State 7 of the claim C4 merge-loop trace. -/
def c4s7 : List MCluster :=
  [⟨"c14", [14], [[1, 0]], [1, 0]⟩,
   ⟨"c15", [15], [[1, 0]], [1, 0]⟩,
   ⟨"c16", [16], [[1, 0]], [1, 0]⟩,
   ⟨"c17", [17], [[1, 0]], [1, 0]⟩,
   ⟨"c18", [18], [[1, 0]], [1, 0]⟩,
   ⟨"c19", [19], [[1, 0]], [1, 0]⟩,
   ⟨"c20", [20], [[1, 0]], [1, 0]⟩,
   ⟨"c21", [21], [[1, 0]], [1, 0]⟩,
   ⟨"c22", [22], [[1, 0]], [1, 0]⟩,
   ⟨"c23", [23], [[1, 0]], [1, 0]⟩,
   ⟨"c24", [24], [[1, 0]], [1, 0]⟩,
   ⟨"c25", [25], [[1, 0]], [1, 0]⟩,
   ⟨"c26", [26], [[4 / 5, 3 / 5]], [4 / 5, 3 / 5]⟩,
   ⟨"c27", [0, 1], [[1, 0], [1, 0]], [1, 0]⟩,
   ⟨"c28", [2, 3], [[1, 0], [1, 0]], [1, 0]⟩,
   ⟨"c29", [4, 5], [[1, 0], [1, 0]], [1, 0]⟩,
   ⟨"c30", [6, 7], [[1, 0], [1, 0]], [1, 0]⟩,
   ⟨"c31", [8, 9], [[1, 0], [1, 0]], [1, 0]⟩,
   ⟨"c32", [10, 11], [[1, 0], [1, 0]], [1, 0]⟩,
   ⟨"c33", [12, 13], [[1, 0], [1, 0]], [1, 0]⟩]

/-- State 8 of the claim C4 merge-loop trace. -/
def c4s8 : List MCluster :=
  [⟨"c16", [16], [[1, 0]], [1, 0]⟩,
   ⟨"c17", [17], [[1, 0]], [1, 0]⟩,
   ⟨"c18", [18], [[1, 0]], [1, 0]⟩,
   ⟨"c19", [19], [[1, 0]], [1, 0]⟩,
   ⟨"c20", [20], [[1, 0]], [1, 0]⟩,
   ⟨"c21", [21], [[1, 0]], [1, 0]⟩,
   ⟨"c22", [22], [[1, 0]], [1, 0]⟩,
   ⟨"c23", [23], [[1, 0]], [1, 0]⟩,
   ⟨"c24", [24], [[1, 0]], [1, 0]⟩,
   ⟨"c25", [25], [[1, 0]], [1, 0]⟩,
   ⟨"c26", [26], [[4 / 5, 3 / 5]], [4 / 5, 3 / 5]⟩,
   ⟨"c27", [0, 1], [[1, 0], [1, 0]], [1, 0]⟩,
   ⟨"c28", [2, 3], [[1, 0], [1, 0]], [1, 0]⟩,
   ⟨"c29", [4, 5], [[1, 0], [1, 0]], [1, 0]⟩,
   ⟨"c30", [6, 7], [[1, 0], [1, 0]], [1, 0]⟩,
   ⟨"c31", [8, 9], [[1, 0], [1, 0]], [1, 0]⟩,
   ⟨"c32", [10, 11], [[1, 0], [1, 0]], [1, 0]⟩,
   ⟨"c33", [12, 13], [[1, 0], [1, 0]], [1, 0]⟩,
   ⟨"c34", [14, 15], [[1, 0], [1, 0]], [1, 0]⟩]

/-- State 9 of the claim C4 merge-loop trace. -/
def c4s9 : List MCluster :=
  [⟨"c18", [18], [[1, 0]], [1, 0]⟩,
   ⟨"c19", [19], [[1, 0]], [1, 0]⟩,
   ⟨"c20", [20], [[1, 0]], [1, 0]⟩,
   ⟨"c21", [21], [[1, 0]], [1, 0]⟩,
   ⟨"c22", [22], [[1, 0]], [1, 0]⟩,
   ⟨"c23", [23], [[1, 0]], [1, 0]⟩,
   ⟨"c24", [24], [[1, 0]], [1, 0]⟩,
   ⟨"c25", [25], [[1, 0]], [1, 0]⟩,
   ⟨"c26", [26], [[4 / 5, 3 / 5]], [4 / 5, 3 / 5]⟩,
   ⟨"c27", [0, 1], [[1, 0], [1, 0]], [1, 0]⟩,
   ⟨"c28", [2, 3], [[1, 0], [1, 0]], [1, 0]⟩,
   ⟨"c29", [4, 5], [[1, 0], [1, 0]], [1, 0]⟩,
   ⟨"c30", [6, 7], [[1, 0], [1, 0]], [1, 0]⟩,
   ⟨"c31", [8, 9], [[1, 0], [1, 0]], [1, 0]⟩,
   ⟨"c32", [10, 11], [[1, 0], [1, 0]], [1, 0]⟩,
   ⟨"c33", [12, 13], [[1, 0], [1, 0]], [1, 0]⟩,
   ⟨"c34", [14, 15], [[1, 0], [1, 0]], [1, 0]⟩,
   ⟨"c35", [16, 17], [[1, 0], [1, 0]], [1, 0]⟩]

/-- State 10 of the claim C4 merge-loop trace. -/
def c4s10 : List MCluster :=
  [⟨"c20", [20], [[1, 0]], [1, 0]⟩,
   ⟨"c21", [21], [[1, 0]], [1, 0]⟩,
   ⟨"c22", [22], [[1, 0]], [1, 0]⟩,
   ⟨"c23", [23], [[1, 0]], [1, 0]⟩,
   ⟨"c24", [24], [[1, 0]], [1, 0]⟩,
   ⟨"c25", [25], [[1, 0]], [1, 0]⟩,
   ⟨"c26", [26], [[4 / 5, 3 / 5]], [4 / 5, 3 / 5]⟩,
   ⟨"c27", [0, 1], [[1, 0], [1, 0]], [1, 0]⟩,
   ⟨"c28", [2, 3], [[1, 0], [1, 0]], [1, 0]⟩,
   ⟨"c29", [4, 5], [[1, 0], [1, 0]], [1, 0]⟩,
   ⟨"c30", [6, 7], [[1, 0], [1, 0]], [1, 0]⟩,
   ⟨"c31", [8, 9], [[1, 0], [1, 0]], [1, 0]⟩,
   ⟨"c32", [10, 11], [[1, 0], [1, 0]], [1, 0]⟩,
   ⟨"c33", [12, 13], [[1, 0], [1, 0]], [1, 0]⟩,
   ⟨"c34", [14, 15], [[1, 0], [1, 0]], [1, 0]⟩,
   ⟨"c35", [16, 17], [[1, 0], [1, 0]], [1, 0]⟩,
   ⟨"c36", [18, 19], [[1, 0], [1, 0]], [1, 0]⟩]

/-- State 11 of the claim C4 merge-loop trace. -/
def c4s11 : List MCluster :=
  [⟨"c22", [22], [[1, 0]], [1, 0]⟩,
   ⟨"c23", [23], [[1, 0]], [1, 0]⟩,
   ⟨"c24", [24], [[1, 0]], [1, 0]⟩,
   ⟨"c25", [25], [[1, 0]], [1, 0]⟩,
   ⟨"c26", [26], [[4 / 5, 3 / 5]], [4 / 5, 3 / 5]⟩,
   ⟨"c27", [0, 1], [[1, 0], [1, 0]], [1, 0]⟩,
   ⟨"c28", [2, 3], [[1, 0], [1, 0]], [1, 0]⟩,
   ⟨"c29", [4, 5], [[1, 0], [1, 0]], [1, 0]⟩,
   ⟨"c30", [6, 7], [[1, 0], [1, 0]], [1, 0]⟩,
   ⟨"c31", [8, 9], [[1, 0], [1, 0]], [1, 0]⟩,
   ⟨"c32", [10, 11], [[1, 0], [1, 0]], [1, 0]⟩,
   ⟨"c33", [12, 13], [[1, 0], [1, 0]], [1, 0]⟩,
   ⟨"c34", [14, 15], [[1, 0], [1, 0]], [1, 0]⟩,
   ⟨"c35", [16, 17], [[1, 0], [1, 0]], [1, 0]⟩,
   ⟨"c36", [18, 19], [[1, 0], [1, 0]], [1, 0]⟩,
   ⟨"c37", [20, 21], [[1, 0], [1, 0]], [1, 0]⟩]

/-- State 12 of the claim C4 merge-loop trace. -/
def c4s12 : List MCluster :=
  [⟨"c24", [24], [[1, 0]], [1, 0]⟩,
   ⟨"c25", [25], [[1, 0]], [1, 0]⟩,
   ⟨"c26", [26], [[4 / 5, 3 / 5]], [4 / 5, 3 / 5]⟩,
   ⟨"c27", [0, 1], [[1, 0], [1, 0]], [1, 0]⟩,
   ⟨"c28", [2, 3], [[1, 0], [1, 0]], [1, 0]⟩,
   ⟨"c29", [4, 5], [[1, 0], [1, 0]], [1, 0]⟩,
   ⟨"c30", [6, 7], [[1, 0], [1, 0]], [1, 0]⟩,
   ⟨"c31", [8, 9], [[1, 0], [1, 0]], [1, 0]⟩,
   ⟨"c32", [10, 11], [[1, 0], [1, 0]], [1, 0]⟩,
   ⟨"c33", [12, 13], [[1, 0], [1, 0]], [1, 0]⟩,
   ⟨"c34", [14, 15], [[1, 0], [1, 0]], [1, 0]⟩,
   ⟨"c35", [16, 17], [[1, 0], [1, 0]], [1, 0]⟩,
   ⟨"c36", [18, 19], [[1, 0], [1, 0]], [1, 0]⟩,
   ⟨"c37", [20, 21], [[1, 0], [1, 0]], [1, 0]⟩,
   ⟨"c38", [22, 23], [[1, 0], [1, 0]], [1, 0]⟩]

/-- State 13 of the claim C4 merge-loop trace. -/
def c4s13 : List MCluster :=
  [⟨"c26", [26], [[4 / 5, 3 / 5]], [4 / 5, 3 / 5]⟩,
   ⟨"c27", [0, 1], [[1, 0], [1, 0]], [1, 0]⟩,
   ⟨"c28", [2, 3], [[1, 0], [1, 0]], [1, 0]⟩,
   ⟨"c29", [4, 5], [[1, 0], [1, 0]], [1, 0]⟩,
   ⟨"c30", [6, 7], [[1, 0], [1, 0]], [1, 0]⟩,
   ⟨"c31", [8, 9], [[1, 0], [1, 0]], [1, 0]⟩,
   ⟨"c32", [10, 11], [[1, 0], [1, 0]], [1, 0]⟩,
   ⟨"c33", [12, 13], [[1, 0], [1, 0]], [1, 0]⟩,
   ⟨"c34", [14, 15], [[1, 0], [1, 0]], [1, 0]⟩,
   ⟨"c35", [16, 17], [[1, 0], [1, 0]], [1, 0]⟩,
   ⟨"c36", [18, 19], [[1, 0], [1, 0]], [1, 0]⟩,
   ⟨"c37", [20, 21], [[1, 0], [1, 0]], [1, 0]⟩,
   ⟨"c38", [22, 23], [[1, 0], [1, 0]], [1, 0]⟩,
   ⟨"c39", [24, 25], [[1, 0], [1, 0]], [1, 0]⟩]

/-- State 14 of the claim C4 merge-loop trace. -/
def c4s14 : List MCluster :=
  [⟨"c26", [26], [[4 / 5, 3 / 5]], [4 / 5, 3 / 5]⟩,
   ⟨"c29", [4, 5], [[1, 0], [1, 0]], [1, 0]⟩,
   ⟨"c30", [6, 7], [[1, 0], [1, 0]], [1, 0]⟩,
   ⟨"c31", [8, 9], [[1, 0], [1, 0]], [1, 0]⟩,
   ⟨"c32", [10, 11], [[1, 0], [1, 0]], [1, 0]⟩,
   ⟨"c33", [12, 13], [[1, 0], [1, 0]], [1, 0]⟩,
   ⟨"c34", [14, 15], [[1, 0], [1, 0]], [1, 0]⟩,
   ⟨"c35", [16, 17], [[1, 0], [1, 0]], [1, 0]⟩,
   ⟨"c36", [18, 19], [[1, 0], [1, 0]], [1, 0]⟩,
   ⟨"c37", [20, 21], [[1, 0], [1, 0]], [1, 0]⟩,
   ⟨"c38", [22, 23], [[1, 0], [1, 0]], [1, 0]⟩,
   ⟨"c39", [24, 25], [[1, 0], [1, 0]], [1, 0]⟩,
   ⟨"c40", [0, 1, 2, 3], [[1, 0], [1, 0], [1, 0], [1, 0]], [1, 0]⟩]

/-- State 15 of the claim C4 merge-loop trace. -/
def c4s15 : List MCluster :=
  [⟨"c26", [26], [[4 / 5, 3 / 5]], [4 / 5, 3 / 5]⟩,
   ⟨"c31", [8, 9], [[1, 0], [1, 0]], [1, 0]⟩,
   ⟨"c32", [10, 11], [[1, 0], [1, 0]], [1, 0]⟩,
   ⟨"c33", [12, 13], [[1, 0], [1, 0]], [1, 0]⟩,
   ⟨"c34", [14, 15], [[1, 0], [1, 0]], [1, 0]⟩,
   ⟨"c35", [16, 17], [[1, 0], [1, 0]], [1, 0]⟩,
   ⟨"c36", [18, 19], [[1, 0], [1, 0]], [1, 0]⟩,
   ⟨"c37", [20, 21], [[1, 0], [1, 0]], [1, 0]⟩,
   ⟨"c38", [22, 23], [[1, 0], [1, 0]], [1, 0]⟩,
   ⟨"c39", [24, 25], [[1, 0], [1, 0]], [1, 0]⟩,
   ⟨"c40", [0, 1, 2, 3], [[1, 0], [1, 0], [1, 0], [1, 0]], [1, 0]⟩,
   ⟨"c41", [4, 5, 6, 7], [[1, 0], [1, 0], [1, 0], [1, 0]], [1, 0]⟩]

/-- State 16 of the claim C4 merge-loop trace. -/
def c4s16 : List MCluster :=
  [⟨"c26", [26], [[4 / 5, 3 / 5]], [4 / 5, 3 / 5]⟩,
   ⟨"c33", [12, 13], [[1, 0], [1, 0]], [1, 0]⟩,
   ⟨"c34", [14, 15], [[1, 0], [1, 0]], [1, 0]⟩,
   ⟨"c35", [16, 17], [[1, 0], [1, 0]], [1, 0]⟩,
   ⟨"c36", [18, 19], [[1, 0], [1, 0]], [1, 0]⟩,
   ⟨"c37", [20, 21], [[1, 0], [1, 0]], [1, 0]⟩,
   ⟨"c38", [22, 23], [[1, 0], [1, 0]], [1, 0]⟩,
   ⟨"c39", [24, 25], [[1, 0], [1, 0]], [1, 0]⟩,
   ⟨"c40", [0, 1, 2, 3], [[1, 0], [1, 0], [1, 0], [1, 0]], [1, 0]⟩,
   ⟨"c41", [4, 5, 6, 7], [[1, 0], [1, 0], [1, 0], [1, 0]], [1, 0]⟩,
   ⟨"c42", [8, 9, 10, 11], [[1, 0], [1, 0], [1, 0], [1, 0]], [1, 0]⟩]

/-- State 17 of the claim C4 merge-loop trace. -/
def c4s17 : List MCluster :=
  [⟨"c26", [26], [[4 / 5, 3 / 5]], [4 / 5, 3 / 5]⟩,
   ⟨"c35", [16, 17], [[1, 0], [1, 0]], [1, 0]⟩,
   ⟨"c36", [18, 19], [[1, 0], [1, 0]], [1, 0]⟩,
   ⟨"c37", [20, 21], [[1, 0], [1, 0]], [1, 0]⟩,
   ⟨"c38", [22, 23], [[1, 0], [1, 0]], [1, 0]⟩,
   ⟨"c39", [24, 25], [[1, 0], [1, 0]], [1, 0]⟩,
   ⟨"c40", [0, 1, 2, 3], [[1, 0], [1, 0], [1, 0], [1, 0]], [1, 0]⟩,
   ⟨"c41", [4, 5, 6, 7], [[1, 0], [1, 0], [1, 0], [1, 0]], [1, 0]⟩,
   ⟨"c42", [8, 9, 10, 11], [[1, 0], [1, 0], [1, 0], [1, 0]], [1, 0]⟩,
   ⟨"c43", [12, 13, 14, 15], [[1, 0], [1, 0], [1, 0], [1, 0]], [1, 0]⟩]

/-- State 18 of the claim C4 merge-loop trace. -/
def c4s18 : List MCluster :=
  [⟨"c26", [26], [[4 / 5, 3 / 5]], [4 / 5, 3 / 5]⟩,
   ⟨"c37", [20, 21], [[1, 0], [1, 0]], [1, 0]⟩,
   ⟨"c38", [22, 23], [[1, 0], [1, 0]], [1, 0]⟩,
   ⟨"c39", [24, 25], [[1, 0], [1, 0]], [1, 0]⟩,
   ⟨"c40", [0, 1, 2, 3], [[1, 0], [1, 0], [1, 0], [1, 0]], [1, 0]⟩,
   ⟨"c41", [4, 5, 6, 7], [[1, 0], [1, 0], [1, 0], [1, 0]], [1, 0]⟩,
   ⟨"c42", [8, 9, 10, 11], [[1, 0], [1, 0], [1, 0], [1, 0]], [1, 0]⟩,
   ⟨"c43", [12, 13, 14, 15], [[1, 0], [1, 0], [1, 0], [1, 0]], [1, 0]⟩,
   ⟨"c44", [16, 17, 18, 19], [[1, 0], [1, 0], [1, 0], [1, 0]], [1, 0]⟩]

/-- State 19 of the claim C4 merge-loop trace. -/
def c4s19 : List MCluster :=
  [⟨"c26", [26], [[4 / 5, 3 / 5]], [4 / 5, 3 / 5]⟩,
   ⟨"c39", [24, 25], [[1, 0], [1, 0]], [1, 0]⟩,
   ⟨"c40", [0, 1, 2, 3], [[1, 0], [1, 0], [1, 0], [1, 0]], [1, 0]⟩,
   ⟨"c41", [4, 5, 6, 7], [[1, 0], [1, 0], [1, 0], [1, 0]], [1, 0]⟩,
   ⟨"c42", [8, 9, 10, 11], [[1, 0], [1, 0], [1, 0], [1, 0]], [1, 0]⟩,
   ⟨"c43", [12, 13, 14, 15], [[1, 0], [1, 0], [1, 0], [1, 0]], [1, 0]⟩,
   ⟨"c44", [16, 17, 18, 19], [[1, 0], [1, 0], [1, 0], [1, 0]], [1, 0]⟩,
   ⟨"c45", [20, 21, 22, 23], [[1, 0], [1, 0], [1, 0], [1, 0]], [1, 0]⟩]

/-- State 20 of the claim C4 merge-loop trace. -/
def c4s20 : List MCluster :=
  [⟨"c26", [26], [[4 / 5, 3 / 5]], [4 / 5, 3 / 5]⟩,
   ⟨"c41", [4, 5, 6, 7], [[1, 0], [1, 0], [1, 0], [1, 0]], [1, 0]⟩,
   ⟨"c42", [8, 9, 10, 11], [[1, 0], [1, 0], [1, 0], [1, 0]], [1, 0]⟩,
   ⟨"c43", [12, 13, 14, 15], [[1, 0], [1, 0], [1, 0], [1, 0]], [1, 0]⟩,
   ⟨"c44", [16, 17, 18, 19], [[1, 0], [1, 0], [1, 0], [1, 0]], [1, 0]⟩,
   ⟨"c45", [20, 21, 22, 23], [[1, 0], [1, 0], [1, 0], [1, 0]], [1, 0]⟩,
   ⟨"c46", [24, 25, 0, 1, 2, 3], [[1, 0], [1, 0], [1, 0], [1, 0], [1, 0], [1, 0]], [1, 0]⟩]

/-- State 21 of the claim C4 merge-loop trace. -/
def c4s21 : List MCluster :=
  [⟨"c26", [26], [[4 / 5, 3 / 5]], [4 / 5, 3 / 5]⟩,
   ⟨"c43", [12, 13, 14, 15], [[1, 0], [1, 0], [1, 0], [1, 0]], [1, 0]⟩,
   ⟨"c44", [16, 17, 18, 19], [[1, 0], [1, 0], [1, 0], [1, 0]], [1, 0]⟩,
   ⟨"c45", [20, 21, 22, 23], [[1, 0], [1, 0], [1, 0], [1, 0]], [1, 0]⟩,
   ⟨"c46", [24, 25, 0, 1, 2, 3], [[1, 0], [1, 0], [1, 0], [1, 0], [1, 0], [1, 0]], [1, 0]⟩,
   ⟨"c47", [4, 5, 6, 7, 8, 9, 10, 11], [[1, 0], [1, 0], [1, 0], [1, 0], [1, 0], [1, 0], [1, 0], [1, 0]], [1, 0]⟩]

/-- State 22 of the claim C4 merge-loop trace. -/
def c4s22 : List MCluster :=
  [⟨"c26", [26], [[4 / 5, 3 / 5]], [4 / 5, 3 / 5]⟩,
   ⟨"c45", [20, 21, 22, 23], [[1, 0], [1, 0], [1, 0], [1, 0]], [1, 0]⟩,
   ⟨"c46", [24, 25, 0, 1, 2, 3], [[1, 0], [1, 0], [1, 0], [1, 0], [1, 0], [1, 0]], [1, 0]⟩,
   ⟨"c47", [4, 5, 6, 7, 8, 9, 10, 11], [[1, 0], [1, 0], [1, 0], [1, 0], [1, 0], [1, 0], [1, 0], [1, 0]], [1, 0]⟩,
   ⟨"c48", [12, 13, 14, 15, 16, 17, 18, 19], [[1, 0], [1, 0], [1, 0], [1, 0], [1, 0], [1, 0], [1, 0], [1, 0]], [1, 0]⟩]

/-- State 23 of the claim C4 merge-loop trace. -/
def c4s23 : List MCluster :=
  [⟨"c26", [26], [[4 / 5, 3 / 5]], [4 / 5, 3 / 5]⟩,
   ⟨"c47", [4, 5, 6, 7, 8, 9, 10, 11], [[1, 0], [1, 0], [1, 0], [1, 0], [1, 0], [1, 0], [1, 0], [1, 0]], [1, 0]⟩,
   ⟨"c48", [12, 13, 14, 15, 16, 17, 18, 19], [[1, 0], [1, 0], [1, 0], [1, 0], [1, 0], [1, 0], [1, 0], [1, 0]], [1, 0]⟩,
   ⟨"c49", [20, 21, 22, 23, 24, 25, 0, 1, 2, 3], [[1, 0], [1, 0], [1, 0], [1, 0], [1, 0], [1, 0], [1, 0], [1, 0], [1, 0], [1, 0]], [1, 0]⟩]

/-- State 24 of the claim C4 merge-loop trace. -/
def c4s24 : List MCluster :=
  [⟨"c26", [26], [[4 / 5, 3 / 5]], [4 / 5, 3 / 5]⟩,
   ⟨"c49", [20, 21, 22, 23, 24, 25, 0, 1, 2, 3], [[1, 0], [1, 0], [1, 0], [1, 0], [1, 0], [1, 0], [1, 0], [1, 0], [1, 0], [1, 0]], [1, 0]⟩,
   ⟨"c50", [4, 5, 6, 7, 8, 9, 10, 11, 12, 13, 14, 15, 16, 17, 18, 19], [[1, 0], [1, 0], [1, 0], [1, 0], [1, 0], [1, 0], [1, 0], [1, 0], [1, 0], [1, 0], [1, 0], [1, 0], [1, 0], [1, 0], [1, 0], [1, 0]], [1, 0]⟩]

/-- The best-pair scan at state 0 of the C4 trace. -/
lemma c4scan0 : scanPairs c4s0 = some (0, 1) := by
  have e0 : List.foldl (scanF c4s0) ((⟨0, 1⟩ : Sim), (none : Option (Nat × Nat)))
      [(0, 1), (0, 2), (0, 3), (0, 4), (0, 5), (0, 6), (0, 7), (0, 8), (0, 9), (0, 10), (0, 11), (0, 12), (0, 13), (0, 14), (0, 15), (0, 16), (0, 17), (0, 18), (0, 19), (0, 20), (0, 21), (0, 22), (0, 23), (0, 24), (0, 25), (0, 26), (1, 2), (1, 3), (1, 4), (1, 5)] = ((⟨1, 1⟩ : Sim), some (0, 1)) := by
    with_unfolding_all decide
  have e1 : List.foldl (scanF c4s0) ((⟨1, 1⟩ : Sim), some (0, 1))
      [(1, 6), (1, 7), (1, 8), (1, 9), (1, 10), (1, 11), (1, 12), (1, 13), (1, 14), (1, 15), (1, 16), (1, 17), (1, 18), (1, 19), (1, 20), (1, 21), (1, 22), (1, 23), (1, 24), (1, 25), (1, 26), (2, 3), (2, 4), (2, 5), (2, 6), (2, 7), (2, 8), (2, 9), (2, 10), (2, 11)] = ((⟨1, 1⟩ : Sim), some (0, 1)) := by
    with_unfolding_all decide
  have e2 : List.foldl (scanF c4s0) ((⟨1, 1⟩ : Sim), some (0, 1))
      [(2, 12), (2, 13), (2, 14), (2, 15), (2, 16), (2, 17), (2, 18), (2, 19), (2, 20), (2, 21), (2, 22), (2, 23), (2, 24), (2, 25), (2, 26), (3, 4), (3, 5), (3, 6), (3, 7), (3, 8), (3, 9), (3, 10), (3, 11), (3, 12), (3, 13), (3, 14), (3, 15), (3, 16), (3, 17), (3, 18)] = ((⟨1, 1⟩ : Sim), some (0, 1)) := by
    with_unfolding_all decide
  have e3 : List.foldl (scanF c4s0) ((⟨1, 1⟩ : Sim), some (0, 1))
      [(3, 19), (3, 20), (3, 21), (3, 22), (3, 23), (3, 24), (3, 25), (3, 26), (4, 5), (4, 6), (4, 7), (4, 8), (4, 9), (4, 10), (4, 11), (4, 12), (4, 13), (4, 14), (4, 15), (4, 16), (4, 17), (4, 18), (4, 19), (4, 20), (4, 21), (4, 22), (4, 23), (4, 24), (4, 25), (4, 26)] = ((⟨1, 1⟩ : Sim), some (0, 1)) := by
    with_unfolding_all decide
  have e4 : List.foldl (scanF c4s0) ((⟨1, 1⟩ : Sim), some (0, 1))
      [(5, 6), (5, 7), (5, 8), (5, 9), (5, 10), (5, 11), (5, 12), (5, 13), (5, 14), (5, 15), (5, 16), (5, 17), (5, 18), (5, 19), (5, 20), (5, 21), (5, 22), (5, 23), (5, 24), (5, 25), (5, 26), (6, 7), (6, 8), (6, 9), (6, 10), (6, 11), (6, 12), (6, 13), (6, 14), (6, 15)] = ((⟨1, 1⟩ : Sim), some (0, 1)) := by
    with_unfolding_all decide
  have e5 : List.foldl (scanF c4s0) ((⟨1, 1⟩ : Sim), some (0, 1))
      [(6, 16), (6, 17), (6, 18), (6, 19), (6, 20), (6, 21), (6, 22), (6, 23), (6, 24), (6, 25), (6, 26), (7, 8), (7, 9), (7, 10), (7, 11), (7, 12), (7, 13), (7, 14), (7, 15), (7, 16), (7, 17), (7, 18), (7, 19), (7, 20), (7, 21), (7, 22), (7, 23), (7, 24), (7, 25), (7, 26)] = ((⟨1, 1⟩ : Sim), some (0, 1)) := by
    with_unfolding_all decide
  have e6 : List.foldl (scanF c4s0) ((⟨1, 1⟩ : Sim), some (0, 1))
      [(8, 9), (8, 10), (8, 11), (8, 12), (8, 13), (8, 14), (8, 15), (8, 16), (8, 17), (8, 18), (8, 19), (8, 20), (8, 21), (8, 22), (8, 23), (8, 24), (8, 25), (8, 26), (9, 10), (9, 11), (9, 12), (9, 13), (9, 14), (9, 15), (9, 16), (9, 17), (9, 18), (9, 19), (9, 20), (9, 21)] = ((⟨1, 1⟩ : Sim), some (0, 1)) := by
    with_unfolding_all decide
  have e7 : List.foldl (scanF c4s0) ((⟨1, 1⟩ : Sim), some (0, 1))
      [(9, 22), (9, 23), (9, 24), (9, 25), (9, 26), (10, 11), (10, 12), (10, 13), (10, 14), (10, 15), (10, 16), (10, 17), (10, 18), (10, 19), (10, 20), (10, 21), (10, 22), (10, 23), (10, 24), (10, 25), (10, 26), (11, 12), (11, 13), (11, 14), (11, 15), (11, 16), (11, 17), (11, 18), (11, 19), (11, 20)] = ((⟨1, 1⟩ : Sim), some (0, 1)) := by
    with_unfolding_all decide
  have e8 : List.foldl (scanF c4s0) ((⟨1, 1⟩ : Sim), some (0, 1))
      [(11, 21), (11, 22), (11, 23), (11, 24), (11, 25), (11, 26), (12, 13), (12, 14), (12, 15), (12, 16), (12, 17), (12, 18), (12, 19), (12, 20), (12, 21), (12, 22), (12, 23), (12, 24), (12, 25), (12, 26), (13, 14), (13, 15), (13, 16), (13, 17), (13, 18), (13, 19), (13, 20), (13, 21), (13, 22), (13, 23)] = ((⟨1, 1⟩ : Sim), some (0, 1)) := by
    with_unfolding_all decide
  have e9 : List.foldl (scanF c4s0) ((⟨1, 1⟩ : Sim), some (0, 1))
      [(13, 24), (13, 25), (13, 26), (14, 15), (14, 16), (14, 17), (14, 18), (14, 19), (14, 20), (14, 21), (14, 22), (14, 23), (14, 24), (14, 25), (14, 26), (15, 16), (15, 17), (15, 18), (15, 19), (15, 20), (15, 21), (15, 22), (15, 23), (15, 24), (15, 25), (15, 26), (16, 17), (16, 18), (16, 19), (16, 20)] = ((⟨1, 1⟩ : Sim), some (0, 1)) := by
    with_unfolding_all decide
  have e10 : List.foldl (scanF c4s0) ((⟨1, 1⟩ : Sim), some (0, 1))
      [(16, 21), (16, 22), (16, 23), (16, 24), (16, 25), (16, 26), (17, 18), (17, 19), (17, 20), (17, 21), (17, 22), (17, 23), (17, 24), (17, 25), (17, 26), (18, 19), (18, 20), (18, 21), (18, 22), (18, 23), (18, 24), (18, 25), (18, 26), (19, 20), (19, 21), (19, 22), (19, 23), (19, 24), (19, 25), (19, 26)] = ((⟨1, 1⟩ : Sim), some (0, 1)) := by
    with_unfolding_all decide
  have e11 : List.foldl (scanF c4s0) ((⟨1, 1⟩ : Sim), some (0, 1))
      [(20, 21), (20, 22), (20, 23), (20, 24), (20, 25), (20, 26), (21, 22), (21, 23), (21, 24), (21, 25), (21, 26), (22, 23), (22, 24), (22, 25), (22, 26), (23, 24), (23, 25), (23, 26), (24, 25), (24, 26), (25, 26)] = ((⟨1, 1⟩ : Sim), some (0, 1)) := by
    with_unfolding_all decide
  have hl : c4s0.length = 27 := by decide
  have hp : allPairs 27 = [(0, 1), (0, 2), (0, 3), (0, 4), (0, 5), (0, 6), (0, 7), (0, 8), (0, 9), (0, 10), (0, 11), (0, 12), (0, 13), (0, 14), (0, 15), (0, 16), (0, 17), (0, 18), (0, 19), (0, 20), (0, 21), (0, 22), (0, 23), (0, 24), (0, 25), (0, 26), (1, 2), (1, 3), (1, 4), (1, 5)] ++ [(1, 6), (1, 7), (1, 8), (1, 9), (1, 10), (1, 11), (1, 12), (1, 13), (1, 14), (1, 15), (1, 16), (1, 17), (1, 18), (1, 19), (1, 20), (1, 21), (1, 22), (1, 23), (1, 24), (1, 25), (1, 26), (2, 3), (2, 4), (2, 5), (2, 6), (2, 7), (2, 8), (2, 9), (2, 10), (2, 11)] ++ [(2, 12), (2, 13), (2, 14), (2, 15), (2, 16), (2, 17), (2, 18), (2, 19), (2, 20), (2, 21), (2, 22), (2, 23), (2, 24), (2, 25), (2, 26), (3, 4), (3, 5), (3, 6), (3, 7), (3, 8), (3, 9), (3, 10), (3, 11), (3, 12), (3, 13), (3, 14), (3, 15), (3, 16), (3, 17), (3, 18)] ++ [(3, 19), (3, 20), (3, 21), (3, 22), (3, 23), (3, 24), (3, 25), (3, 26), (4, 5), (4, 6), (4, 7), (4, 8), (4, 9), (4, 10), (4, 11), (4, 12), (4, 13), (4, 14), (4, 15), (4, 16), (4, 17), (4, 18), (4, 19), (4, 20), (4, 21), (4, 22), (4, 23), (4, 24), (4, 25), (4, 26)] ++ [(5, 6), (5, 7), (5, 8), (5, 9), (5, 10), (5, 11), (5, 12), (5, 13), (5, 14), (5, 15), (5, 16), (5, 17), (5, 18), (5, 19), (5, 20), (5, 21), (5, 22), (5, 23), (5, 24), (5, 25), (5, 26), (6, 7), (6, 8), (6, 9), (6, 10), (6, 11), (6, 12), (6, 13), (6, 14), (6, 15)] ++ [(6, 16), (6, 17), (6, 18), (6, 19), (6, 20), (6, 21), (6, 22), (6, 23), (6, 24), (6, 25), (6, 26), (7, 8), (7, 9), (7, 10), (7, 11), (7, 12), (7, 13), (7, 14), (7, 15), (7, 16), (7, 17), (7, 18), (7, 19), (7, 20), (7, 21), (7, 22), (7, 23), (7, 24), (7, 25), (7, 26)] ++ [(8, 9), (8, 10), (8, 11), (8, 12), (8, 13), (8, 14), (8, 15), (8, 16), (8, 17), (8, 18), (8, 19), (8, 20), (8, 21), (8, 22), (8, 23), (8, 24), (8, 25), (8, 26), (9, 10), (9, 11), (9, 12), (9, 13), (9, 14), (9, 15), (9, 16), (9, 17), (9, 18), (9, 19), (9, 20), (9, 21)] ++ [(9, 22), (9, 23), (9, 24), (9, 25), (9, 26), (10, 11), (10, 12), (10, 13), (10, 14), (10, 15), (10, 16), (10, 17), (10, 18), (10, 19), (10, 20), (10, 21), (10, 22), (10, 23), (10, 24), (10, 25), (10, 26), (11, 12), (11, 13), (11, 14), (11, 15), (11, 16), (11, 17), (11, 18), (11, 19), (11, 20)] ++ [(11, 21), (11, 22), (11, 23), (11, 24), (11, 25), (11, 26), (12, 13), (12, 14), (12, 15), (12, 16), (12, 17), (12, 18), (12, 19), (12, 20), (12, 21), (12, 22), (12, 23), (12, 24), (12, 25), (12, 26), (13, 14), (13, 15), (13, 16), (13, 17), (13, 18), (13, 19), (13, 20), (13, 21), (13, 22), (13, 23)] ++ [(13, 24), (13, 25), (13, 26), (14, 15), (14, 16), (14, 17), (14, 18), (14, 19), (14, 20), (14, 21), (14, 22), (14, 23), (14, 24), (14, 25), (14, 26), (15, 16), (15, 17), (15, 18), (15, 19), (15, 20), (15, 21), (15, 22), (15, 23), (15, 24), (15, 25), (15, 26), (16, 17), (16, 18), (16, 19), (16, 20)] ++ [(16, 21), (16, 22), (16, 23), (16, 24), (16, 25), (16, 26), (17, 18), (17, 19), (17, 20), (17, 21), (17, 22), (17, 23), (17, 24), (17, 25), (17, 26), (18, 19), (18, 20), (18, 21), (18, 22), (18, 23), (18, 24), (18, 25), (18, 26), (19, 20), (19, 21), (19, 22), (19, 23), (19, 24), (19, 25), (19, 26)] ++ [(20, 21), (20, 22), (20, 23), (20, 24), (20, 25), (20, 26), (21, 22), (21, 23), (21, 24), (21, 25), (21, 26), (22, 23), (22, 24), (22, 25), (22, 26), (23, 24), (23, 25), (23, 26), (24, 25), (24, 26), (25, 26)] := by
    with_unfolding_all decide
  show (List.foldl (scanF c4s0) ((⟨0, 1⟩ : Sim), (none : Option (Nat × Nat)))
      (allPairs c4s0.length)).2 = some (0, 1)
  rw [hl, hp]
  simp only [List.foldl_append, e0, e1, e2, e3, e4, e5, e6, e7, e8, e9, e10, e11]

/-- The best-pair scan at state 1 of the C4 trace. -/
lemma c4scan1 : scanPairs c4s1 = some (0, 1) := by
  have e0 : List.foldl (scanF c4s1) ((⟨0, 1⟩ : Sim), (none : Option (Nat × Nat)))
      [(0, 1), (0, 2), (0, 3), (0, 4), (0, 5), (0, 6), (0, 7), (0, 8), (0, 9), (0, 10), (0, 11), (0, 12), (0, 13), (0, 14), (0, 15), (0, 16), (0, 17), (0, 18), (0, 19), (0, 20), (0, 21), (0, 22), (0, 23), (0, 24), (0, 25), (1, 2), (1, 3), (1, 4), (1, 5), (1, 6)] = ((⟨1, 1⟩ : Sim), some (0, 1)) := by
    with_unfolding_all decide
  have e1 : List.foldl (scanF c4s1) ((⟨1, 1⟩ : Sim), some (0, 1))
      [(1, 7), (1, 8), (1, 9), (1, 10), (1, 11), (1, 12), (1, 13), (1, 14), (1, 15), (1, 16), (1, 17), (1, 18), (1, 19), (1, 20), (1, 21), (1, 22), (1, 23), (1, 24), (1, 25), (2, 3), (2, 4), (2, 5), (2, 6), (2, 7), (2, 8), (2, 9), (2, 10), (2, 11), (2, 12), (2, 13)] = ((⟨1, 1⟩ : Sim), some (0, 1)) := by
    with_unfolding_all decide
  have e2 : List.foldl (scanF c4s1) ((⟨1, 1⟩ : Sim), some (0, 1))
      [(2, 14), (2, 15), (2, 16), (2, 17), (2, 18), (2, 19), (2, 20), (2, 21), (2, 22), (2, 23), (2, 24), (2, 25), (3, 4), (3, 5), (3, 6), (3, 7), (3, 8), (3, 9), (3, 10), (3, 11), (3, 12), (3, 13), (3, 14), (3, 15), (3, 16), (3, 17), (3, 18), (3, 19), (3, 20), (3, 21)] = ((⟨1, 1⟩ : Sim), some (0, 1)) := by
    with_unfolding_all decide
  have e3 : List.foldl (scanF c4s1) ((⟨1, 1⟩ : Sim), some (0, 1))
      [(3, 22), (3, 23), (3, 24), (3, 25), (4, 5), (4, 6), (4, 7), (4, 8), (4, 9), (4, 10), (4, 11), (4, 12), (4, 13), (4, 14), (4, 15), (4, 16), (4, 17), (4, 18), (4, 19), (4, 20), (4, 21), (4, 22), (4, 23), (4, 24), (4, 25), (5, 6), (5, 7), (5, 8), (5, 9), (5, 10)] = ((⟨1, 1⟩ : Sim), some (0, 1)) := by
    with_unfolding_all decide
  have e4 : List.foldl (scanF c4s1) ((⟨1, 1⟩ : Sim), some (0, 1))
      [(5, 11), (5, 12), (5, 13), (5, 14), (5, 15), (5, 16), (5, 17), (5, 18), (5, 19), (5, 20), (5, 21), (5, 22), (5, 23), (5, 24), (5, 25), (6, 7), (6, 8), (6, 9), (6, 10), (6, 11), (6, 12), (6, 13), (6, 14), (6, 15), (6, 16), (6, 17), (6, 18), (6, 19), (6, 20), (6, 21)] = ((⟨1, 1⟩ : Sim), some (0, 1)) := by
    with_unfolding_all decide
  have e5 : List.foldl (scanF c4s1) ((⟨1, 1⟩ : Sim), some (0, 1))
      [(6, 22), (6, 23), (6, 24), (6, 25), (7, 8), (7, 9), (7, 10), (7, 11), (7, 12), (7, 13), (7, 14), (7, 15), (7, 16), (7, 17), (7, 18), (7, 19), (7, 20), (7, 21), (7, 22), (7, 23), (7, 24), (7, 25), (8, 9), (8, 10), (8, 11), (8, 12), (8, 13), (8, 14), (8, 15), (8, 16)] = ((⟨1, 1⟩ : Sim), some (0, 1)) := by
    with_unfolding_all decide
  have e6 : List.foldl (scanF c4s1) ((⟨1, 1⟩ : Sim), some (0, 1))
      [(8, 17), (8, 18), (8, 19), (8, 20), (8, 21), (8, 22), (8, 23), (8, 24), (8, 25), (9, 10), (9, 11), (9, 12), (9, 13), (9, 14), (9, 15), (9, 16), (9, 17), (9, 18), (9, 19), (9, 20), (9, 21), (9, 22), (9, 23), (9, 24), (9, 25), (10, 11), (10, 12), (10, 13), (10, 14), (10, 15)] = ((⟨1, 1⟩ : Sim), some (0, 1)) := by
    with_unfolding_all decide
  have e7 : List.foldl (scanF c4s1) ((⟨1, 1⟩ : Sim), some (0, 1))
      [(10, 16), (10, 17), (10, 18), (10, 19), (10, 20), (10, 21), (10, 22), (10, 23), (10, 24), (10, 25), (11, 12), (11, 13), (11, 14), (11, 15), (11, 16), (11, 17), (11, 18), (11, 19), (11, 20), (11, 21), (11, 22), (11, 23), (11, 24), (11, 25), (12, 13), (12, 14), (12, 15), (12, 16), (12, 17), (12, 18)] = ((⟨1, 1⟩ : Sim), some (0, 1)) := by
    with_unfolding_all decide
  have e8 : List.foldl (scanF c4s1) ((⟨1, 1⟩ : Sim), some (0, 1))
      [(12, 19), (12, 20), (12, 21), (12, 22), (12, 23), (12, 24), (12, 25), (13, 14), (13, 15), (13, 16), (13, 17), (13, 18), (13, 19), (13, 20), (13, 21), (13, 22), (13, 23), (13, 24), (13, 25), (14, 15), (14, 16), (14, 17), (14, 18), (14, 19), (14, 20), (14, 21), (14, 22), (14, 23), (14, 24), (14, 25)] = ((⟨1, 1⟩ : Sim), some (0, 1)) := by
    with_unfolding_all decide
  have e9 : List.foldl (scanF c4s1) ((⟨1, 1⟩ : Sim), some (0, 1))
      [(15, 16), (15, 17), (15, 18), (15, 19), (15, 20), (15, 21), (15, 22), (15, 23), (15, 24), (15, 25), (16, 17), (16, 18), (16, 19), (16, 20), (16, 21), (16, 22), (16, 23), (16, 24), (16, 25), (17, 18), (17, 19), (17, 20), (17, 21), (17, 22), (17, 23), (17, 24), (17, 25), (18, 19), (18, 20), (18, 21)] = ((⟨1, 1⟩ : Sim), some (0, 1)) := by
    with_unfolding_all decide
  have e10 : List.foldl (scanF c4s1) ((⟨1, 1⟩ : Sim), some (0, 1))
      [(18, 22), (18, 23), (18, 24), (18, 25), (19, 20), (19, 21), (19, 22), (19, 23), (19, 24), (19, 25), (20, 21), (20, 22), (20, 23), (20, 24), (20, 25), (21, 22), (21, 23), (21, 24), (21, 25), (22, 23), (22, 24), (22, 25), (23, 24), (23, 25), (24, 25)] = ((⟨1, 1⟩ : Sim), some (0, 1)) := by
    with_unfolding_all decide
  have hl : c4s1.length = 26 := by decide
  have hp : allPairs 26 = [(0, 1), (0, 2), (0, 3), (0, 4), (0, 5), (0, 6), (0, 7), (0, 8), (0, 9), (0, 10), (0, 11), (0, 12), (0, 13), (0, 14), (0, 15), (0, 16), (0, 17), (0, 18), (0, 19), (0, 20), (0, 21), (0, 22), (0, 23), (0, 24), (0, 25), (1, 2), (1, 3), (1, 4), (1, 5), (1, 6)] ++ [(1, 7), (1, 8), (1, 9), (1, 10), (1, 11), (1, 12), (1, 13), (1, 14), (1, 15), (1, 16), (1, 17), (1, 18), (1, 19), (1, 20), (1, 21), (1, 22), (1, 23), (1, 24), (1, 25), (2, 3), (2, 4), (2, 5), (2, 6), (2, 7), (2, 8), (2, 9), (2, 10), (2, 11), (2, 12), (2, 13)] ++ [(2, 14), (2, 15), (2, 16), (2, 17), (2, 18), (2, 19), (2, 20), (2, 21), (2, 22), (2, 23), (2, 24), (2, 25), (3, 4), (3, 5), (3, 6), (3, 7), (3, 8), (3, 9), (3, 10), (3, 11), (3, 12), (3, 13), (3, 14), (3, 15), (3, 16), (3, 17), (3, 18), (3, 19), (3, 20), (3, 21)] ++ [(3, 22), (3, 23), (3, 24), (3, 25), (4, 5), (4, 6), (4, 7), (4, 8), (4, 9), (4, 10), (4, 11), (4, 12), (4, 13), (4, 14), (4, 15), (4, 16), (4, 17), (4, 18), (4, 19), (4, 20), (4, 21), (4, 22), (4, 23), (4, 24), (4, 25), (5, 6), (5, 7), (5, 8), (5, 9), (5, 10)] ++ [(5, 11), (5, 12), (5, 13), (5, 14), (5, 15), (5, 16), (5, 17), (5, 18), (5, 19), (5, 20), (5, 21), (5, 22), (5, 23), (5, 24), (5, 25), (6, 7), (6, 8), (6, 9), (6, 10), (6, 11), (6, 12), (6, 13), (6, 14), (6, 15), (6, 16), (6, 17), (6, 18), (6, 19), (6, 20), (6, 21)] ++ [(6, 22), (6, 23), (6, 24), (6, 25), (7, 8), (7, 9), (7, 10), (7, 11), (7, 12), (7, 13), (7, 14), (7, 15), (7, 16), (7, 17), (7, 18), (7, 19), (7, 20), (7, 21), (7, 22), (7, 23), (7, 24), (7, 25), (8, 9), (8, 10), (8, 11), (8, 12), (8, 13), (8, 14), (8, 15), (8, 16)] ++ [(8, 17), (8, 18), (8, 19), (8, 20), (8, 21), (8, 22), (8, 23), (8, 24), (8, 25), (9, 10), (9, 11), (9, 12), (9, 13), (9, 14), (9, 15), (9, 16), (9, 17), (9, 18), (9, 19), (9, 20), (9, 21), (9, 22), (9, 23), (9, 24), (9, 25), (10, 11), (10, 12), (10, 13), (10, 14), (10, 15)] ++ [(10, 16), (10, 17), (10, 18), (10, 19), (10, 20), (10, 21), (10, 22), (10, 23), (10, 24), (10, 25), (11, 12), (11, 13), (11, 14), (11, 15), (11, 16), (11, 17), (11, 18), (11, 19), (11, 20), (11, 21), (11, 22), (11, 23), (11, 24), (11, 25), (12, 13), (12, 14), (12, 15), (12, 16), (12, 17), (12, 18)] ++ [(12, 19), (12, 20), (12, 21), (12, 22), (12, 23), (12, 24), (12, 25), (13, 14), (13, 15), (13, 16), (13, 17), (13, 18), (13, 19), (13, 20), (13, 21), (13, 22), (13, 23), (13, 24), (13, 25), (14, 15), (14, 16), (14, 17), (14, 18), (14, 19), (14, 20), (14, 21), (14, 22), (14, 23), (14, 24), (14, 25)] ++ [(15, 16), (15, 17), (15, 18), (15, 19), (15, 20), (15, 21), (15, 22), (15, 23), (15, 24), (15, 25), (16, 17), (16, 18), (16, 19), (16, 20), (16, 21), (16, 22), (16, 23), (16, 24), (16, 25), (17, 18), (17, 19), (17, 20), (17, 21), (17, 22), (17, 23), (17, 24), (17, 25), (18, 19), (18, 20), (18, 21)] ++ [(18, 22), (18, 23), (18, 24), (18, 25), (19, 20), (19, 21), (19, 22), (19, 23), (19, 24), (19, 25), (20, 21), (20, 22), (20, 23), (20, 24), (20, 25), (21, 22), (21, 23), (21, 24), (21, 25), (22, 23), (22, 24), (22, 25), (23, 24), (23, 25), (24, 25)] := by
    with_unfolding_all decide
  show (List.foldl (scanF c4s1) ((⟨0, 1⟩ : Sim), (none : Option (Nat × Nat)))
      (allPairs c4s1.length)).2 = some (0, 1)
  rw [hl, hp]
  simp only [List.foldl_append, e0, e1, e2, e3, e4, e5, e6, e7, e8, e9, e10]

/-- The best-pair scan at state 2 of the C4 trace. -/
lemma c4scan2 : scanPairs c4s2 = some (0, 1) := by
  have e0 : List.foldl (scanF c4s2) ((⟨0, 1⟩ : Sim), (none : Option (Nat × Nat)))
      [(0, 1), (0, 2), (0, 3), (0, 4), (0, 5), (0, 6), (0, 7), (0, 8), (0, 9), (0, 10), (0, 11), (0, 12), (0, 13), (0, 14), (0, 15), (0, 16), (0, 17), (0, 18), (0, 19), (0, 20), (0, 21), (0, 22), (0, 23), (0, 24), (1, 2), (1, 3), (1, 4), (1, 5), (1, 6), (1, 7)] = ((⟨1, 1⟩ : Sim), some (0, 1)) := by
    with_unfolding_all decide
  have e1 : List.foldl (scanF c4s2) ((⟨1, 1⟩ : Sim), some (0, 1))
      [(1, 8), (1, 9), (1, 10), (1, 11), (1, 12), (1, 13), (1, 14), (1, 15), (1, 16), (1, 17), (1, 18), (1, 19), (1, 20), (1, 21), (1, 22), (1, 23), (1, 24), (2, 3), (2, 4), (2, 5), (2, 6), (2, 7), (2, 8), (2, 9), (2, 10), (2, 11), (2, 12), (2, 13), (2, 14), (2, 15)] = ((⟨1, 1⟩ : Sim), some (0, 1)) := by
    with_unfolding_all decide
  have e2 : List.foldl (scanF c4s2) ((⟨1, 1⟩ : Sim), some (0, 1))
      [(2, 16), (2, 17), (2, 18), (2, 19), (2, 20), (2, 21), (2, 22), (2, 23), (2, 24), (3, 4), (3, 5), (3, 6), (3, 7), (3, 8), (3, 9), (3, 10), (3, 11), (3, 12), (3, 13), (3, 14), (3, 15), (3, 16), (3, 17), (3, 18), (3, 19), (3, 20), (3, 21), (3, 22), (3, 23), (3, 24)] = ((⟨1, 1⟩ : Sim), some (0, 1)) := by
    with_unfolding_all decide
  have e3 : List.foldl (scanF c4s2) ((⟨1, 1⟩ : Sim), some (0, 1))
      [(4, 5), (4, 6), (4, 7), (4, 8), (4, 9), (4, 10), (4, 11), (4, 12), (4, 13), (4, 14), (4, 15), (4, 16), (4, 17), (4, 18), (4, 19), (4, 20), (4, 21), (4, 22), (4, 23), (4, 24), (5, 6), (5, 7), (5, 8), (5, 9), (5, 10), (5, 11), (5, 12), (5, 13), (5, 14), (5, 15)] = ((⟨1, 1⟩ : Sim), some (0, 1)) := by
    with_unfolding_all decide
  have e4 : List.foldl (scanF c4s2) ((⟨1, 1⟩ : Sim), some (0, 1))
      [(5, 16), (5, 17), (5, 18), (5, 19), (5, 20), (5, 21), (5, 22), (5, 23), (5, 24), (6, 7), (6, 8), (6, 9), (6, 10), (6, 11), (6, 12), (6, 13), (6, 14), (6, 15), (6, 16), (6, 17), (6, 18), (6, 19), (6, 20), (6, 21), (6, 22), (6, 23), (6, 24), (7, 8), (7, 9), (7, 10)] = ((⟨1, 1⟩ : Sim), some (0, 1)) := by
    with_unfolding_all decide
  have e5 : List.foldl (scanF c4s2) ((⟨1, 1⟩ : Sim), some (0, 1))
      [(7, 11), (7, 12), (7, 13), (7, 14), (7, 15), (7, 16), (7, 17), (7, 18), (7, 19), (7, 20), (7, 21), (7, 22), (7, 23), (7, 24), (8, 9), (8, 10), (8, 11), (8, 12), (8, 13), (8, 14), (8, 15), (8, 16), (8, 17), (8, 18), (8, 19), (8, 20), (8, 21), (8, 22), (8, 23), (8, 24)] = ((⟨1, 1⟩ : Sim), some (0, 1)) := by
    with_unfolding_all decide
  have e6 : List.foldl (scanF c4s2) ((⟨1, 1⟩ : Sim), some (0, 1))
      [(9, 10), (9, 11), (9, 12), (9, 13), (9, 14), (9, 15), (9, 16), (9, 17), (9, 18), (9, 19), (9, 20), (9, 21), (9, 22), (9, 23), (9, 24), (10, 11), (10, 12), (10, 13), (10, 14), (10, 15), (10, 16), (10, 17), (10, 18), (10, 19), (10, 20), (10, 21), (10, 22), (10, 23), (10, 24), (11, 12)] = ((⟨1, 1⟩ : Sim), some (0, 1)) := by
    with_unfolding_all decide
  have e7 : List.foldl (scanF c4s2) ((⟨1, 1⟩ : Sim), some (0, 1))
      [(11, 13), (11, 14), (11, 15), (11, 16), (11, 17), (11, 18), (11, 19), (11, 20), (11, 21), (11, 22), (11, 23), (11, 24), (12, 13), (12, 14), (12, 15), (12, 16), (12, 17), (12, 18), (12, 19), (12, 20), (12, 21), (12, 22), (12, 23), (12, 24), (13, 14), (13, 15), (13, 16), (13, 17), (13, 18), (13, 19)] = ((⟨1, 1⟩ : Sim), some (0, 1)) := by
    with_unfolding_all decide
  have e8 : List.foldl (scanF c4s2) ((⟨1, 1⟩ : Sim), some (0, 1))
      [(13, 20), (13, 21), (13, 22), (13, 23), (13, 24), (14, 15), (14, 16), (14, 17), (14, 18), (14, 19), (14, 20), (14, 21), (14, 22), (14, 23), (14, 24), (15, 16), (15, 17), (15, 18), (15, 19), (15, 20), (15, 21), (15, 22), (15, 23), (15, 24), (16, 17), (16, 18), (16, 19), (16, 20), (16, 21), (16, 22)] = ((⟨1, 1⟩ : Sim), some (0, 1)) := by
    with_unfolding_all decide
  have e9 : List.foldl (scanF c4s2) ((⟨1, 1⟩ : Sim), some (0, 1))
      [(16, 23), (16, 24), (17, 18), (17, 19), (17, 20), (17, 21), (17, 22), (17, 23), (17, 24), (18, 19), (18, 20), (18, 21), (18, 22), (18, 23), (18, 24), (19, 20), (19, 21), (19, 22), (19, 23), (19, 24), (20, 21), (20, 22), (20, 23), (20, 24), (21, 22), (21, 23), (21, 24), (22, 23), (22, 24), (23, 24)] = ((⟨1, 1⟩ : Sim), some (0, 1)) := by
    with_unfolding_all decide
  have hl : c4s2.length = 25 := by decide
  have hp : allPairs 25 = [(0, 1), (0, 2), (0, 3), (0, 4), (0, 5), (0, 6), (0, 7), (0, 8), (0, 9), (0, 10), (0, 11), (0, 12), (0, 13), (0, 14), (0, 15), (0, 16), (0, 17), (0, 18), (0, 19), (0, 20), (0, 21), (0, 22), (0, 23), (0, 24), (1, 2), (1, 3), (1, 4), (1, 5), (1, 6), (1, 7)] ++ [(1, 8), (1, 9), (1, 10), (1, 11), (1, 12), (1, 13), (1, 14), (1, 15), (1, 16), (1, 17), (1, 18), (1, 19), (1, 20), (1, 21), (1, 22), (1, 23), (1, 24), (2, 3), (2, 4), (2, 5), (2, 6), (2, 7), (2, 8), (2, 9), (2, 10), (2, 11), (2, 12), (2, 13), (2, 14), (2, 15)] ++ [(2, 16), (2, 17), (2, 18), (2, 19), (2, 20), (2, 21), (2, 22), (2, 23), (2, 24), (3, 4), (3, 5), (3, 6), (3, 7), (3, 8), (3, 9), (3, 10), (3, 11), (3, 12), (3, 13), (3, 14), (3, 15), (3, 16), (3, 17), (3, 18), (3, 19), (3, 20), (3, 21), (3, 22), (3, 23), (3, 24)] ++ [(4, 5), (4, 6), (4, 7), (4, 8), (4, 9), (4, 10), (4, 11), (4, 12), (4, 13), (4, 14), (4, 15), (4, 16), (4, 17), (4, 18), (4, 19), (4, 20), (4, 21), (4, 22), (4, 23), (4, 24), (5, 6), (5, 7), (5, 8), (5, 9), (5, 10), (5, 11), (5, 12), (5, 13), (5, 14), (5, 15)] ++ [(5, 16), (5, 17), (5, 18), (5, 19), (5, 20), (5, 21), (5, 22), (5, 23), (5, 24), (6, 7), (6, 8), (6, 9), (6, 10), (6, 11), (6, 12), (6, 13), (6, 14), (6, 15), (6, 16), (6, 17), (6, 18), (6, 19), (6, 20), (6, 21), (6, 22), (6, 23), (6, 24), (7, 8), (7, 9), (7, 10)] ++ [(7, 11), (7, 12), (7, 13), (7, 14), (7, 15), (7, 16), (7, 17), (7, 18), (7, 19), (7, 20), (7, 21), (7, 22), (7, 23), (7, 24), (8, 9), (8, 10), (8, 11), (8, 12), (8, 13), (8, 14), (8, 15), (8, 16), (8, 17), (8, 18), (8, 19), (8, 20), (8, 21), (8, 22), (8, 23), (8, 24)] ++ [(9, 10), (9, 11), (9, 12), (9, 13), (9, 14), (9, 15), (9, 16), (9, 17), (9, 18), (9, 19), (9, 20), (9, 21), (9, 22), (9, 23), (9, 24), (10, 11), (10, 12), (10, 13), (10, 14), (10, 15), (10, 16), (10, 17), (10, 18), (10, 19), (10, 20), (10, 21), (10, 22), (10, 23), (10, 24), (11, 12)] ++ [(11, 13), (11, 14), (11, 15), (11, 16), (11, 17), (11, 18), (11, 19), (11, 20), (11, 21), (11, 22), (11, 23), (11, 24), (12, 13), (12, 14), (12, 15), (12, 16), (12, 17), (12, 18), (12, 19), (12, 20), (12, 21), (12, 22), (12, 23), (12, 24), (13, 14), (13, 15), (13, 16), (13, 17), (13, 18), (13, 19)] ++ [(13, 20), (13, 21), (13, 22), (13, 23), (13, 24), (14, 15), (14, 16), (14, 17), (14, 18), (14, 19), (14, 20), (14, 21), (14, 22), (14, 23), (14, 24), (15, 16), (15, 17), (15, 18), (15, 19), (15, 20), (15, 21), (15, 22), (15, 23), (15, 24), (16, 17), (16, 18), (16, 19), (16, 20), (16, 21), (16, 22)] ++ [(16, 23), (16, 24), (17, 18), (17, 19), (17, 20), (17, 21), (17, 22), (17, 23), (17, 24), (18, 19), (18, 20), (18, 21), (18, 22), (18, 23), (18, 24), (19, 20), (19, 21), (19, 22), (19, 23), (19, 24), (20, 21), (20, 22), (20, 23), (20, 24), (21, 22), (21, 23), (21, 24), (22, 23), (22, 24), (23, 24)] := by
    with_unfolding_all decide
  show (List.foldl (scanF c4s2) ((⟨0, 1⟩ : Sim), (none : Option (Nat × Nat)))
      (allPairs c4s2.length)).2 = some (0, 1)
  rw [hl, hp]
  simp only [List.foldl_append, e0, e1, e2, e3, e4, e5, e6, e7, e8, e9]

/-- The best-pair scan at state 3 of the C4 trace. -/
lemma c4scan3 : scanPairs c4s3 = some (0, 1) := by
  have e0 : List.foldl (scanF c4s3) ((⟨0, 1⟩ : Sim), (none : Option (Nat × Nat)))
      [(0, 1), (0, 2), (0, 3), (0, 4), (0, 5), (0, 6), (0, 7), (0, 8), (0, 9), (0, 10), (0, 11), (0, 12), (0, 13), (0, 14), (0, 15), (0, 16), (0, 17), (0, 18), (0, 19), (0, 20), (0, 21), (0, 22), (0, 23), (1, 2), (1, 3), (1, 4), (1, 5), (1, 6), (1, 7), (1, 8)] = ((⟨1, 1⟩ : Sim), some (0, 1)) := by
    with_unfolding_all decide
  have e1 : List.foldl (scanF c4s3) ((⟨1, 1⟩ : Sim), some (0, 1))
      [(1, 9), (1, 10), (1, 11), (1, 12), (1, 13), (1, 14), (1, 15), (1, 16), (1, 17), (1, 18), (1, 19), (1, 20), (1, 21), (1, 22), (1, 23), (2, 3), (2, 4), (2, 5), (2, 6), (2, 7), (2, 8), (2, 9), (2, 10), (2, 11), (2, 12), (2, 13), (2, 14), (2, 15), (2, 16), (2, 17)] = ((⟨1, 1⟩ : Sim), some (0, 1)) := by
    with_unfolding_all decide
  have e2 : List.foldl (scanF c4s3) ((⟨1, 1⟩ : Sim), some (0, 1))
      [(2, 18), (2, 19), (2, 20), (2, 21), (2, 22), (2, 23), (3, 4), (3, 5), (3, 6), (3, 7), (3, 8), (3, 9), (3, 10), (3, 11), (3, 12), (3, 13), (3, 14), (3, 15), (3, 16), (3, 17), (3, 18), (3, 19), (3, 20), (3, 21), (3, 22), (3, 23), (4, 5), (4, 6), (4, 7), (4, 8)] = ((⟨1, 1⟩ : Sim), some (0, 1)) := by
    with_unfolding_all decide
  have e3 : List.foldl (scanF c4s3) ((⟨1, 1⟩ : Sim), some (0, 1))
      [(4, 9), (4, 10), (4, 11), (4, 12), (4, 13), (4, 14), (4, 15), (4, 16), (4, 17), (4, 18), (4, 19), (4, 20), (4, 21), (4, 22), (4, 23), (5, 6), (5, 7), (5, 8), (5, 9), (5, 10), (5, 11), (5, 12), (5, 13), (5, 14), (5, 15), (5, 16), (5, 17), (5, 18), (5, 19), (5, 20)] = ((⟨1, 1⟩ : Sim), some (0, 1)) := by
    with_unfolding_all decide
  have e4 : List.foldl (scanF c4s3) ((⟨1, 1⟩ : Sim), some (0, 1))
      [(5, 21), (5, 22), (5, 23), (6, 7), (6, 8), (6, 9), (6, 10), (6, 11), (6, 12), (6, 13), (6, 14), (6, 15), (6, 16), (6, 17), (6, 18), (6, 19), (6, 20), (6, 21), (6, 22), (6, 23), (7, 8), (7, 9), (7, 10), (7, 11), (7, 12), (7, 13), (7, 14), (7, 15), (7, 16), (7, 17)] = ((⟨1, 1⟩ : Sim), some (0, 1)) := by
    with_unfolding_all decide
  have e5 : List.foldl (scanF c4s3) ((⟨1, 1⟩ : Sim), some (0, 1))
      [(7, 18), (7, 19), (7, 20), (7, 21), (7, 22), (7, 23), (8, 9), (8, 10), (8, 11), (8, 12), (8, 13), (8, 14), (8, 15), (8, 16), (8, 17), (8, 18), (8, 19), (8, 20), (8, 21), (8, 22), (8, 23), (9, 10), (9, 11), (9, 12), (9, 13), (9, 14), (9, 15), (9, 16), (9, 17), (9, 18)] = ((⟨1, 1⟩ : Sim), some (0, 1)) := by
    with_unfolding_all decide
  have e6 : List.foldl (scanF c4s3) ((⟨1, 1⟩ : Sim), some (0, 1))
      [(9, 19), (9, 20), (9, 21), (9, 22), (9, 23), (10, 11), (10, 12), (10, 13), (10, 14), (10, 15), (10, 16), (10, 17), (10, 18), (10, 19), (10, 20), (10, 21), (10, 22), (10, 23), (11, 12), (11, 13), (11, 14), (11, 15), (11, 16), (11, 17), (11, 18), (11, 19), (11, 20), (11, 21), (11, 22), (11, 23)] = ((⟨1, 1⟩ : Sim), some (0, 1)) := by
    with_unfolding_all decide
  have e7 : List.foldl (scanF c4s3) ((⟨1, 1⟩ : Sim), some (0, 1))
      [(12, 13), (12, 14), (12, 15), (12, 16), (12, 17), (12, 18), (12, 19), (12, 20), (12, 21), (12, 22), (12, 23), (13, 14), (13, 15), (13, 16), (13, 17), (13, 18), (13, 19), (13, 20), (13, 21), (13, 22), (13, 23), (14, 15), (14, 16), (14, 17), (14, 18), (14, 19), (14, 20), (14, 21), (14, 22), (14, 23)] = ((⟨1, 1⟩ : Sim), some (0, 1)) := by
    with_unfolding_all decide
  have e8 : List.foldl (scanF c4s3) ((⟨1, 1⟩ : Sim), some (0, 1))
      [(15, 16), (15, 17), (15, 18), (15, 19), (15, 20), (15, 21), (15, 22), (15, 23), (16, 17), (16, 18), (16, 19), (16, 20), (16, 21), (16, 22), (16, 23), (17, 18), (17, 19), (17, 20), (17, 21), (17, 22), (17, 23), (18, 19), (18, 20), (18, 21), (18, 22), (18, 23), (19, 20), (19, 21), (19, 22), (19, 23)] = ((⟨1, 1⟩ : Sim), some (0, 1)) := by
    with_unfolding_all decide
  have e9 : List.foldl (scanF c4s3) ((⟨1, 1⟩ : Sim), some (0, 1))
      [(20, 21), (20, 22), (20, 23), (21, 22), (21, 23), (22, 23)] = ((⟨1, 1⟩ : Sim), some (0, 1)) := by
    with_unfolding_all decide
  have hl : c4s3.length = 24 := by decide
  have hp : allPairs 24 = [(0, 1), (0, 2), (0, 3), (0, 4), (0, 5), (0, 6), (0, 7), (0, 8), (0, 9), (0, 10), (0, 11), (0, 12), (0, 13), (0, 14), (0, 15), (0, 16), (0, 17), (0, 18), (0, 19), (0, 20), (0, 21), (0, 22), (0, 23), (1, 2), (1, 3), (1, 4), (1, 5), (1, 6), (1, 7), (1, 8)] ++ [(1, 9), (1, 10), (1, 11), (1, 12), (1, 13), (1, 14), (1, 15), (1, 16), (1, 17), (1, 18), (1, 19), (1, 20), (1, 21), (1, 22), (1, 23), (2, 3), (2, 4), (2, 5), (2, 6), (2, 7), (2, 8), (2, 9), (2, 10), (2, 11), (2, 12), (2, 13), (2, 14), (2, 15), (2, 16), (2, 17)] ++ [(2, 18), (2, 19), (2, 20), (2, 21), (2, 22), (2, 23), (3, 4), (3, 5), (3, 6), (3, 7), (3, 8), (3, 9), (3, 10), (3, 11), (3, 12), (3, 13), (3, 14), (3, 15), (3, 16), (3, 17), (3, 18), (3, 19), (3, 20), (3, 21), (3, 22), (3, 23), (4, 5), (4, 6), (4, 7), (4, 8)] ++ [(4, 9), (4, 10), (4, 11), (4, 12), (4, 13), (4, 14), (4, 15), (4, 16), (4, 17), (4, 18), (4, 19), (4, 20), (4, 21), (4, 22), (4, 23), (5, 6), (5, 7), (5, 8), (5, 9), (5, 10), (5, 11), (5, 12), (5, 13), (5, 14), (5, 15), (5, 16), (5, 17), (5, 18), (5, 19), (5, 20)] ++ [(5, 21), (5, 22), (5, 23), (6, 7), (6, 8), (6, 9), (6, 10), (6, 11), (6, 12), (6, 13), (6, 14), (6, 15), (6, 16), (6, 17), (6, 18), (6, 19), (6, 20), (6, 21), (6, 22), (6, 23), (7, 8), (7, 9), (7, 10), (7, 11), (7, 12), (7, 13), (7, 14), (7, 15), (7, 16), (7, 17)] ++ [(7, 18), (7, 19), (7, 20), (7, 21), (7, 22), (7, 23), (8, 9), (8, 10), (8, 11), (8, 12), (8, 13), (8, 14), (8, 15), (8, 16), (8, 17), (8, 18), (8, 19), (8, 20), (8, 21), (8, 22), (8, 23), (9, 10), (9, 11), (9, 12), (9, 13), (9, 14), (9, 15), (9, 16), (9, 17), (9, 18)] ++ [(9, 19), (9, 20), (9, 21), (9, 22), (9, 23), (10, 11), (10, 12), (10, 13), (10, 14), (10, 15), (10, 16), (10, 17), (10, 18), (10, 19), (10, 20), (10, 21), (10, 22), (10, 23), (11, 12), (11, 13), (11, 14), (11, 15), (11, 16), (11, 17), (11, 18), (11, 19), (11, 20), (11, 21), (11, 22), (11, 23)] ++ [(12, 13), (12, 14), (12, 15), (12, 16), (12, 17), (12, 18), (12, 19), (12, 20), (12, 21), (12, 22), (12, 23), (13, 14), (13, 15), (13, 16), (13, 17), (13, 18), (13, 19), (13, 20), (13, 21), (13, 22), (13, 23), (14, 15), (14, 16), (14, 17), (14, 18), (14, 19), (14, 20), (14, 21), (14, 22), (14, 23)] ++ [(15, 16), (15, 17), (15, 18), (15, 19), (15, 20), (15, 21), (15, 22), (15, 23), (16, 17), (16, 18), (16, 19), (16, 20), (16, 21), (16, 22), (16, 23), (17, 18), (17, 19), (17, 20), (17, 21), (17, 22), (17, 23), (18, 19), (18, 20), (18, 21), (18, 22), (18, 23), (19, 20), (19, 21), (19, 22), (19, 23)] ++ [(20, 21), (20, 22), (20, 23), (21, 22), (21, 23), (22, 23)] := by
    with_unfolding_all decide
  show (List.foldl (scanF c4s3) ((⟨0, 1⟩ : Sim), (none : Option (Nat × Nat)))
      (allPairs c4s3.length)).2 = some (0, 1)
  rw [hl, hp]
  simp only [List.foldl_append, e0, e1, e2, e3, e4, e5, e6, e7, e8, e9]

/-- The best-pair scan at state 4 of the C4 trace. -/
lemma c4scan4 : scanPairs c4s4 = some (0, 1) := by
  have e0 : List.foldl (scanF c4s4) ((⟨0, 1⟩ : Sim), (none : Option (Nat × Nat)))
      [(0, 1), (0, 2), (0, 3), (0, 4), (0, 5), (0, 6), (0, 7), (0, 8), (0, 9), (0, 10), (0, 11), (0, 12), (0, 13), (0, 14), (0, 15), (0, 16), (0, 17), (0, 18), (0, 19), (0, 20), (0, 21), (0, 22), (1, 2), (1, 3), (1, 4), (1, 5), (1, 6), (1, 7), (1, 8), (1, 9)] = ((⟨1, 1⟩ : Sim), some (0, 1)) := by
    with_unfolding_all decide
  have e1 : List.foldl (scanF c4s4) ((⟨1, 1⟩ : Sim), some (0, 1))
      [(1, 10), (1, 11), (1, 12), (1, 13), (1, 14), (1, 15), (1, 16), (1, 17), (1, 18), (1, 19), (1, 20), (1, 21), (1, 22), (2, 3), (2, 4), (2, 5), (2, 6), (2, 7), (2, 8), (2, 9), (2, 10), (2, 11), (2, 12), (2, 13), (2, 14), (2, 15), (2, 16), (2, 17), (2, 18), (2, 19)] = ((⟨1, 1⟩ : Sim), some (0, 1)) := by
    with_unfolding_all decide
  have e2 : List.foldl (scanF c4s4) ((⟨1, 1⟩ : Sim), some (0, 1))
      [(2, 20), (2, 21), (2, 22), (3, 4), (3, 5), (3, 6), (3, 7), (3, 8), (3, 9), (3, 10), (3, 11), (3, 12), (3, 13), (3, 14), (3, 15), (3, 16), (3, 17), (3, 18), (3, 19), (3, 20), (3, 21), (3, 22), (4, 5), (4, 6), (4, 7), (4, 8), (4, 9), (4, 10), (4, 11), (4, 12)] = ((⟨1, 1⟩ : Sim), some (0, 1)) := by
    with_unfolding_all decide
  have e3 : List.foldl (scanF c4s4) ((⟨1, 1⟩ : Sim), some (0, 1))
      [(4, 13), (4, 14), (4, 15), (4, 16), (4, 17), (4, 18), (4, 19), (4, 20), (4, 21), (4, 22), (5, 6), (5, 7), (5, 8), (5, 9), (5, 10), (5, 11), (5, 12), (5, 13), (5, 14), (5, 15), (5, 16), (5, 17), (5, 18), (5, 19), (5, 20), (5, 21), (5, 22), (6, 7), (6, 8), (6, 9)] = ((⟨1, 1⟩ : Sim), some (0, 1)) := by
    with_unfolding_all decide
  have e4 : List.foldl (scanF c4s4) ((⟨1, 1⟩ : Sim), some (0, 1))
      [(6, 10), (6, 11), (6, 12), (6, 13), (6, 14), (6, 15), (6, 16), (6, 17), (6, 18), (6, 19), (6, 20), (6, 21), (6, 22), (7, 8), (7, 9), (7, 10), (7, 11), (7, 12), (7, 13), (7, 14), (7, 15), (7, 16), (7, 17), (7, 18), (7, 19), (7, 20), (7, 21), (7, 22), (8, 9), (8, 10)] = ((⟨1, 1⟩ : Sim), some (0, 1)) := by
    with_unfolding_all decide
  have e5 : List.foldl (scanF c4s4) ((⟨1, 1⟩ : Sim), some (0, 1))
      [(8, 11), (8, 12), (8, 13), (8, 14), (8, 15), (8, 16), (8, 17), (8, 18), (8, 19), (8, 20), (8, 21), (8, 22), (9, 10), (9, 11), (9, 12), (9, 13), (9, 14), (9, 15), (9, 16), (9, 17), (9, 18), (9, 19), (9, 20), (9, 21), (9, 22), (10, 11), (10, 12), (10, 13), (10, 14), (10, 15)] = ((⟨1, 1⟩ : Sim), some (0, 1)) := by
    with_unfolding_all decide
  have e6 : List.foldl (scanF c4s4) ((⟨1, 1⟩ : Sim), some (0, 1))
      [(10, 16), (10, 17), (10, 18), (10, 19), (10, 20), (10, 21), (10, 22), (11, 12), (11, 13), (11, 14), (11, 15), (11, 16), (11, 17), (11, 18), (11, 19), (11, 20), (11, 21), (11, 22), (12, 13), (12, 14), (12, 15), (12, 16), (12, 17), (12, 18), (12, 19), (12, 20), (12, 21), (12, 22), (13, 14), (13, 15)] = ((⟨1, 1⟩ : Sim), some (0, 1)) := by
    with_unfolding_all decide
  have e7 : List.foldl (scanF c4s4) ((⟨1, 1⟩ : Sim), some (0, 1))
      [(13, 16), (13, 17), (13, 18), (13, 19), (13, 20), (13, 21), (13, 22), (14, 15), (14, 16), (14, 17), (14, 18), (14, 19), (14, 20), (14, 21), (14, 22), (15, 16), (15, 17), (15, 18), (15, 19), (15, 20), (15, 21), (15, 22), (16, 17), (16, 18), (16, 19), (16, 20), (16, 21), (16, 22), (17, 18), (17, 19)] = ((⟨1, 1⟩ : Sim), some (0, 1)) := by
    with_unfolding_all decide
  have e8 : List.foldl (scanF c4s4) ((⟨1, 1⟩ : Sim), some (0, 1))
      [(17, 20), (17, 21), (17, 22), (18, 19), (18, 20), (18, 21), (18, 22), (19, 20), (19, 21), (19, 22), (20, 21), (20, 22), (21, 22)] = ((⟨1, 1⟩ : Sim), some (0, 1)) := by
    with_unfolding_all decide
  have hl : c4s4.length = 23 := by decide
  have hp : allPairs 23 = [(0, 1), (0, 2), (0, 3), (0, 4), (0, 5), (0, 6), (0, 7), (0, 8), (0, 9), (0, 10), (0, 11), (0, 12), (0, 13), (0, 14), (0, 15), (0, 16), (0, 17), (0, 18), (0, 19), (0, 20), (0, 21), (0, 22), (1, 2), (1, 3), (1, 4), (1, 5), (1, 6), (1, 7), (1, 8), (1, 9)] ++ [(1, 10), (1, 11), (1, 12), (1, 13), (1, 14), (1, 15), (1, 16), (1, 17), (1, 18), (1, 19), (1, 20), (1, 21), (1, 22), (2, 3), (2, 4), (2, 5), (2, 6), (2, 7), (2, 8), (2, 9), (2, 10), (2, 11), (2, 12), (2, 13), (2, 14), (2, 15), (2, 16), (2, 17), (2, 18), (2, 19)] ++ [(2, 20), (2, 21), (2, 22), (3, 4), (3, 5), (3, 6), (3, 7), (3, 8), (3, 9), (3, 10), (3, 11), (3, 12), (3, 13), (3, 14), (3, 15), (3, 16), (3, 17), (3, 18), (3, 19), (3, 20), (3, 21), (3, 22), (4, 5), (4, 6), (4, 7), (4, 8), (4, 9), (4, 10), (4, 11), (4, 12)] ++ [(4, 13), (4, 14), (4, 15), (4, 16), (4, 17), (4, 18), (4, 19), (4, 20), (4, 21), (4, 22), (5, 6), (5, 7), (5, 8), (5, 9), (5, 10), (5, 11), (5, 12), (5, 13), (5, 14), (5, 15), (5, 16), (5, 17), (5, 18), (5, 19), (5, 20), (5, 21), (5, 22), (6, 7), (6, 8), (6, 9)] ++ [(6, 10), (6, 11), (6, 12), (6, 13), (6, 14), (6, 15), (6, 16), (6, 17), (6, 18), (6, 19), (6, 20), (6, 21), (6, 22), (7, 8), (7, 9), (7, 10), (7, 11), (7, 12), (7, 13), (7, 14), (7, 15), (7, 16), (7, 17), (7, 18), (7, 19), (7, 20), (7, 21), (7, 22), (8, 9), (8, 10)] ++ [(8, 11), (8, 12), (8, 13), (8, 14), (8, 15), (8, 16), (8, 17), (8, 18), (8, 19), (8, 20), (8, 21), (8, 22), (9, 10), (9, 11), (9, 12), (9, 13), (9, 14), (9, 15), (9, 16), (9, 17), (9, 18), (9, 19), (9, 20), (9, 21), (9, 22), (10, 11), (10, 12), (10, 13), (10, 14), (10, 15)] ++ [(10, 16), (10, 17), (10, 18), (10, 19), (10, 20), (10, 21), (10, 22), (11, 12), (11, 13), (11, 14), (11, 15), (11, 16), (11, 17), (11, 18), (11, 19), (11, 20), (11, 21), (11, 22), (12, 13), (12, 14), (12, 15), (12, 16), (12, 17), (12, 18), (12, 19), (12, 20), (12, 21), (12, 22), (13, 14), (13, 15)] ++ [(13, 16), (13, 17), (13, 18), (13, 19), (13, 20), (13, 21), (13, 22), (14, 15), (14, 16), (14, 17), (14, 18), (14, 19), (14, 20), (14, 21), (14, 22), (15, 16), (15, 17), (15, 18), (15, 19), (15, 20), (15, 21), (15, 22), (16, 17), (16, 18), (16, 19), (16, 20), (16, 21), (16, 22), (17, 18), (17, 19)] ++ [(17, 20), (17, 21), (17, 22), (18, 19), (18, 20), (18, 21), (18, 22), (19, 20), (19, 21), (19, 22), (20, 21), (20, 22), (21, 22)] := by
    with_unfolding_all decide
  show (List.foldl (scanF c4s4) ((⟨0, 1⟩ : Sim), (none : Option (Nat × Nat)))
      (allPairs c4s4.length)).2 = some (0, 1)
  rw [hl, hp]
  simp only [List.foldl_append, e0, e1, e2, e3, e4, e5, e6, e7, e8]

/-- The best-pair scan at state 5 of the C4 trace. -/
lemma c4scan5 : scanPairs c4s5 = some (0, 1) := by
  have e0 : List.foldl (scanF c4s5) ((⟨0, 1⟩ : Sim), (none : Option (Nat × Nat)))
      [(0, 1), (0, 2), (0, 3), (0, 4), (0, 5), (0, 6), (0, 7), (0, 8), (0, 9), (0, 10), (0, 11), (0, 12), (0, 13), (0, 14), (0, 15), (0, 16), (0, 17), (0, 18), (0, 19), (0, 20), (0, 21), (1, 2), (1, 3), (1, 4), (1, 5), (1, 6), (1, 7), (1, 8), (1, 9), (1, 10)] = ((⟨1, 1⟩ : Sim), some (0, 1)) := by
    with_unfolding_all decide
  have e1 : List.foldl (scanF c4s5) ((⟨1, 1⟩ : Sim), some (0, 1))
      [(1, 11), (1, 12), (1, 13), (1, 14), (1, 15), (1, 16), (1, 17), (1, 18), (1, 19), (1, 20), (1, 21), (2, 3), (2, 4), (2, 5), (2, 6), (2, 7), (2, 8), (2, 9), (2, 10), (2, 11), (2, 12), (2, 13), (2, 14), (2, 15), (2, 16), (2, 17), (2, 18), (2, 19), (2, 20), (2, 21)] = ((⟨1, 1⟩ : Sim), some (0, 1)) := by
    with_unfolding_all decide
  have e2 : List.foldl (scanF c4s5) ((⟨1, 1⟩ : Sim), some (0, 1))
      [(3, 4), (3, 5), (3, 6), (3, 7), (3, 8), (3, 9), (3, 10), (3, 11), (3, 12), (3, 13), (3, 14), (3, 15), (3, 16), (3, 17), (3, 18), (3, 19), (3, 20), (3, 21), (4, 5), (4, 6), (4, 7), (4, 8), (4, 9), (4, 10), (4, 11), (4, 12), (4, 13), (4, 14), (4, 15), (4, 16)] = ((⟨1, 1⟩ : Sim), some (0, 1)) := by
    with_unfolding_all decide
  have e3 : List.foldl (scanF c4s5) ((⟨1, 1⟩ : Sim), some (0, 1))
      [(4, 17), (4, 18), (4, 19), (4, 20), (4, 21), (5, 6), (5, 7), (5, 8), (5, 9), (5, 10), (5, 11), (5, 12), (5, 13), (5, 14), (5, 15), (5, 16), (5, 17), (5, 18), (5, 19), (5, 20), (5, 21), (6, 7), (6, 8), (6, 9), (6, 10), (6, 11), (6, 12), (6, 13), (6, 14), (6, 15)] = ((⟨1, 1⟩ : Sim), some (0, 1)) := by
    with_unfolding_all decide
  have e4 : List.foldl (scanF c4s5) ((⟨1, 1⟩ : Sim), some (0, 1))
      [(6, 16), (6, 17), (6, 18), (6, 19), (6, 20), (6, 21), (7, 8), (7, 9), (7, 10), (7, 11), (7, 12), (7, 13), (7, 14), (7, 15), (7, 16), (7, 17), (7, 18), (7, 19), (7, 20), (7, 21), (8, 9), (8, 10), (8, 11), (8, 12), (8, 13), (8, 14), (8, 15), (8, 16), (8, 17), (8, 18)] = ((⟨1, 1⟩ : Sim), some (0, 1)) := by
    with_unfolding_all decide
  have e5 : List.foldl (scanF c4s5) ((⟨1, 1⟩ : Sim), some (0, 1))
      [(8, 19), (8, 20), (8, 21), (9, 10), (9, 11), (9, 12), (9, 13), (9, 14), (9, 15), (9, 16), (9, 17), (9, 18), (9, 19), (9, 20), (9, 21), (10, 11), (10, 12), (10, 13), (10, 14), (10, 15), (10, 16), (10, 17), (10, 18), (10, 19), (10, 20), (10, 21), (11, 12), (11, 13), (11, 14), (11, 15)] = ((⟨1, 1⟩ : Sim), some (0, 1)) := by
    with_unfolding_all decide
  have e6 : List.foldl (scanF c4s5) ((⟨1, 1⟩ : Sim), some (0, 1))
      [(11, 16), (11, 17), (11, 18), (11, 19), (11, 20), (11, 21), (12, 13), (12, 14), (12, 15), (12, 16), (12, 17), (12, 18), (12, 19), (12, 20), (12, 21), (13, 14), (13, 15), (13, 16), (13, 17), (13, 18), (13, 19), (13, 20), (13, 21), (14, 15), (14, 16), (14, 17), (14, 18), (14, 19), (14, 20), (14, 21)] = ((⟨1, 1⟩ : Sim), some (0, 1)) := by
    with_unfolding_all decide
  have e7 : List.foldl (scanF c4s5) ((⟨1, 1⟩ : Sim), some (0, 1))
      [(15, 16), (15, 17), (15, 18), (15, 19), (15, 20), (15, 21), (16, 17), (16, 18), (16, 19), (16, 20), (16, 21), (17, 18), (17, 19), (17, 20), (17, 21), (18, 19), (18, 20), (18, 21), (19, 20), (19, 21), (20, 21)] = ((⟨1, 1⟩ : Sim), some (0, 1)) := by
    with_unfolding_all decide
  have hl : c4s5.length = 22 := by decide
  have hp : allPairs 22 = [(0, 1), (0, 2), (0, 3), (0, 4), (0, 5), (0, 6), (0, 7), (0, 8), (0, 9), (0, 10), (0, 11), (0, 12), (0, 13), (0, 14), (0, 15), (0, 16), (0, 17), (0, 18), (0, 19), (0, 20), (0, 21), (1, 2), (1, 3), (1, 4), (1, 5), (1, 6), (1, 7), (1, 8), (1, 9), (1, 10)] ++ [(1, 11), (1, 12), (1, 13), (1, 14), (1, 15), (1, 16), (1, 17), (1, 18), (1, 19), (1, 20), (1, 21), (2, 3), (2, 4), (2, 5), (2, 6), (2, 7), (2, 8), (2, 9), (2, 10), (2, 11), (2, 12), (2, 13), (2, 14), (2, 15), (2, 16), (2, 17), (2, 18), (2, 19), (2, 20), (2, 21)] ++ [(3, 4), (3, 5), (3, 6), (3, 7), (3, 8), (3, 9), (3, 10), (3, 11), (3, 12), (3, 13), (3, 14), (3, 15), (3, 16), (3, 17), (3, 18), (3, 19), (3, 20), (3, 21), (4, 5), (4, 6), (4, 7), (4, 8), (4, 9), (4, 10), (4, 11), (4, 12), (4, 13), (4, 14), (4, 15), (4, 16)] ++ [(4, 17), (4, 18), (4, 19), (4, 20), (4, 21), (5, 6), (5, 7), (5, 8), (5, 9), (5, 10), (5, 11), (5, 12), (5, 13), (5, 14), (5, 15), (5, 16), (5, 17), (5, 18), (5, 19), (5, 20), (5, 21), (6, 7), (6, 8), (6, 9), (6, 10), (6, 11), (6, 12), (6, 13), (6, 14), (6, 15)] ++ [(6, 16), (6, 17), (6, 18), (6, 19), (6, 20), (6, 21), (7, 8), (7, 9), (7, 10), (7, 11), (7, 12), (7, 13), (7, 14), (7, 15), (7, 16), (7, 17), (7, 18), (7, 19), (7, 20), (7, 21), (8, 9), (8, 10), (8, 11), (8, 12), (8, 13), (8, 14), (8, 15), (8, 16), (8, 17), (8, 18)] ++ [(8, 19), (8, 20), (8, 21), (9, 10), (9, 11), (9, 12), (9, 13), (9, 14), (9, 15), (9, 16), (9, 17), (9, 18), (9, 19), (9, 20), (9, 21), (10, 11), (10, 12), (10, 13), (10, 14), (10, 15), (10, 16), (10, 17), (10, 18), (10, 19), (10, 20), (10, 21), (11, 12), (11, 13), (11, 14), (11, 15)] ++ [(11, 16), (11, 17), (11, 18), (11, 19), (11, 20), (11, 21), (12, 13), (12, 14), (12, 15), (12, 16), (12, 17), (12, 18), (12, 19), (12, 20), (12, 21), (13, 14), (13, 15), (13, 16), (13, 17), (13, 18), (13, 19), (13, 20), (13, 21), (14, 15), (14, 16), (14, 17), (14, 18), (14, 19), (14, 20), (14, 21)] ++ [(15, 16), (15, 17), (15, 18), (15, 19), (15, 20), (15, 21), (16, 17), (16, 18), (16, 19), (16, 20), (16, 21), (17, 18), (17, 19), (17, 20), (17, 21), (18, 19), (18, 20), (18, 21), (19, 20), (19, 21), (20, 21)] := by
    with_unfolding_all decide
  show (List.foldl (scanF c4s5) ((⟨0, 1⟩ : Sim), (none : Option (Nat × Nat)))
      (allPairs c4s5.length)).2 = some (0, 1)
  rw [hl, hp]
  simp only [List.foldl_append, e0, e1, e2, e3, e4, e5, e6, e7]

/-- The best-pair scan at state 6 of the C4 trace. -/
lemma c4scan6 : scanPairs c4s6 = some (0, 1) := by
  have e0 : List.foldl (scanF c4s6) ((⟨0, 1⟩ : Sim), (none : Option (Nat × Nat)))
      [(0, 1), (0, 2), (0, 3), (0, 4), (0, 5), (0, 6), (0, 7), (0, 8), (0, 9), (0, 10), (0, 11), (0, 12), (0, 13), (0, 14), (0, 15), (0, 16), (0, 17), (0, 18), (0, 19), (0, 20), (1, 2), (1, 3), (1, 4), (1, 5), (1, 6), (1, 7), (1, 8), (1, 9), (1, 10), (1, 11)] = ((⟨1, 1⟩ : Sim), some (0, 1)) := by
    with_unfolding_all decide
  have e1 : List.foldl (scanF c4s6) ((⟨1, 1⟩ : Sim), some (0, 1))
      [(1, 12), (1, 13), (1, 14), (1, 15), (1, 16), (1, 17), (1, 18), (1, 19), (1, 20), (2, 3), (2, 4), (2, 5), (2, 6), (2, 7), (2, 8), (2, 9), (2, 10), (2, 11), (2, 12), (2, 13), (2, 14), (2, 15), (2, 16), (2, 17), (2, 18), (2, 19), (2, 20), (3, 4), (3, 5), (3, 6)] = ((⟨1, 1⟩ : Sim), some (0, 1)) := by
    with_unfolding_all decide
  have e2 : List.foldl (scanF c4s6) ((⟨1, 1⟩ : Sim), some (0, 1))
      [(3, 7), (3, 8), (3, 9), (3, 10), (3, 11), (3, 12), (3, 13), (3, 14), (3, 15), (3, 16), (3, 17), (3, 18), (3, 19), (3, 20), (4, 5), (4, 6), (4, 7), (4, 8), (4, 9), (4, 10), (4, 11), (4, 12), (4, 13), (4, 14), (4, 15), (4, 16), (4, 17), (4, 18), (4, 19), (4, 20)] = ((⟨1, 1⟩ : Sim), some (0, 1)) := by
    with_unfolding_all decide
  have e3 : List.foldl (scanF c4s6) ((⟨1, 1⟩ : Sim), some (0, 1))
      [(5, 6), (5, 7), (5, 8), (5, 9), (5, 10), (5, 11), (5, 12), (5, 13), (5, 14), (5, 15), (5, 16), (5, 17), (5, 18), (5, 19), (5, 20), (6, 7), (6, 8), (6, 9), (6, 10), (6, 11), (6, 12), (6, 13), (6, 14), (6, 15), (6, 16), (6, 17), (6, 18), (6, 19), (6, 20), (7, 8)] = ((⟨1, 1⟩ : Sim), some (0, 1)) := by
    with_unfolding_all decide
  have e4 : List.foldl (scanF c4s6) ((⟨1, 1⟩ : Sim), some (0, 1))
      [(7, 9), (7, 10), (7, 11), (7, 12), (7, 13), (7, 14), (7, 15), (7, 16), (7, 17), (7, 18), (7, 19), (7, 20), (8, 9), (8, 10), (8, 11), (8, 12), (8, 13), (8, 14), (8, 15), (8, 16), (8, 17), (8, 18), (8, 19), (8, 20), (9, 10), (9, 11), (9, 12), (9, 13), (9, 14), (9, 15)] = ((⟨1, 1⟩ : Sim), some (0, 1)) := by
    with_unfolding_all decide
  have e5 : List.foldl (scanF c4s6) ((⟨1, 1⟩ : Sim), some (0, 1))
      [(9, 16), (9, 17), (9, 18), (9, 19), (9, 20), (10, 11), (10, 12), (10, 13), (10, 14), (10, 15), (10, 16), (10, 17), (10, 18), (10, 19), (10, 20), (11, 12), (11, 13), (11, 14), (11, 15), (11, 16), (11, 17), (11, 18), (11, 19), (11, 20), (12, 13), (12, 14), (12, 15), (12, 16), (12, 17), (12, 18)] = ((⟨1, 1⟩ : Sim), some (0, 1)) := by
    with_unfolding_all decide
  have e6 : List.foldl (scanF c4s6) ((⟨1, 1⟩ : Sim), some (0, 1))
      [(12, 19), (12, 20), (13, 14), (13, 15), (13, 16), (13, 17), (13, 18), (13, 19), (13, 20), (14, 15), (14, 16), (14, 17), (14, 18), (14, 19), (14, 20), (15, 16), (15, 17), (15, 18), (15, 19), (15, 20), (16, 17), (16, 18), (16, 19), (16, 20), (17, 18), (17, 19), (17, 20), (18, 19), (18, 20), (19, 20)] = ((⟨1, 1⟩ : Sim), some (0, 1)) := by
    with_unfolding_all decide
  have hl : c4s6.length = 21 := by decide
  have hp : allPairs 21 = [(0, 1), (0, 2), (0, 3), (0, 4), (0, 5), (0, 6), (0, 7), (0, 8), (0, 9), (0, 10), (0, 11), (0, 12), (0, 13), (0, 14), (0, 15), (0, 16), (0, 17), (0, 18), (0, 19), (0, 20), (1, 2), (1, 3), (1, 4), (1, 5), (1, 6), (1, 7), (1, 8), (1, 9), (1, 10), (1, 11)] ++ [(1, 12), (1, 13), (1, 14), (1, 15), (1, 16), (1, 17), (1, 18), (1, 19), (1, 20), (2, 3), (2, 4), (2, 5), (2, 6), (2, 7), (2, 8), (2, 9), (2, 10), (2, 11), (2, 12), (2, 13), (2, 14), (2, 15), (2, 16), (2, 17), (2, 18), (2, 19), (2, 20), (3, 4), (3, 5), (3, 6)] ++ [(3, 7), (3, 8), (3, 9), (3, 10), (3, 11), (3, 12), (3, 13), (3, 14), (3, 15), (3, 16), (3, 17), (3, 18), (3, 19), (3, 20), (4, 5), (4, 6), (4, 7), (4, 8), (4, 9), (4, 10), (4, 11), (4, 12), (4, 13), (4, 14), (4, 15), (4, 16), (4, 17), (4, 18), (4, 19), (4, 20)] ++ [(5, 6), (5, 7), (5, 8), (5, 9), (5, 10), (5, 11), (5, 12), (5, 13), (5, 14), (5, 15), (5, 16), (5, 17), (5, 18), (5, 19), (5, 20), (6, 7), (6, 8), (6, 9), (6, 10), (6, 11), (6, 12), (6, 13), (6, 14), (6, 15), (6, 16), (6, 17), (6, 18), (6, 19), (6, 20), (7, 8)] ++ [(7, 9), (7, 10), (7, 11), (7, 12), (7, 13), (7, 14), (7, 15), (7, 16), (7, 17), (7, 18), (7, 19), (7, 20), (8, 9), (8, 10), (8, 11), (8, 12), (8, 13), (8, 14), (8, 15), (8, 16), (8, 17), (8, 18), (8, 19), (8, 20), (9, 10), (9, 11), (9, 12), (9, 13), (9, 14), (9, 15)] ++ [(9, 16), (9, 17), (9, 18), (9, 19), (9, 20), (10, 11), (10, 12), (10, 13), (10, 14), (10, 15), (10, 16), (10, 17), (10, 18), (10, 19), (10, 20), (11, 12), (11, 13), (11, 14), (11, 15), (11, 16), (11, 17), (11, 18), (11, 19), (11, 20), (12, 13), (12, 14), (12, 15), (12, 16), (12, 17), (12, 18)] ++ [(12, 19), (12, 20), (13, 14), (13, 15), (13, 16), (13, 17), (13, 18), (13, 19), (13, 20), (14, 15), (14, 16), (14, 17), (14, 18), (14, 19), (14, 20), (15, 16), (15, 17), (15, 18), (15, 19), (15, 20), (16, 17), (16, 18), (16, 19), (16, 20), (17, 18), (17, 19), (17, 20), (18, 19), (18, 20), (19, 20)] := by
    with_unfolding_all decide
  show (List.foldl (scanF c4s6) ((⟨0, 1⟩ : Sim), (none : Option (Nat × Nat)))
      (allPairs c4s6.length)).2 = some (0, 1)
  rw [hl, hp]
  simp only [List.foldl_append, e0, e1, e2, e3, e4, e5, e6]

/-- The best-pair scan at state 7 of the C4 trace. -/
lemma c4scan7 : scanPairs c4s7 = some (0, 1) := by
  have e0 : List.foldl (scanF c4s7) ((⟨0, 1⟩ : Sim), (none : Option (Nat × Nat)))
      [(0, 1), (0, 2), (0, 3), (0, 4), (0, 5), (0, 6), (0, 7), (0, 8), (0, 9), (0, 10), (0, 11), (0, 12), (0, 13), (0, 14), (0, 15), (0, 16), (0, 17), (0, 18), (0, 19), (1, 2), (1, 3), (1, 4), (1, 5), (1, 6), (1, 7), (1, 8), (1, 9), (1, 10), (1, 11), (1, 12)] = ((⟨1, 1⟩ : Sim), some (0, 1)) := by
    with_unfolding_all decide
  have e1 : List.foldl (scanF c4s7) ((⟨1, 1⟩ : Sim), some (0, 1))
      [(1, 13), (1, 14), (1, 15), (1, 16), (1, 17), (1, 18), (1, 19), (2, 3), (2, 4), (2, 5), (2, 6), (2, 7), (2, 8), (2, 9), (2, 10), (2, 11), (2, 12), (2, 13), (2, 14), (2, 15), (2, 16), (2, 17), (2, 18), (2, 19), (3, 4), (3, 5), (3, 6), (3, 7), (3, 8), (3, 9)] = ((⟨1, 1⟩ : Sim), some (0, 1)) := by
    with_unfolding_all decide
  have e2 : List.foldl (scanF c4s7) ((⟨1, 1⟩ : Sim), some (0, 1))
      [(3, 10), (3, 11), (3, 12), (3, 13), (3, 14), (3, 15), (3, 16), (3, 17), (3, 18), (3, 19), (4, 5), (4, 6), (4, 7), (4, 8), (4, 9), (4, 10), (4, 11), (4, 12), (4, 13), (4, 14), (4, 15), (4, 16), (4, 17), (4, 18), (4, 19), (5, 6), (5, 7), (5, 8), (5, 9), (5, 10)] = ((⟨1, 1⟩ : Sim), some (0, 1)) := by
    with_unfolding_all decide
  have e3 : List.foldl (scanF c4s7) ((⟨1, 1⟩ : Sim), some (0, 1))
      [(5, 11), (5, 12), (5, 13), (5, 14), (5, 15), (5, 16), (5, 17), (5, 18), (5, 19), (6, 7), (6, 8), (6, 9), (6, 10), (6, 11), (6, 12), (6, 13), (6, 14), (6, 15), (6, 16), (6, 17), (6, 18), (6, 19), (7, 8), (7, 9), (7, 10), (7, 11), (7, 12), (7, 13), (7, 14), (7, 15)] = ((⟨1, 1⟩ : Sim), some (0, 1)) := by
    with_unfolding_all decide
  have e4 : List.foldl (scanF c4s7) ((⟨1, 1⟩ : Sim), some (0, 1))
      [(7, 16), (7, 17), (7, 18), (7, 19), (8, 9), (8, 10), (8, 11), (8, 12), (8, 13), (8, 14), (8, 15), (8, 16), (8, 17), (8, 18), (8, 19), (9, 10), (9, 11), (9, 12), (9, 13), (9, 14), (9, 15), (9, 16), (9, 17), (9, 18), (9, 19), (10, 11), (10, 12), (10, 13), (10, 14), (10, 15)] = ((⟨1, 1⟩ : Sim), some (0, 1)) := by
    with_unfolding_all decide
  have e5 : List.foldl (scanF c4s7) ((⟨1, 1⟩ : Sim), some (0, 1))
      [(10, 16), (10, 17), (10, 18), (10, 19), (11, 12), (11, 13), (11, 14), (11, 15), (11, 16), (11, 17), (11, 18), (11, 19), (12, 13), (12, 14), (12, 15), (12, 16), (12, 17), (12, 18), (12, 19), (13, 14), (13, 15), (13, 16), (13, 17), (13, 18), (13, 19), (14, 15), (14, 16), (14, 17), (14, 18), (14, 19)] = ((⟨1, 1⟩ : Sim), some (0, 1)) := by
    with_unfolding_all decide
  have e6 : List.foldl (scanF c4s7) ((⟨1, 1⟩ : Sim), some (0, 1))
      [(15, 16), (15, 17), (15, 18), (15, 19), (16, 17), (16, 18), (16, 19), (17, 18), (17, 19), (18, 19)] = ((⟨1, 1⟩ : Sim), some (0, 1)) := by
    with_unfolding_all decide
  have hl : c4s7.length = 20 := by decide
  have hp : allPairs 20 = [(0, 1), (0, 2), (0, 3), (0, 4), (0, 5), (0, 6), (0, 7), (0, 8), (0, 9), (0, 10), (0, 11), (0, 12), (0, 13), (0, 14), (0, 15), (0, 16), (0, 17), (0, 18), (0, 19), (1, 2), (1, 3), (1, 4), (1, 5), (1, 6), (1, 7), (1, 8), (1, 9), (1, 10), (1, 11), (1, 12)] ++ [(1, 13), (1, 14), (1, 15), (1, 16), (1, 17), (1, 18), (1, 19), (2, 3), (2, 4), (2, 5), (2, 6), (2, 7), (2, 8), (2, 9), (2, 10), (2, 11), (2, 12), (2, 13), (2, 14), (2, 15), (2, 16), (2, 17), (2, 18), (2, 19), (3, 4), (3, 5), (3, 6), (3, 7), (3, 8), (3, 9)] ++ [(3, 10), (3, 11), (3, 12), (3, 13), (3, 14), (3, 15), (3, 16), (3, 17), (3, 18), (3, 19), (4, 5), (4, 6), (4, 7), (4, 8), (4, 9), (4, 10), (4, 11), (4, 12), (4, 13), (4, 14), (4, 15), (4, 16), (4, 17), (4, 18), (4, 19), (5, 6), (5, 7), (5, 8), (5, 9), (5, 10)] ++ [(5, 11), (5, 12), (5, 13), (5, 14), (5, 15), (5, 16), (5, 17), (5, 18), (5, 19), (6, 7), (6, 8), (6, 9), (6, 10), (6, 11), (6, 12), (6, 13), (6, 14), (6, 15), (6, 16), (6, 17), (6, 18), (6, 19), (7, 8), (7, 9), (7, 10), (7, 11), (7, 12), (7, 13), (7, 14), (7, 15)] ++ [(7, 16), (7, 17), (7, 18), (7, 19), (8, 9), (8, 10), (8, 11), (8, 12), (8, 13), (8, 14), (8, 15), (8, 16), (8, 17), (8, 18), (8, 19), (9, 10), (9, 11), (9, 12), (9, 13), (9, 14), (9, 15), (9, 16), (9, 17), (9, 18), (9, 19), (10, 11), (10, 12), (10, 13), (10, 14), (10, 15)] ++ [(10, 16), (10, 17), (10, 18), (10, 19), (11, 12), (11, 13), (11, 14), (11, 15), (11, 16), (11, 17), (11, 18), (11, 19), (12, 13), (12, 14), (12, 15), (12, 16), (12, 17), (12, 18), (12, 19), (13, 14), (13, 15), (13, 16), (13, 17), (13, 18), (13, 19), (14, 15), (14, 16), (14, 17), (14, 18), (14, 19)] ++ [(15, 16), (15, 17), (15, 18), (15, 19), (16, 17), (16, 18), (16, 19), (17, 18), (17, 19), (18, 19)] := by
    with_unfolding_all decide
  show (List.foldl (scanF c4s7) ((⟨0, 1⟩ : Sim), (none : Option (Nat × Nat)))
      (allPairs c4s7.length)).2 = some (0, 1)
  rw [hl, hp]
  simp only [List.foldl_append, e0, e1, e2, e3, e4, e5, e6]

/-- The best-pair scan at state 8 of the C4 trace. -/
lemma c4scan8 : scanPairs c4s8 = some (0, 1) := by
  have e0 : List.foldl (scanF c4s8) ((⟨0, 1⟩ : Sim), (none : Option (Nat × Nat)))
      [(0, 1), (0, 2), (0, 3), (0, 4), (0, 5), (0, 6), (0, 7), (0, 8), (0, 9), (0, 10), (0, 11), (0, 12), (0, 13), (0, 14), (0, 15), (0, 16), (0, 17), (0, 18), (1, 2), (1, 3), (1, 4), (1, 5), (1, 6), (1, 7), (1, 8), (1, 9), (1, 10), (1, 11), (1, 12), (1, 13)] = ((⟨1, 1⟩ : Sim), some (0, 1)) := by
    with_unfolding_all decide
  have e1 : List.foldl (scanF c4s8) ((⟨1, 1⟩ : Sim), some (0, 1))
      [(1, 14), (1, 15), (1, 16), (1, 17), (1, 18), (2, 3), (2, 4), (2, 5), (2, 6), (2, 7), (2, 8), (2, 9), (2, 10), (2, 11), (2, 12), (2, 13), (2, 14), (2, 15), (2, 16), (2, 17), (2, 18), (3, 4), (3, 5), (3, 6), (3, 7), (3, 8), (3, 9), (3, 10), (3, 11), (3, 12)] = ((⟨1, 1⟩ : Sim), some (0, 1)) := by
    with_unfolding_all decide
  have e2 : List.foldl (scanF c4s8) ((⟨1, 1⟩ : Sim), some (0, 1))
      [(3, 13), (3, 14), (3, 15), (3, 16), (3, 17), (3, 18), (4, 5), (4, 6), (4, 7), (4, 8), (4, 9), (4, 10), (4, 11), (4, 12), (4, 13), (4, 14), (4, 15), (4, 16), (4, 17), (4, 18), (5, 6), (5, 7), (5, 8), (5, 9), (5, 10), (5, 11), (5, 12), (5, 13), (5, 14), (5, 15)] = ((⟨1, 1⟩ : Sim), some (0, 1)) := by
    with_unfolding_all decide
  have e3 : List.foldl (scanF c4s8) ((⟨1, 1⟩ : Sim), some (0, 1))
      [(5, 16), (5, 17), (5, 18), (6, 7), (6, 8), (6, 9), (6, 10), (6, 11), (6, 12), (6, 13), (6, 14), (6, 15), (6, 16), (6, 17), (6, 18), (7, 8), (7, 9), (7, 10), (7, 11), (7, 12), (7, 13), (7, 14), (7, 15), (7, 16), (7, 17), (7, 18), (8, 9), (8, 10), (8, 11), (8, 12)] = ((⟨1, 1⟩ : Sim), some (0, 1)) := by
    with_unfolding_all decide
  have e4 : List.foldl (scanF c4s8) ((⟨1, 1⟩ : Sim), some (0, 1))
      [(8, 13), (8, 14), (8, 15), (8, 16), (8, 17), (8, 18), (9, 10), (9, 11), (9, 12), (9, 13), (9, 14), (9, 15), (9, 16), (9, 17), (9, 18), (10, 11), (10, 12), (10, 13), (10, 14), (10, 15), (10, 16), (10, 17), (10, 18), (11, 12), (11, 13), (11, 14), (11, 15), (11, 16), (11, 17), (11, 18)] = ((⟨1, 1⟩ : Sim), some (0, 1)) := by
    with_unfolding_all decide
  have e5 : List.foldl (scanF c4s8) ((⟨1, 1⟩ : Sim), some (0, 1))
      [(12, 13), (12, 14), (12, 15), (12, 16), (12, 17), (12, 18), (13, 14), (13, 15), (13, 16), (13, 17), (13, 18), (14, 15), (14, 16), (14, 17), (14, 18), (15, 16), (15, 17), (15, 18), (16, 17), (16, 18), (17, 18)] = ((⟨1, 1⟩ : Sim), some (0, 1)) := by
    with_unfolding_all decide
  have hl : c4s8.length = 19 := by decide
  have hp : allPairs 19 = [(0, 1), (0, 2), (0, 3), (0, 4), (0, 5), (0, 6), (0, 7), (0, 8), (0, 9), (0, 10), (0, 11), (0, 12), (0, 13), (0, 14), (0, 15), (0, 16), (0, 17), (0, 18), (1, 2), (1, 3), (1, 4), (1, 5), (1, 6), (1, 7), (1, 8), (1, 9), (1, 10), (1, 11), (1, 12), (1, 13)] ++ [(1, 14), (1, 15), (1, 16), (1, 17), (1, 18), (2, 3), (2, 4), (2, 5), (2, 6), (2, 7), (2, 8), (2, 9), (2, 10), (2, 11), (2, 12), (2, 13), (2, 14), (2, 15), (2, 16), (2, 17), (2, 18), (3, 4), (3, 5), (3, 6), (3, 7), (3, 8), (3, 9), (3, 10), (3, 11), (3, 12)] ++ [(3, 13), (3, 14), (3, 15), (3, 16), (3, 17), (3, 18), (4, 5), (4, 6), (4, 7), (4, 8), (4, 9), (4, 10), (4, 11), (4, 12), (4, 13), (4, 14), (4, 15), (4, 16), (4, 17), (4, 18), (5, 6), (5, 7), (5, 8), (5, 9), (5, 10), (5, 11), (5, 12), (5, 13), (5, 14), (5, 15)] ++ [(5, 16), (5, 17), (5, 18), (6, 7), (6, 8), (6, 9), (6, 10), (6, 11), (6, 12), (6, 13), (6, 14), (6, 15), (6, 16), (6, 17), (6, 18), (7, 8), (7, 9), (7, 10), (7, 11), (7, 12), (7, 13), (7, 14), (7, 15), (7, 16), (7, 17), (7, 18), (8, 9), (8, 10), (8, 11), (8, 12)] ++ [(8, 13), (8, 14), (8, 15), (8, 16), (8, 17), (8, 18), (9, 10), (9, 11), (9, 12), (9, 13), (9, 14), (9, 15), (9, 16), (9, 17), (9, 18), (10, 11), (10, 12), (10, 13), (10, 14), (10, 15), (10, 16), (10, 17), (10, 18), (11, 12), (11, 13), (11, 14), (11, 15), (11, 16), (11, 17), (11, 18)] ++ [(12, 13), (12, 14), (12, 15), (12, 16), (12, 17), (12, 18), (13, 14), (13, 15), (13, 16), (13, 17), (13, 18), (14, 15), (14, 16), (14, 17), (14, 18), (15, 16), (15, 17), (15, 18), (16, 17), (16, 18), (17, 18)] := by
    with_unfolding_all decide
  show (List.foldl (scanF c4s8) ((⟨0, 1⟩ : Sim), (none : Option (Nat × Nat)))
      (allPairs c4s8.length)).2 = some (0, 1)
  rw [hl, hp]
  simp only [List.foldl_append, e0, e1, e2, e3, e4, e5]

/-- The best-pair scan at state 9 of the C4 trace. -/
lemma c4scan9 : scanPairs c4s9 = some (0, 1) := by
  have e0 : List.foldl (scanF c4s9) ((⟨0, 1⟩ : Sim), (none : Option (Nat × Nat)))
      [(0, 1), (0, 2), (0, 3), (0, 4), (0, 5), (0, 6), (0, 7), (0, 8), (0, 9), (0, 10), (0, 11), (0, 12), (0, 13), (0, 14), (0, 15), (0, 16), (0, 17), (1, 2), (1, 3), (1, 4), (1, 5), (1, 6), (1, 7), (1, 8), (1, 9), (1, 10), (1, 11), (1, 12), (1, 13), (1, 14)] = ((⟨1, 1⟩ : Sim), some (0, 1)) := by
    with_unfolding_all decide
  have e1 : List.foldl (scanF c4s9) ((⟨1, 1⟩ : Sim), some (0, 1))
      [(1, 15), (1, 16), (1, 17), (2, 3), (2, 4), (2, 5), (2, 6), (2, 7), (2, 8), (2, 9), (2, 10), (2, 11), (2, 12), (2, 13), (2, 14), (2, 15), (2, 16), (2, 17), (3, 4), (3, 5), (3, 6), (3, 7), (3, 8), (3, 9), (3, 10), (3, 11), (3, 12), (3, 13), (3, 14), (3, 15)] = ((⟨1, 1⟩ : Sim), some (0, 1)) := by
    with_unfolding_all decide
  have e2 : List.foldl (scanF c4s9) ((⟨1, 1⟩ : Sim), some (0, 1))
      [(3, 16), (3, 17), (4, 5), (4, 6), (4, 7), (4, 8), (4, 9), (4, 10), (4, 11), (4, 12), (4, 13), (4, 14), (4, 15), (4, 16), (4, 17), (5, 6), (5, 7), (5, 8), (5, 9), (5, 10), (5, 11), (5, 12), (5, 13), (5, 14), (5, 15), (5, 16), (5, 17), (6, 7), (6, 8), (6, 9)] = ((⟨1, 1⟩ : Sim), some (0, 1)) := by
    with_unfolding_all decide
  have e3 : List.foldl (scanF c4s9) ((⟨1, 1⟩ : Sim), some (0, 1))
      [(6, 10), (6, 11), (6, 12), (6, 13), (6, 14), (6, 15), (6, 16), (6, 17), (7, 8), (7, 9), (7, 10), (7, 11), (7, 12), (7, 13), (7, 14), (7, 15), (7, 16), (7, 17), (8, 9), (8, 10), (8, 11), (8, 12), (8, 13), (8, 14), (8, 15), (8, 16), (8, 17), (9, 10), (9, 11), (9, 12)] = ((⟨1, 1⟩ : Sim), some (0, 1)) := by
    with_unfolding_all decide
  have e4 : List.foldl (scanF c4s9) ((⟨1, 1⟩ : Sim), some (0, 1))
      [(9, 13), (9, 14), (9, 15), (9, 16), (9, 17), (10, 11), (10, 12), (10, 13), (10, 14), (10, 15), (10, 16), (10, 17), (11, 12), (11, 13), (11, 14), (11, 15), (11, 16), (11, 17), (12, 13), (12, 14), (12, 15), (12, 16), (12, 17), (13, 14), (13, 15), (13, 16), (13, 17), (14, 15), (14, 16), (14, 17)] = ((⟨1, 1⟩ : Sim), some (0, 1)) := by
    with_unfolding_all decide
  have e5 : List.foldl (scanF c4s9) ((⟨1, 1⟩ : Sim), some (0, 1))
      [(15, 16), (15, 17), (16, 17)] = ((⟨1, 1⟩ : Sim), some (0, 1)) := by
    with_unfolding_all decide
  have hl : c4s9.length = 18 := by decide
  have hp : allPairs 18 = [(0, 1), (0, 2), (0, 3), (0, 4), (0, 5), (0, 6), (0, 7), (0, 8), (0, 9), (0, 10), (0, 11), (0, 12), (0, 13), (0, 14), (0, 15), (0, 16), (0, 17), (1, 2), (1, 3), (1, 4), (1, 5), (1, 6), (1, 7), (1, 8), (1, 9), (1, 10), (1, 11), (1, 12), (1, 13), (1, 14)] ++ [(1, 15), (1, 16), (1, 17), (2, 3), (2, 4), (2, 5), (2, 6), (2, 7), (2, 8), (2, 9), (2, 10), (2, 11), (2, 12), (2, 13), (2, 14), (2, 15), (2, 16), (2, 17), (3, 4), (3, 5), (3, 6), (3, 7), (3, 8), (3, 9), (3, 10), (3, 11), (3, 12), (3, 13), (3, 14), (3, 15)] ++ [(3, 16), (3, 17), (4, 5), (4, 6), (4, 7), (4, 8), (4, 9), (4, 10), (4, 11), (4, 12), (4, 13), (4, 14), (4, 15), (4, 16), (4, 17), (5, 6), (5, 7), (5, 8), (5, 9), (5, 10), (5, 11), (5, 12), (5, 13), (5, 14), (5, 15), (5, 16), (5, 17), (6, 7), (6, 8), (6, 9)] ++ [(6, 10), (6, 11), (6, 12), (6, 13), (6, 14), (6, 15), (6, 16), (6, 17), (7, 8), (7, 9), (7, 10), (7, 11), (7, 12), (7, 13), (7, 14), (7, 15), (7, 16), (7, 17), (8, 9), (8, 10), (8, 11), (8, 12), (8, 13), (8, 14), (8, 15), (8, 16), (8, 17), (9, 10), (9, 11), (9, 12)] ++ [(9, 13), (9, 14), (9, 15), (9, 16), (9, 17), (10, 11), (10, 12), (10, 13), (10, 14), (10, 15), (10, 16), (10, 17), (11, 12), (11, 13), (11, 14), (11, 15), (11, 16), (11, 17), (12, 13), (12, 14), (12, 15), (12, 16), (12, 17), (13, 14), (13, 15), (13, 16), (13, 17), (14, 15), (14, 16), (14, 17)] ++ [(15, 16), (15, 17), (16, 17)] := by
    with_unfolding_all decide
  show (List.foldl (scanF c4s9) ((⟨0, 1⟩ : Sim), (none : Option (Nat × Nat)))
      (allPairs c4s9.length)).2 = some (0, 1)
  rw [hl, hp]
  simp only [List.foldl_append, e0, e1, e2, e3, e4, e5]

/-- The best-pair scan at state 10 of the C4 trace. -/
lemma c4scan10 : scanPairs c4s10 = some (0, 1) := by
  have e0 : List.foldl (scanF c4s10) ((⟨0, 1⟩ : Sim), (none : Option (Nat × Nat)))
      [(0, 1), (0, 2), (0, 3), (0, 4), (0, 5), (0, 6), (0, 7), (0, 8), (0, 9), (0, 10), (0, 11), (0, 12), (0, 13), (0, 14), (0, 15), (0, 16), (1, 2), (1, 3), (1, 4), (1, 5), (1, 6), (1, 7), (1, 8), (1, 9), (1, 10), (1, 11), (1, 12), (1, 13), (1, 14), (1, 15)] = ((⟨1, 1⟩ : Sim), some (0, 1)) := by
    with_unfolding_all decide
  have e1 : List.foldl (scanF c4s10) ((⟨1, 1⟩ : Sim), some (0, 1))
      [(1, 16), (2, 3), (2, 4), (2, 5), (2, 6), (2, 7), (2, 8), (2, 9), (2, 10), (2, 11), (2, 12), (2, 13), (2, 14), (2, 15), (2, 16), (3, 4), (3, 5), (3, 6), (3, 7), (3, 8), (3, 9), (3, 10), (3, 11), (3, 12), (3, 13), (3, 14), (3, 15), (3, 16), (4, 5), (4, 6)] = ((⟨1, 1⟩ : Sim), some (0, 1)) := by
    with_unfolding_all decide
  have e2 : List.foldl (scanF c4s10) ((⟨1, 1⟩ : Sim), some (0, 1))
      [(4, 7), (4, 8), (4, 9), (4, 10), (4, 11), (4, 12), (4, 13), (4, 14), (4, 15), (4, 16), (5, 6), (5, 7), (5, 8), (5, 9), (5, 10), (5, 11), (5, 12), (5, 13), (5, 14), (5, 15), (5, 16), (6, 7), (6, 8), (6, 9), (6, 10), (6, 11), (6, 12), (6, 13), (6, 14), (6, 15)] = ((⟨1, 1⟩ : Sim), some (0, 1)) := by
    with_unfolding_all decide
  have e3 : List.foldl (scanF c4s10) ((⟨1, 1⟩ : Sim), some (0, 1))
      [(6, 16), (7, 8), (7, 9), (7, 10), (7, 11), (7, 12), (7, 13), (7, 14), (7, 15), (7, 16), (8, 9), (8, 10), (8, 11), (8, 12), (8, 13), (8, 14), (8, 15), (8, 16), (9, 10), (9, 11), (9, 12), (9, 13), (9, 14), (9, 15), (9, 16), (10, 11), (10, 12), (10, 13), (10, 14), (10, 15)] = ((⟨1, 1⟩ : Sim), some (0, 1)) := by
    with_unfolding_all decide
  have e4 : List.foldl (scanF c4s10) ((⟨1, 1⟩ : Sim), some (0, 1))
      [(10, 16), (11, 12), (11, 13), (11, 14), (11, 15), (11, 16), (12, 13), (12, 14), (12, 15), (12, 16), (13, 14), (13, 15), (13, 16), (14, 15), (14, 16), (15, 16)] = ((⟨1, 1⟩ : Sim), some (0, 1)) := by
    with_unfolding_all decide
  have hl : c4s10.length = 17 := by decide
  have hp : allPairs 17 = [(0, 1), (0, 2), (0, 3), (0, 4), (0, 5), (0, 6), (0, 7), (0, 8), (0, 9), (0, 10), (0, 11), (0, 12), (0, 13), (0, 14), (0, 15), (0, 16), (1, 2), (1, 3), (1, 4), (1, 5), (1, 6), (1, 7), (1, 8), (1, 9), (1, 10), (1, 11), (1, 12), (1, 13), (1, 14), (1, 15)] ++ [(1, 16), (2, 3), (2, 4), (2, 5), (2, 6), (2, 7), (2, 8), (2, 9), (2, 10), (2, 11), (2, 12), (2, 13), (2, 14), (2, 15), (2, 16), (3, 4), (3, 5), (3, 6), (3, 7), (3, 8), (3, 9), (3, 10), (3, 11), (3, 12), (3, 13), (3, 14), (3, 15), (3, 16), (4, 5), (4, 6)] ++ [(4, 7), (4, 8), (4, 9), (4, 10), (4, 11), (4, 12), (4, 13), (4, 14), (4, 15), (4, 16), (5, 6), (5, 7), (5, 8), (5, 9), (5, 10), (5, 11), (5, 12), (5, 13), (5, 14), (5, 15), (5, 16), (6, 7), (6, 8), (6, 9), (6, 10), (6, 11), (6, 12), (6, 13), (6, 14), (6, 15)] ++ [(6, 16), (7, 8), (7, 9), (7, 10), (7, 11), (7, 12), (7, 13), (7, 14), (7, 15), (7, 16), (8, 9), (8, 10), (8, 11), (8, 12), (8, 13), (8, 14), (8, 15), (8, 16), (9, 10), (9, 11), (9, 12), (9, 13), (9, 14), (9, 15), (9, 16), (10, 11), (10, 12), (10, 13), (10, 14), (10, 15)] ++ [(10, 16), (11, 12), (11, 13), (11, 14), (11, 15), (11, 16), (12, 13), (12, 14), (12, 15), (12, 16), (13, 14), (13, 15), (13, 16), (14, 15), (14, 16), (15, 16)] := by
    with_unfolding_all decide
  show (List.foldl (scanF c4s10) ((⟨0, 1⟩ : Sim), (none : Option (Nat × Nat)))
      (allPairs c4s10.length)).2 = some (0, 1)
  rw [hl, hp]
  simp only [List.foldl_append, e0, e1, e2, e3, e4]

/-- The best-pair scan at state 11 of the C4 trace. -/
lemma c4scan11 : scanPairs c4s11 = some (0, 1) := by
  have e0 : List.foldl (scanF c4s11) ((⟨0, 1⟩ : Sim), (none : Option (Nat × Nat)))
      [(0, 1), (0, 2), (0, 3), (0, 4), (0, 5), (0, 6), (0, 7), (0, 8), (0, 9), (0, 10), (0, 11), (0, 12), (0, 13), (0, 14), (0, 15), (1, 2), (1, 3), (1, 4), (1, 5), (1, 6), (1, 7), (1, 8), (1, 9), (1, 10), (1, 11), (1, 12), (1, 13), (1, 14), (1, 15), (2, 3)] = ((⟨1, 1⟩ : Sim), some (0, 1)) := by
    with_unfolding_all decide
  have e1 : List.foldl (scanF c4s11) ((⟨1, 1⟩ : Sim), some (0, 1))
      [(2, 4), (2, 5), (2, 6), (2, 7), (2, 8), (2, 9), (2, 10), (2, 11), (2, 12), (2, 13), (2, 14), (2, 15), (3, 4), (3, 5), (3, 6), (3, 7), (3, 8), (3, 9), (3, 10), (3, 11), (3, 12), (3, 13), (3, 14), (3, 15), (4, 5), (4, 6), (4, 7), (4, 8), (4, 9), (4, 10)] = ((⟨1, 1⟩ : Sim), some (0, 1)) := by
    with_unfolding_all decide
  have e2 : List.foldl (scanF c4s11) ((⟨1, 1⟩ : Sim), some (0, 1))
      [(4, 11), (4, 12), (4, 13), (4, 14), (4, 15), (5, 6), (5, 7), (5, 8), (5, 9), (5, 10), (5, 11), (5, 12), (5, 13), (5, 14), (5, 15), (6, 7), (6, 8), (6, 9), (6, 10), (6, 11), (6, 12), (6, 13), (6, 14), (6, 15), (7, 8), (7, 9), (7, 10), (7, 11), (7, 12), (7, 13)] = ((⟨1, 1⟩ : Sim), some (0, 1)) := by
    with_unfolding_all decide
  have e3 : List.foldl (scanF c4s11) ((⟨1, 1⟩ : Sim), some (0, 1))
      [(7, 14), (7, 15), (8, 9), (8, 10), (8, 11), (8, 12), (8, 13), (8, 14), (8, 15), (9, 10), (9, 11), (9, 12), (9, 13), (9, 14), (9, 15), (10, 11), (10, 12), (10, 13), (10, 14), (10, 15), (11, 12), (11, 13), (11, 14), (11, 15), (12, 13), (12, 14), (12, 15), (13, 14), (13, 15), (14, 15)] = ((⟨1, 1⟩ : Sim), some (0, 1)) := by
    with_unfolding_all decide
  have hl : c4s11.length = 16 := by decide
  have hp : allPairs 16 = [(0, 1), (0, 2), (0, 3), (0, 4), (0, 5), (0, 6), (0, 7), (0, 8), (0, 9), (0, 10), (0, 11), (0, 12), (0, 13), (0, 14), (0, 15), (1, 2), (1, 3), (1, 4), (1, 5), (1, 6), (1, 7), (1, 8), (1, 9), (1, 10), (1, 11), (1, 12), (1, 13), (1, 14), (1, 15), (2, 3)] ++ [(2, 4), (2, 5), (2, 6), (2, 7), (2, 8), (2, 9), (2, 10), (2, 11), (2, 12), (2, 13), (2, 14), (2, 15), (3, 4), (3, 5), (3, 6), (3, 7), (3, 8), (3, 9), (3, 10), (3, 11), (3, 12), (3, 13), (3, 14), (3, 15), (4, 5), (4, 6), (4, 7), (4, 8), (4, 9), (4, 10)] ++ [(4, 11), (4, 12), (4, 13), (4, 14), (4, 15), (5, 6), (5, 7), (5, 8), (5, 9), (5, 10), (5, 11), (5, 12), (5, 13), (5, 14), (5, 15), (6, 7), (6, 8), (6, 9), (6, 10), (6, 11), (6, 12), (6, 13), (6, 14), (6, 15), (7, 8), (7, 9), (7, 10), (7, 11), (7, 12), (7, 13)] ++ [(7, 14), (7, 15), (8, 9), (8, 10), (8, 11), (8, 12), (8, 13), (8, 14), (8, 15), (9, 10), (9, 11), (9, 12), (9, 13), (9, 14), (9, 15), (10, 11), (10, 12), (10, 13), (10, 14), (10, 15), (11, 12), (11, 13), (11, 14), (11, 15), (12, 13), (12, 14), (12, 15), (13, 14), (13, 15), (14, 15)] := by
    with_unfolding_all decide
  show (List.foldl (scanF c4s11) ((⟨0, 1⟩ : Sim), (none : Option (Nat × Nat)))
      (allPairs c4s11.length)).2 = some (0, 1)
  rw [hl, hp]
  simp only [List.foldl_append, e0, e1, e2, e3]

/-- The best-pair scan at state 12 of the C4 trace. -/
lemma c4scan12 : scanPairs c4s12 = some (0, 1) := by
  have e0 : List.foldl (scanF c4s12) ((⟨0, 1⟩ : Sim), (none : Option (Nat × Nat)))
      [(0, 1), (0, 2), (0, 3), (0, 4), (0, 5), (0, 6), (0, 7), (0, 8), (0, 9), (0, 10), (0, 11), (0, 12), (0, 13), (0, 14), (1, 2), (1, 3), (1, 4), (1, 5), (1, 6), (1, 7), (1, 8), (1, 9), (1, 10), (1, 11), (1, 12), (1, 13), (1, 14), (2, 3), (2, 4), (2, 5)] = ((⟨1, 1⟩ : Sim), some (0, 1)) := by
    with_unfolding_all decide
  have e1 : List.foldl (scanF c4s12) ((⟨1, 1⟩ : Sim), some (0, 1))
      [(2, 6), (2, 7), (2, 8), (2, 9), (2, 10), (2, 11), (2, 12), (2, 13), (2, 14), (3, 4), (3, 5), (3, 6), (3, 7), (3, 8), (3, 9), (3, 10), (3, 11), (3, 12), (3, 13), (3, 14), (4, 5), (4, 6), (4, 7), (4, 8), (4, 9), (4, 10), (4, 11), (4, 12), (4, 13), (4, 14)] = ((⟨1, 1⟩ : Sim), some (0, 1)) := by
    with_unfolding_all decide
  have e2 : List.foldl (scanF c4s12) ((⟨1, 1⟩ : Sim), some (0, 1))
      [(5, 6), (5, 7), (5, 8), (5, 9), (5, 10), (5, 11), (5, 12), (5, 13), (5, 14), (6, 7), (6, 8), (6, 9), (6, 10), (6, 11), (6, 12), (6, 13), (6, 14), (7, 8), (7, 9), (7, 10), (7, 11), (7, 12), (7, 13), (7, 14), (8, 9), (8, 10), (8, 11), (8, 12), (8, 13), (8, 14)] = ((⟨1, 1⟩ : Sim), some (0, 1)) := by
    with_unfolding_all decide
  have e3 : List.foldl (scanF c4s12) ((⟨1, 1⟩ : Sim), some (0, 1))
      [(9, 10), (9, 11), (9, 12), (9, 13), (9, 14), (10, 11), (10, 12), (10, 13), (10, 14), (11, 12), (11, 13), (11, 14), (12, 13), (12, 14), (13, 14)] = ((⟨1, 1⟩ : Sim), some (0, 1)) := by
    with_unfolding_all decide
  have hl : c4s12.length = 15 := by decide
  have hp : allPairs 15 = [(0, 1), (0, 2), (0, 3), (0, 4), (0, 5), (0, 6), (0, 7), (0, 8), (0, 9), (0, 10), (0, 11), (0, 12), (0, 13), (0, 14), (1, 2), (1, 3), (1, 4), (1, 5), (1, 6), (1, 7), (1, 8), (1, 9), (1, 10), (1, 11), (1, 12), (1, 13), (1, 14), (2, 3), (2, 4), (2, 5)] ++ [(2, 6), (2, 7), (2, 8), (2, 9), (2, 10), (2, 11), (2, 12), (2, 13), (2, 14), (3, 4), (3, 5), (3, 6), (3, 7), (3, 8), (3, 9), (3, 10), (3, 11), (3, 12), (3, 13), (3, 14), (4, 5), (4, 6), (4, 7), (4, 8), (4, 9), (4, 10), (4, 11), (4, 12), (4, 13), (4, 14)] ++ [(5, 6), (5, 7), (5, 8), (5, 9), (5, 10), (5, 11), (5, 12), (5, 13), (5, 14), (6, 7), (6, 8), (6, 9), (6, 10), (6, 11), (6, 12), (6, 13), (6, 14), (7, 8), (7, 9), (7, 10), (7, 11), (7, 12), (7, 13), (7, 14), (8, 9), (8, 10), (8, 11), (8, 12), (8, 13), (8, 14)] ++ [(9, 10), (9, 11), (9, 12), (9, 13), (9, 14), (10, 11), (10, 12), (10, 13), (10, 14), (11, 12), (11, 13), (11, 14), (12, 13), (12, 14), (13, 14)] := by
    with_unfolding_all decide
  show (List.foldl (scanF c4s12) ((⟨0, 1⟩ : Sim), (none : Option (Nat × Nat)))
      (allPairs c4s12.length)).2 = some (0, 1)
  rw [hl, hp]
  simp only [List.foldl_append, e0, e1, e2, e3]

/-- The best-pair scan at state 13 of the C4 trace. -/
lemma c4scan13 : scanPairs c4s13 = some (1, 2) := by
  have e0 : List.foldl (scanF c4s13) ((⟨0, 1⟩ : Sim), (none : Option (Nat × Nat)))
      [(0, 1), (0, 2), (0, 3), (0, 4), (0, 5), (0, 6), (0, 7), (0, 8), (0, 9), (0, 10), (0, 11), (0, 12), (0, 13), (1, 2), (1, 3), (1, 4), (1, 5), (1, 6), (1, 7), (1, 8), (1, 9), (1, 10), (1, 11), (1, 12), (1, 13), (2, 3), (2, 4), (2, 5), (2, 6), (2, 7)] = ((⟨1, 1⟩ : Sim), some (1, 2)) := by
    with_unfolding_all decide
  have e1 : List.foldl (scanF c4s13) ((⟨1, 1⟩ : Sim), some (1, 2))
      [(2, 8), (2, 9), (2, 10), (2, 11), (2, 12), (2, 13), (3, 4), (3, 5), (3, 6), (3, 7), (3, 8), (3, 9), (3, 10), (3, 11), (3, 12), (3, 13), (4, 5), (4, 6), (4, 7), (4, 8), (4, 9), (4, 10), (4, 11), (4, 12), (4, 13), (5, 6), (5, 7), (5, 8), (5, 9), (5, 10)] = ((⟨1, 1⟩ : Sim), some (1, 2)) := by
    with_unfolding_all decide
  have e2 : List.foldl (scanF c4s13) ((⟨1, 1⟩ : Sim), some (1, 2))
      [(5, 11), (5, 12), (5, 13), (6, 7), (6, 8), (6, 9), (6, 10), (6, 11), (6, 12), (6, 13), (7, 8), (7, 9), (7, 10), (7, 11), (7, 12), (7, 13), (8, 9), (8, 10), (8, 11), (8, 12), (8, 13), (9, 10), (9, 11), (9, 12), (9, 13), (10, 11), (10, 12), (10, 13), (11, 12), (11, 13)] = ((⟨1, 1⟩ : Sim), some (1, 2)) := by
    with_unfolding_all decide
  have e3 : List.foldl (scanF c4s13) ((⟨1, 1⟩ : Sim), some (1, 2))
      [(12, 13)] = ((⟨1, 1⟩ : Sim), some (1, 2)) := by
    with_unfolding_all decide
  have hl : c4s13.length = 14 := by decide
  have hp : allPairs 14 = [(0, 1), (0, 2), (0, 3), (0, 4), (0, 5), (0, 6), (0, 7), (0, 8), (0, 9), (0, 10), (0, 11), (0, 12), (0, 13), (1, 2), (1, 3), (1, 4), (1, 5), (1, 6), (1, 7), (1, 8), (1, 9), (1, 10), (1, 11), (1, 12), (1, 13), (2, 3), (2, 4), (2, 5), (2, 6), (2, 7)] ++ [(2, 8), (2, 9), (2, 10), (2, 11), (2, 12), (2, 13), (3, 4), (3, 5), (3, 6), (3, 7), (3, 8), (3, 9), (3, 10), (3, 11), (3, 12), (3, 13), (4, 5), (4, 6), (4, 7), (4, 8), (4, 9), (4, 10), (4, 11), (4, 12), (4, 13), (5, 6), (5, 7), (5, 8), (5, 9), (5, 10)] ++ [(5, 11), (5, 12), (5, 13), (6, 7), (6, 8), (6, 9), (6, 10), (6, 11), (6, 12), (6, 13), (7, 8), (7, 9), (7, 10), (7, 11), (7, 12), (7, 13), (8, 9), (8, 10), (8, 11), (8, 12), (8, 13), (9, 10), (9, 11), (9, 12), (9, 13), (10, 11), (10, 12), (10, 13), (11, 12), (11, 13)] ++ [(12, 13)] := by
    with_unfolding_all decide
  show (List.foldl (scanF c4s13) ((⟨0, 1⟩ : Sim), (none : Option (Nat × Nat)))
      (allPairs c4s13.length)).2 = some (1, 2)
  rw [hl, hp]
  simp only [List.foldl_append, e0, e1, e2, e3]

/-- The best-pair scan at state 14 of the C4 trace. -/
lemma c4scan14 : scanPairs c4s14 = some (1, 2) := by
  have e0 : List.foldl (scanF c4s14) ((⟨0, 1⟩ : Sim), (none : Option (Nat × Nat)))
      [(0, 1), (0, 2), (0, 3), (0, 4), (0, 5), (0, 6), (0, 7), (0, 8), (0, 9), (0, 10), (0, 11), (0, 12), (1, 2), (1, 3), (1, 4), (1, 5), (1, 6), (1, 7), (1, 8), (1, 9), (1, 10), (1, 11), (1, 12), (2, 3), (2, 4), (2, 5), (2, 6), (2, 7), (2, 8), (2, 9)] = ((⟨1, 1⟩ : Sim), some (1, 2)) := by
    with_unfolding_all decide
  have e1 : List.foldl (scanF c4s14) ((⟨1, 1⟩ : Sim), some (1, 2))
      [(2, 10), (2, 11), (2, 12), (3, 4), (3, 5), (3, 6), (3, 7), (3, 8), (3, 9), (3, 10), (3, 11), (3, 12), (4, 5), (4, 6), (4, 7), (4, 8), (4, 9), (4, 10), (4, 11), (4, 12), (5, 6), (5, 7), (5, 8), (5, 9), (5, 10), (5, 11), (5, 12), (6, 7), (6, 8), (6, 9)] = ((⟨1, 1⟩ : Sim), some (1, 2)) := by
    with_unfolding_all decide
  have e2 : List.foldl (scanF c4s14) ((⟨1, 1⟩ : Sim), some (1, 2))
      [(6, 10), (6, 11), (6, 12), (7, 8), (7, 9), (7, 10), (7, 11), (7, 12), (8, 9), (8, 10), (8, 11), (8, 12), (9, 10), (9, 11), (9, 12), (10, 11), (10, 12), (11, 12)] = ((⟨1, 1⟩ : Sim), some (1, 2)) := by
    with_unfolding_all decide
  have hl : c4s14.length = 13 := by decide
  have hp : allPairs 13 = [(0, 1), (0, 2), (0, 3), (0, 4), (0, 5), (0, 6), (0, 7), (0, 8), (0, 9), (0, 10), (0, 11), (0, 12), (1, 2), (1, 3), (1, 4), (1, 5), (1, 6), (1, 7), (1, 8), (1, 9), (1, 10), (1, 11), (1, 12), (2, 3), (2, 4), (2, 5), (2, 6), (2, 7), (2, 8), (2, 9)] ++ [(2, 10), (2, 11), (2, 12), (3, 4), (3, 5), (3, 6), (3, 7), (3, 8), (3, 9), (3, 10), (3, 11), (3, 12), (4, 5), (4, 6), (4, 7), (4, 8), (4, 9), (4, 10), (4, 11), (4, 12), (5, 6), (5, 7), (5, 8), (5, 9), (5, 10), (5, 11), (5, 12), (6, 7), (6, 8), (6, 9)] ++ [(6, 10), (6, 11), (6, 12), (7, 8), (7, 9), (7, 10), (7, 11), (7, 12), (8, 9), (8, 10), (8, 11), (8, 12), (9, 10), (9, 11), (9, 12), (10, 11), (10, 12), (11, 12)] := by
    with_unfolding_all decide
  show (List.foldl (scanF c4s14) ((⟨0, 1⟩ : Sim), (none : Option (Nat × Nat)))
      (allPairs c4s14.length)).2 = some (1, 2)
  rw [hl, hp]
  simp only [List.foldl_append, e0, e1, e2]

/-- The best-pair scan at state 15 of the C4 trace. -/
lemma c4scan15 : scanPairs c4s15 = some (1, 2) := by
  have e0 : List.foldl (scanF c4s15) ((⟨0, 1⟩ : Sim), (none : Option (Nat × Nat)))
      [(0, 1), (0, 2), (0, 3), (0, 4), (0, 5), (0, 6), (0, 7), (0, 8), (0, 9), (0, 10), (0, 11), (1, 2), (1, 3), (1, 4), (1, 5), (1, 6), (1, 7), (1, 8), (1, 9), (1, 10), (1, 11), (2, 3), (2, 4), (2, 5), (2, 6), (2, 7), (2, 8), (2, 9), (2, 10), (2, 11)] = ((⟨1, 1⟩ : Sim), some (1, 2)) := by
    with_unfolding_all decide
  have e1 : List.foldl (scanF c4s15) ((⟨1, 1⟩ : Sim), some (1, 2))
      [(3, 4), (3, 5), (3, 6), (3, 7), (3, 8), (3, 9), (3, 10), (3, 11), (4, 5), (4, 6), (4, 7), (4, 8), (4, 9), (4, 10), (4, 11), (5, 6), (5, 7), (5, 8), (5, 9), (5, 10), (5, 11), (6, 7), (6, 8), (6, 9), (6, 10), (6, 11), (7, 8), (7, 9), (7, 10), (7, 11)] = ((⟨1, 1⟩ : Sim), some (1, 2)) := by
    with_unfolding_all decide
  have e2 : List.foldl (scanF c4s15) ((⟨1, 1⟩ : Sim), some (1, 2))
      [(8, 9), (8, 10), (8, 11), (9, 10), (9, 11), (10, 11)] = ((⟨1, 1⟩ : Sim), some (1, 2)) := by
    with_unfolding_all decide
  have hl : c4s15.length = 12 := by decide
  have hp : allPairs 12 = [(0, 1), (0, 2), (0, 3), (0, 4), (0, 5), (0, 6), (0, 7), (0, 8), (0, 9), (0, 10), (0, 11), (1, 2), (1, 3), (1, 4), (1, 5), (1, 6), (1, 7), (1, 8), (1, 9), (1, 10), (1, 11), (2, 3), (2, 4), (2, 5), (2, 6), (2, 7), (2, 8), (2, 9), (2, 10), (2, 11)] ++ [(3, 4), (3, 5), (3, 6), (3, 7), (3, 8), (3, 9), (3, 10), (3, 11), (4, 5), (4, 6), (4, 7), (4, 8), (4, 9), (4, 10), (4, 11), (5, 6), (5, 7), (5, 8), (5, 9), (5, 10), (5, 11), (6, 7), (6, 8), (6, 9), (6, 10), (6, 11), (7, 8), (7, 9), (7, 10), (7, 11)] ++ [(8, 9), (8, 10), (8, 11), (9, 10), (9, 11), (10, 11)] := by
    with_unfolding_all decide
  show (List.foldl (scanF c4s15) ((⟨0, 1⟩ : Sim), (none : Option (Nat × Nat)))
      (allPairs c4s15.length)).2 = some (1, 2)
  rw [hl, hp]
  simp only [List.foldl_append, e0, e1, e2]

/-- The best-pair scan at state 16 of the C4 trace. -/
lemma c4scan16 : scanPairs c4s16 = some (1, 2) := by
  have e0 : List.foldl (scanF c4s16) ((⟨0, 1⟩ : Sim), (none : Option (Nat × Nat)))
      [(0, 1), (0, 2), (0, 3), (0, 4), (0, 5), (0, 6), (0, 7), (0, 8), (0, 9), (0, 10), (1, 2), (1, 3), (1, 4), (1, 5), (1, 6), (1, 7), (1, 8), (1, 9), (1, 10), (2, 3), (2, 4), (2, 5), (2, 6), (2, 7), (2, 8), (2, 9), (2, 10), (3, 4), (3, 5), (3, 6)] = ((⟨1, 1⟩ : Sim), some (1, 2)) := by
    with_unfolding_all decide
  have e1 : List.foldl (scanF c4s16) ((⟨1, 1⟩ : Sim), some (1, 2))
      [(3, 7), (3, 8), (3, 9), (3, 10), (4, 5), (4, 6), (4, 7), (4, 8), (4, 9), (4, 10), (5, 6), (5, 7), (5, 8), (5, 9), (5, 10), (6, 7), (6, 8), (6, 9), (6, 10), (7, 8), (7, 9), (7, 10), (8, 9), (8, 10), (9, 10)] = ((⟨1, 1⟩ : Sim), some (1, 2)) := by
    with_unfolding_all decide
  have hl : c4s16.length = 11 := by decide
  have hp : allPairs 11 = [(0, 1), (0, 2), (0, 3), (0, 4), (0, 5), (0, 6), (0, 7), (0, 8), (0, 9), (0, 10), (1, 2), (1, 3), (1, 4), (1, 5), (1, 6), (1, 7), (1, 8), (1, 9), (1, 10), (2, 3), (2, 4), (2, 5), (2, 6), (2, 7), (2, 8), (2, 9), (2, 10), (3, 4), (3, 5), (3, 6)] ++ [(3, 7), (3, 8), (3, 9), (3, 10), (4, 5), (4, 6), (4, 7), (4, 8), (4, 9), (4, 10), (5, 6), (5, 7), (5, 8), (5, 9), (5, 10), (6, 7), (6, 8), (6, 9), (6, 10), (7, 8), (7, 9), (7, 10), (8, 9), (8, 10), (9, 10)] := by
    with_unfolding_all decide
  show (List.foldl (scanF c4s16) ((⟨0, 1⟩ : Sim), (none : Option (Nat × Nat)))
      (allPairs c4s16.length)).2 = some (1, 2)
  rw [hl, hp]
  simp only [List.foldl_append, e0, e1]

/-- The best-pair scan at state 17 of the C4 trace. -/
lemma c4scan17 : scanPairs c4s17 = some (1, 2) := by
  have e0 : List.foldl (scanF c4s17) ((⟨0, 1⟩ : Sim), (none : Option (Nat × Nat)))
      [(0, 1), (0, 2), (0, 3), (0, 4), (0, 5), (0, 6), (0, 7), (0, 8), (0, 9), (1, 2), (1, 3), (1, 4), (1, 5), (1, 6), (1, 7), (1, 8), (1, 9), (2, 3), (2, 4), (2, 5), (2, 6), (2, 7), (2, 8), (2, 9), (3, 4), (3, 5), (3, 6), (3, 7), (3, 8), (3, 9)] = ((⟨1, 1⟩ : Sim), some (1, 2)) := by
    with_unfolding_all decide
  have e1 : List.foldl (scanF c4s17) ((⟨1, 1⟩ : Sim), some (1, 2))
      [(4, 5), (4, 6), (4, 7), (4, 8), (4, 9), (5, 6), (5, 7), (5, 8), (5, 9), (6, 7), (6, 8), (6, 9), (7, 8), (7, 9), (8, 9)] = ((⟨1, 1⟩ : Sim), some (1, 2)) := by
    with_unfolding_all decide
  have hl : c4s17.length = 10 := by decide
  have hp : allPairs 10 = [(0, 1), (0, 2), (0, 3), (0, 4), (0, 5), (0, 6), (0, 7), (0, 8), (0, 9), (1, 2), (1, 3), (1, 4), (1, 5), (1, 6), (1, 7), (1, 8), (1, 9), (2, 3), (2, 4), (2, 5), (2, 6), (2, 7), (2, 8), (2, 9), (3, 4), (3, 5), (3, 6), (3, 7), (3, 8), (3, 9)] ++ [(4, 5), (4, 6), (4, 7), (4, 8), (4, 9), (5, 6), (5, 7), (5, 8), (5, 9), (6, 7), (6, 8), (6, 9), (7, 8), (7, 9), (8, 9)] := by
    with_unfolding_all decide
  show (List.foldl (scanF c4s17) ((⟨0, 1⟩ : Sim), (none : Option (Nat × Nat)))
      (allPairs c4s17.length)).2 = some (1, 2)
  rw [hl, hp]
  simp only [List.foldl_append, e0, e1]

/-- The best-pair scan at state 18 of the C4 trace. -/
lemma c4scan18 : scanPairs c4s18 = some (1, 2) := by
  have e0 : List.foldl (scanF c4s18) ((⟨0, 1⟩ : Sim), (none : Option (Nat × Nat)))
      [(0, 1), (0, 2), (0, 3), (0, 4), (0, 5), (0, 6), (0, 7), (0, 8), (1, 2), (1, 3), (1, 4), (1, 5), (1, 6), (1, 7), (1, 8), (2, 3), (2, 4), (2, 5), (2, 6), (2, 7), (2, 8), (3, 4), (3, 5), (3, 6), (3, 7), (3, 8), (4, 5), (4, 6), (4, 7), (4, 8)] = ((⟨1, 1⟩ : Sim), some (1, 2)) := by
    with_unfolding_all decide
  have e1 : List.foldl (scanF c4s18) ((⟨1, 1⟩ : Sim), some (1, 2))
      [(5, 6), (5, 7), (5, 8), (6, 7), (6, 8), (7, 8)] = ((⟨1, 1⟩ : Sim), some (1, 2)) := by
    with_unfolding_all decide
  have hl : c4s18.length = 9 := by decide
  have hp : allPairs 9 = [(0, 1), (0, 2), (0, 3), (0, 4), (0, 5), (0, 6), (0, 7), (0, 8), (1, 2), (1, 3), (1, 4), (1, 5), (1, 6), (1, 7), (1, 8), (2, 3), (2, 4), (2, 5), (2, 6), (2, 7), (2, 8), (3, 4), (3, 5), (3, 6), (3, 7), (3, 8), (4, 5), (4, 6), (4, 7), (4, 8)] ++ [(5, 6), (5, 7), (5, 8), (6, 7), (6, 8), (7, 8)] := by
    with_unfolding_all decide
  show (List.foldl (scanF c4s18) ((⟨0, 1⟩ : Sim), (none : Option (Nat × Nat)))
      (allPairs c4s18.length)).2 = some (1, 2)
  rw [hl, hp]
  simp only [List.foldl_append, e0, e1]

/-- The best-pair scan at state 19 of the C4 trace. -/
lemma c4scan19 : scanPairs c4s19 = some (1, 2) := by
  have e0 : List.foldl (scanF c4s19) ((⟨0, 1⟩ : Sim), (none : Option (Nat × Nat)))
      [(0, 1), (0, 2), (0, 3), (0, 4), (0, 5), (0, 6), (0, 7), (1, 2), (1, 3), (1, 4), (1, 5), (1, 6), (1, 7), (2, 3), (2, 4), (2, 5), (2, 6), (2, 7), (3, 4), (3, 5), (3, 6), (3, 7), (4, 5), (4, 6), (4, 7), (5, 6), (5, 7), (6, 7)] = ((⟨1, 1⟩ : Sim), some (1, 2)) := by
    with_unfolding_all decide
  have hl : c4s19.length = 8 := by decide
  have hp : allPairs 8 = [(0, 1), (0, 2), (0, 3), (0, 4), (0, 5), (0, 6), (0, 7), (1, 2), (1, 3), (1, 4), (1, 5), (1, 6), (1, 7), (2, 3), (2, 4), (2, 5), (2, 6), (2, 7), (3, 4), (3, 5), (3, 6), (3, 7), (4, 5), (4, 6), (4, 7), (5, 6), (5, 7), (6, 7)] := by
    with_unfolding_all decide
  show (List.foldl (scanF c4s19) ((⟨0, 1⟩ : Sim), (none : Option (Nat × Nat)))
      (allPairs c4s19.length)).2 = some (1, 2)
  rw [hl, hp]
  simp only [List.foldl_append, e0]

/-- The best-pair scan at state 20 of the C4 trace. -/
lemma c4scan20 : scanPairs c4s20 = some (1, 2) := by
  have e0 : List.foldl (scanF c4s20) ((⟨0, 1⟩ : Sim), (none : Option (Nat × Nat)))
      [(0, 1), (0, 2), (0, 3), (0, 4), (0, 5), (0, 6), (1, 2), (1, 3), (1, 4), (1, 5), (1, 6), (2, 3), (2, 4), (2, 5), (2, 6), (3, 4), (3, 5), (3, 6), (4, 5), (4, 6), (5, 6)] = ((⟨1, 1⟩ : Sim), some (1, 2)) := by
    with_unfolding_all decide
  have hl : c4s20.length = 7 := by decide
  have hp : allPairs 7 = [(0, 1), (0, 2), (0, 3), (0, 4), (0, 5), (0, 6), (1, 2), (1, 3), (1, 4), (1, 5), (1, 6), (2, 3), (2, 4), (2, 5), (2, 6), (3, 4), (3, 5), (3, 6), (4, 5), (4, 6), (5, 6)] := by
    with_unfolding_all decide
  show (List.foldl (scanF c4s20) ((⟨0, 1⟩ : Sim), (none : Option (Nat × Nat)))
      (allPairs c4s20.length)).2 = some (1, 2)
  rw [hl, hp]
  simp only [List.foldl_append, e0]

/-- The best-pair scan at state 21 of the C4 trace. -/
lemma c4scan21 : scanPairs c4s21 = some (1, 2) := by
  have e0 : List.foldl (scanF c4s21) ((⟨0, 1⟩ : Sim), (none : Option (Nat × Nat)))
      [(0, 1), (0, 2), (0, 3), (0, 4), (0, 5), (1, 2), (1, 3), (1, 4), (1, 5), (2, 3), (2, 4), (2, 5), (3, 4), (3, 5), (4, 5)] = ((⟨1, 1⟩ : Sim), some (1, 2)) := by
    with_unfolding_all decide
  have hl : c4s21.length = 6 := by decide
  have hp : allPairs 6 = [(0, 1), (0, 2), (0, 3), (0, 4), (0, 5), (1, 2), (1, 3), (1, 4), (1, 5), (2, 3), (2, 4), (2, 5), (3, 4), (3, 5), (4, 5)] := by
    with_unfolding_all decide
  show (List.foldl (scanF c4s21) ((⟨0, 1⟩ : Sim), (none : Option (Nat × Nat)))
      (allPairs c4s21.length)).2 = some (1, 2)
  rw [hl, hp]
  simp only [List.foldl_append, e0]

/-- The best-pair scan at state 22 of the C4 trace. -/
lemma c4scan22 : scanPairs c4s22 = some (1, 2) := by
  have e0 : List.foldl (scanF c4s22) ((⟨0, 1⟩ : Sim), (none : Option (Nat × Nat)))
      [(0, 1), (0, 2), (0, 3), (0, 4), (1, 2), (1, 3), (1, 4), (2, 3), (2, 4), (3, 4)] = ((⟨1, 1⟩ : Sim), some (1, 2)) := by
    with_unfolding_all decide
  have hl : c4s22.length = 5 := by decide
  have hp : allPairs 5 = [(0, 1), (0, 2), (0, 3), (0, 4), (1, 2), (1, 3), (1, 4), (2, 3), (2, 4), (3, 4)] := by
    with_unfolding_all decide
  show (List.foldl (scanF c4s22) ((⟨0, 1⟩ : Sim), (none : Option (Nat × Nat)))
      (allPairs c4s22.length)).2 = some (1, 2)
  rw [hl, hp]
  simp only [List.foldl_append, e0]

/-- The best-pair scan at state 23 of the C4 trace. -/
lemma c4scan23 : scanPairs c4s23 = some (1, 2) := by
  have e0 : List.foldl (scanF c4s23) ((⟨0, 1⟩ : Sim), (none : Option (Nat × Nat)))
      [(0, 1), (0, 2), (0, 3), (1, 2), (1, 3), (2, 3)] = ((⟨1, 1⟩ : Sim), some (1, 2)) := by
    with_unfolding_all decide
  have hl : c4s23.length = 4 := by decide
  have hp : allPairs 4 = [(0, 1), (0, 2), (0, 3), (1, 2), (1, 3), (2, 3)] := by
    with_unfolding_all decide
  show (List.foldl (scanF c4s23) ((⟨0, 1⟩ : Sim), (none : Option (Nat × Nat)))
      (allPairs c4s23.length)).2 = some (1, 2)
  rw [hl, hp]
  simp only [List.foldl_append, e0]

/-- The best-pair scan at state 24 of the C4 trace. -/
lemma c4scan24 : scanPairs c4s24 = some (1, 2) := by
  have e0 : List.foldl (scanF c4s24) ((⟨0, 1⟩ : Sim), (none : Option (Nat × Nat)))
      [(0, 1), (0, 2), (1, 2)] = ((⟨1, 1⟩ : Sim), some (1, 2)) := by
    with_unfolding_all decide
  have hl : c4s24.length = 3 := by decide
  have hp : allPairs 3 = [(0, 1), (0, 2), (1, 2)] := by
    with_unfolding_all decide
  show (List.foldl (scanF c4s24) ((⟨0, 1⟩ : Sim), (none : Option (Nat × Nat)))
      (allPairs c4s24.length)).2 = some (1, 2)
  rw [hl, hp]
  simp only [List.foldl_append, e0]

/-- Merge step 0 of the C4 trace. -/
lemma c4step0 : mergeStep (c4ids 27) c4s0 = some c4s1 := by
  simp only [mergeStep, c4scan0]
  with_unfolding_all decide

/-- Merge step 1 of the C4 trace. -/
lemma c4step1 : mergeStep (c4ids 28) c4s1 = some c4s2 := by
  simp only [mergeStep, c4scan1]
  with_unfolding_all decide

/-- Merge step 2 of the C4 trace. -/
lemma c4step2 : mergeStep (c4ids 29) c4s2 = some c4s3 := by
  simp only [mergeStep, c4scan2]
  with_unfolding_all decide

/-- Merge step 3 of the C4 trace. -/
lemma c4step3 : mergeStep (c4ids 30) c4s3 = some c4s4 := by
  simp only [mergeStep, c4scan3]
  with_unfolding_all decide

/-- Merge step 4 of the C4 trace. -/
lemma c4step4 : mergeStep (c4ids 31) c4s4 = some c4s5 := by
  simp only [mergeStep, c4scan4]
  with_unfolding_all decide

/-- Merge step 5 of the C4 trace. -/
lemma c4step5 : mergeStep (c4ids 32) c4s5 = some c4s6 := by
  simp only [mergeStep, c4scan5]
  with_unfolding_all decide

/-- Merge step 6 of the C4 trace. -/
lemma c4step6 : mergeStep (c4ids 33) c4s6 = some c4s7 := by
  simp only [mergeStep, c4scan6]
  with_unfolding_all decide

/-- Merge step 7 of the C4 trace. -/
lemma c4step7 : mergeStep (c4ids 34) c4s7 = some c4s8 := by
  simp only [mergeStep, c4scan7]
  with_unfolding_all decide

/-- Merge step 8 of the C4 trace. -/
lemma c4step8 : mergeStep (c4ids 35) c4s8 = some c4s9 := by
  simp only [mergeStep, c4scan8]
  with_unfolding_all decide

/-- Merge step 9 of the C4 trace. -/
lemma c4step9 : mergeStep (c4ids 36) c4s9 = some c4s10 := by
  simp only [mergeStep, c4scan9]
  with_unfolding_all decide

/-- Merge step 10 of the C4 trace. -/
lemma c4step10 : mergeStep (c4ids 37) c4s10 = some c4s11 := by
  simp only [mergeStep, c4scan10]
  with_unfolding_all decide

/-- Merge step 11 of the C4 trace. -/
lemma c4step11 : mergeStep (c4ids 38) c4s11 = some c4s12 := by
  simp only [mergeStep, c4scan11]
  with_unfolding_all decide

/-- Merge step 12 of the C4 trace. -/
lemma c4step12 : mergeStep (c4ids 39) c4s12 = some c4s13 := by
  simp only [mergeStep, c4scan12]
  with_unfolding_all decide

/-- Merge step 13 of the C4 trace. -/
lemma c4step13 : mergeStep (c4ids 40) c4s13 = some c4s14 := by
  simp only [mergeStep, c4scan13]
  with_unfolding_all decide

/-- Merge step 14 of the C4 trace. -/
lemma c4step14 : mergeStep (c4ids 41) c4s14 = some c4s15 := by
  simp only [mergeStep, c4scan14]
  with_unfolding_all decide

/-- Merge step 15 of the C4 trace. -/
lemma c4step15 : mergeStep (c4ids 42) c4s15 = some c4s16 := by
  simp only [mergeStep, c4scan15]
  with_unfolding_all decide

/-- Merge step 16 of the C4 trace. -/
lemma c4step16 : mergeStep (c4ids 43) c4s16 = some c4s17 := by
  simp only [mergeStep, c4scan16]
  with_unfolding_all decide

/-- Merge step 17 of the C4 trace. -/
lemma c4step17 : mergeStep (c4ids 44) c4s17 = some c4s18 := by
  simp only [mergeStep, c4scan17]
  with_unfolding_all decide

/-- Merge step 18 of the C4 trace. -/
lemma c4step18 : mergeStep (c4ids 45) c4s18 = some c4s19 := by
  simp only [mergeStep, c4scan18]
  with_unfolding_all decide

/-- Merge step 19 of the C4 trace. -/
lemma c4step19 : mergeStep (c4ids 46) c4s19 = some c4s20 := by
  simp only [mergeStep, c4scan19]
  with_unfolding_all decide

/-- Merge step 20 of the C4 trace. -/
lemma c4step20 : mergeStep (c4ids 47) c4s20 = some c4s21 := by
  simp only [mergeStep, c4scan20]
  with_unfolding_all decide

/-- Merge step 21 of the C4 trace. -/
lemma c4step21 : mergeStep (c4ids 48) c4s21 = some c4s22 := by
  simp only [mergeStep, c4scan21]
  with_unfolding_all decide

/-- Merge step 22 of the C4 trace. -/
lemma c4step22 : mergeStep (c4ids 49) c4s22 = some c4s23 := by
  simp only [mergeStep, c4scan22]
  with_unfolding_all decide

/-- Merge step 23 of the C4 trace. -/
lemma c4step23 : mergeStep (c4ids 50) c4s23 = some c4s24 := by
  simp only [mergeStep, c4scan23]
  with_unfolding_all decide

/-- At the final state the best pair (the two big `[1, 0]` clusters)
violates the size cap, so the loop stops. -/
lemma c4stop : mergeStep (c4ids 51) c4s24 = none := by
  simp only [mergeStep, c4scan24]
  with_unfolding_all decide

/-- The complete merge-loop run of the C4 trace. -/
lemma c4run : mergeLoop c4ids 27 c4s0 27 = (c4s24, 51) := by
  have t0 : mergeLoop c4ids 27 c4s0 27 = mergeLoop c4ids 26 c4s1 28 :=
    mergeLoop_cons c4ids 26 c4s0 27 c4s1 (by decide) c4step0
  have t1 : mergeLoop c4ids 26 c4s1 28 = mergeLoop c4ids 25 c4s2 29 :=
    mergeLoop_cons c4ids 25 c4s1 28 c4s2 (by decide) c4step1
  have t2 : mergeLoop c4ids 25 c4s2 29 = mergeLoop c4ids 24 c4s3 30 :=
    mergeLoop_cons c4ids 24 c4s2 29 c4s3 (by decide) c4step2
  have t3 : mergeLoop c4ids 24 c4s3 30 = mergeLoop c4ids 23 c4s4 31 :=
    mergeLoop_cons c4ids 23 c4s3 30 c4s4 (by decide) c4step3
  have t4 : mergeLoop c4ids 23 c4s4 31 = mergeLoop c4ids 22 c4s5 32 :=
    mergeLoop_cons c4ids 22 c4s4 31 c4s5 (by decide) c4step4
  have t5 : mergeLoop c4ids 22 c4s5 32 = mergeLoop c4ids 21 c4s6 33 :=
    mergeLoop_cons c4ids 21 c4s5 32 c4s6 (by decide) c4step5
  have t6 : mergeLoop c4ids 21 c4s6 33 = mergeLoop c4ids 20 c4s7 34 :=
    mergeLoop_cons c4ids 20 c4s6 33 c4s7 (by decide) c4step6
  have t7 : mergeLoop c4ids 20 c4s7 34 = mergeLoop c4ids 19 c4s8 35 :=
    mergeLoop_cons c4ids 19 c4s7 34 c4s8 (by decide) c4step7
  have t8 : mergeLoop c4ids 19 c4s8 35 = mergeLoop c4ids 18 c4s9 36 :=
    mergeLoop_cons c4ids 18 c4s8 35 c4s9 (by decide) c4step8
  have t9 : mergeLoop c4ids 18 c4s9 36 = mergeLoop c4ids 17 c4s10 37 :=
    mergeLoop_cons c4ids 17 c4s9 36 c4s10 (by decide) c4step9
  have t10 : mergeLoop c4ids 17 c4s10 37 = mergeLoop c4ids 16 c4s11 38 :=
    mergeLoop_cons c4ids 16 c4s10 37 c4s11 (by decide) c4step10
  have t11 : mergeLoop c4ids 16 c4s11 38 = mergeLoop c4ids 15 c4s12 39 :=
    mergeLoop_cons c4ids 15 c4s11 38 c4s12 (by decide) c4step11
  have t12 : mergeLoop c4ids 15 c4s12 39 = mergeLoop c4ids 14 c4s13 40 :=
    mergeLoop_cons c4ids 14 c4s12 39 c4s13 (by decide) c4step12
  have t13 : mergeLoop c4ids 14 c4s13 40 = mergeLoop c4ids 13 c4s14 41 :=
    mergeLoop_cons c4ids 13 c4s13 40 c4s14 (by decide) c4step13
  have t14 : mergeLoop c4ids 13 c4s14 41 = mergeLoop c4ids 12 c4s15 42 :=
    mergeLoop_cons c4ids 12 c4s14 41 c4s15 (by decide) c4step14
  have t15 : mergeLoop c4ids 12 c4s15 42 = mergeLoop c4ids 11 c4s16 43 :=
    mergeLoop_cons c4ids 11 c4s15 42 c4s16 (by decide) c4step15
  have t16 : mergeLoop c4ids 11 c4s16 43 = mergeLoop c4ids 10 c4s17 44 :=
    mergeLoop_cons c4ids 10 c4s16 43 c4s17 (by decide) c4step16
  have t17 : mergeLoop c4ids 10 c4s17 44 = mergeLoop c4ids 9 c4s18 45 :=
    mergeLoop_cons c4ids 9 c4s17 44 c4s18 (by decide) c4step17
  have t18 : mergeLoop c4ids 9 c4s18 45 = mergeLoop c4ids 8 c4s19 46 :=
    mergeLoop_cons c4ids 8 c4s18 45 c4s19 (by decide) c4step18
  have t19 : mergeLoop c4ids 8 c4s19 46 = mergeLoop c4ids 7 c4s20 47 :=
    mergeLoop_cons c4ids 7 c4s19 46 c4s20 (by decide) c4step19
  have t20 : mergeLoop c4ids 7 c4s20 47 = mergeLoop c4ids 6 c4s21 48 :=
    mergeLoop_cons c4ids 6 c4s20 47 c4s21 (by decide) c4step20
  have t21 : mergeLoop c4ids 6 c4s21 48 = mergeLoop c4ids 5 c4s22 49 :=
    mergeLoop_cons c4ids 5 c4s21 48 c4s22 (by decide) c4step21
  have t22 : mergeLoop c4ids 5 c4s22 49 = mergeLoop c4ids 4 c4s23 50 :=
    mergeLoop_cons c4ids 4 c4s22 49 c4s23 (by decide) c4step22
  have t23 : mergeLoop c4ids 4 c4s23 50 = mergeLoop c4ids 3 c4s24 51 :=
    mergeLoop_cons c4ids 3 c4s23 50 c4s24 (by decide) c4step23
  have t24 : mergeLoop c4ids 3 c4s24 51 = (c4s24, 51) :=
    mergeLoop_stop c4ids 2 c4s24 51 (by decide) c4stop
  exact t0.trans (t1.trans (t2.trans (t3.trans (t4.trans (t5.trans (t6.trans (t7.trans (t8.trans (t9.trans (t10.trans (t11.trans (t12.trans (t13.trans (t14.trans (t15.trans (t16.trans (t17.trans (t18.trans (t19.trans (t20.trans (t21.trans (t22.trans (t23.trans (t24))))))))))))))))))))))))

/-- **Claim C4, counterexample.**  Starting from the 27 text groups of
`c4items` (26 embedded at `[1, 0]`, one at `[4/5, 3/5]`), the merge loop of
`agglomerativeClusterWithPids` terminates — no step fires any more — with
three clusters, although the pair of clusters at indices 0 and 1 still has
centroid cosine similarity `0.8 ≥ 0.8` and combined unique-text-group count
`11 ≤ 25`.  This refutes the claim that, on termination with more than one
cluster, no pair at or above the merge threshold and within the size cap
remains. -/
theorem c4_counterexample :
    1 < (aggloMerged c4ids c4items).length ∧
    (∀ s, mergeStep s (aggloMerged c4ids c4items) = none) ∧
    (4 : ℝ) / 5 ≤ cosineSimilarity (centroidAt (aggloMerged c4ids c4items) 0)
        (centroidAt (aggloMerged c4ids c4items) 1) ∧
    ((aggloMerged c4ids c4items).getD 0 default).embeddings.length +
        ((aggloMerged c4ids c4items).getD 1 default).embeddings.length
      ≤ maxClusterSize := by
  have hinit : aggloInit c4ids c4items = c4s0 := by with_unfolding_all decide
  have hm : aggloMerged c4ids c4items = c4s24 := by
    unfold aggloMerged
    rw [hinit]
    rw [show c4s0.length = 27 from by decide, show c4items.length = 27 from by decide]
    rw [c4run]
  rw [hm]
  refine ⟨by decide, ?_, ?_, by decide⟩
  · intro s
    exact mergeStep_none_indep (c4ids 51) s _ c4stop
  · have hq : (simOfVecs (centroidAt c4s24 0) (centroidAt c4s24 1)).geQ
        mergeThreshold = true := by with_unfolding_all decide
    have hd := simOfVecs_den2_pos (centroidAt c4s24 0) (centroidAt c4s24 1)
    have hle := (Sim.geQ_iff _ hd mergeThreshold).mp hq
    rw [simOfVecs_toReal] at hle
    have hth : ((mergeThreshold : ℚ) : ℝ) = (4 : ℝ) / 5 := by
      norm_num [mergeThreshold]
    rw [hth] at hle
    exact hle
